import Mathlib

/-!
# Order workflow and transaction coordinator

Shallow embedding of

* `internal/service/order/order.go`   (`impl.CreateOrder`)
* `internal/service/order/errors.go`  (`ErrUserNotExist`, `ErrProductNotExist`)
* `internal/repository/repo.go`       (`impl.Tx`)
* `internal/repository/order/order.go`     (`CreateOrder`, `CreateItem`)
* `internal/repository/product/product.go` (`GetProduct`, `UpdateProduct`)
* `internal/repository/user/user.go`       (`ExistsUserByID`)

Everything below the repositories (the generated `model` package, `database/sql`,
`uuid`, `time`) is the environment: a record `Env σ` of handlers over a state `σ`.
Each handler may return any value and any error and may change the state.
Stateful Go code is written in state-passing style; service-level functions also
return the list of calls they made, in the order they made them.
-/

namespace S3Corp

/-! ## Go values -/

/-- Go `float64`, represented by its IEEE-754 bit pattern. The order workflow only
copies such values. -/
structure Float64 where
  bits : Nat := 0
deriving DecidableEq, Repr

/-- Go `time.Time`, as a count of nanoseconds; `0` is the zero time. -/
abbrev Time := Int

/-- Go `error` values (non-nil). The three sentinels are the package-level
`errors.New` values `sql.ErrNoRows`, `order.ErrUserNotExist` and
`order.ErrProductNotExist`; `errorString` is any other message-only error (what
`errors.New` and `fmt.Errorf` without `%w` build); `wrapError` is an error that
has an `Unwrap` target; `errorResponse` is a value of the struct
`utils.ErrorResponse` (`pkg/utils/error.go`), which compares field by field. -/
inductive GoError where
  | ErrNoRows
  | ErrUserNotExist
  | ErrProductNotExist
  | errorString (s : String)
  | wrapError (msg : String) (err : GoError)
  | errorResponse (Status : Int) (Code : String) (Desc : String)
deriving DecidableEq, Repr

/-- Go `err.Error()`. -/
def GoError.Error : GoError → String
  | .ErrNoRows => "sql: no rows in result set"
  | .ErrUserNotExist => "user does not exist"
  | .ErrProductNotExist => "product does not exist"
  | .errorString s => s
  | .wrapError msg _ => msg
  | .errorResponse status code desc =>
    "\x7b\"status\":" ++ toString status ++ ",\"code\":\"" ++ code ++ "\",\"desc\":\"" ++ desc
      ++ "\"\x7d"

/-- Go `errors.Is(err, target)` for a non-nil `err`: walk the `Unwrap` chain and
compare each link with `target` (errors with an `Is` method of their own are not
modelled). -/
def GoError.Is (err target : GoError) : Bool :=
  match err with
  | .wrapError msg inner => decide (GoError.wrapError msg inner = target) || inner.Is target
  | e => decide (e = target)

/-- Go `errors.Is(err, target)` where `err` may be nil. -/
def errorsIs (err : Option GoError) (target : GoError) : Bool :=
  match err with
  | none => false
  | some e => e.Is target

/-- Go `fmt.Errorf(format + "%v", err)`: a fresh message-only error. -/
def fmtErrorf (msg : String) (err : GoError) : GoError :=
  .errorString (msg ++ err.Error)

/-! ## Data model (`internal/model`) -/

/-- Row of table `products` (`model.Product`). -/
structure Product where
  ID : Int := 0
  Title : String := ""
  Description : String := ""
  Price : Float64 := {}
  Quantity : Int := 0
  IsActive : Bool := false
  UserID : Int := 0
  CreatedAt : Time := 0
  UpdatedAt : Time := 0
deriving DecidableEq, Repr

/-- Row of table `orders` (`model.Order`). -/
structure Order where
  ID : Int := 0
  OrderNumber : String := ""
  OrderDate : Time := 0
  Status : String := ""
  Note : String := ""
  UserID : Int := 0
  CreatedAt : Time := 0
  UpdatedAt : Time := 0
deriving DecidableEq, Repr

/-- Row of table `order_items` (`model.OrderItem`). -/
structure OrderItem where
  ID : Int := 0
  OrderID : Int := 0
  ProductID : Int := 0
  ProductPrice : Float64 := {}
  ProductName : String := ""
  Quantity : Int := 0
  Discount : Float64 := {}
  Note : String := ""
  CreatedAt : Time := 0
  UpdatedAt : Time := 0
deriving DecidableEq, Repr

/-- Handle of an open transaction (`*sql.Tx`). -/
abbrev TxHandle := Nat

/-! ## Environment -/

/-- The collaborators below the repositories. Every handler takes the current
state and returns its Go results together with the next state. -/
structure Env (σ : Type) where
  /-- `model.Users(model.UserWhere.ID.EQ(id)).Exists(ctx, db)` -/
  usersExists : Int → σ → (Bool × Option GoError) × σ
  /-- `model.Products(qm.Where("id=?", id)).One(ctx, db)`; `none` is the nil pointer -/
  productsOne : Int → σ → (Option Product × Option GoError) × σ
  /-- `product.Update(ctx, db, boil.Infer())`: rows affected and error -/
  productUpdate : Product → σ → (Int × Option GoError) × σ
  /-- `db.BeginTx(ctx, opts)` -/
  beginTx : σ → (TxHandle × Option GoError) × σ
  /-- `uuid.NewV4()` followed by `.String()` -/
  uuidNewV4 : σ → (String × Option GoError) × σ
  /-- `time.Now()` -/
  timeNow : σ → Time × σ
  /-- `order.Insert(ctx, tx, boil.Infer())`: the struct as the insert left it, and the error -/
  orderInsert : TxHandle → Order → σ → (Order × Option GoError) × σ
  /-- `item.Insert(ctx, tx, boil.Infer())` -/
  orderItemInsert : TxHandle → OrderItem → σ → Option GoError × σ
  /-- `tx.Rollback()` -/
  rollback : TxHandle → σ → Option GoError × σ
  /-- `tx.Commit()` -/
  commit : TxHandle → σ → Option GoError × σ
  /-- `model.Products(model.ProductWhere.ID.EQ(id)).Exists(ctx, db)` -/
  productsExists : Int → σ → (Bool × Option GoError) × σ

/-- One call made by the service or by the transaction coordinator, with its
arguments and with what it returned. -/
inductive Call where
  | ExistsUserByID (id : Int) (existed : Bool) (err : Option GoError)
  | GetProduct (id : Int) (product : Product) (err : Option GoError)
  | BeginTx (tx : TxHandle) (err : Option GoError)
  | NewV4 (orderNumber : String) (err : Option GoError)
  | Now (t : Time)
  | CreateOrder (tx : TxHandle) (order : Order) (ret : Order) (err : Option GoError)
  | CreateItem (tx : TxHandle) (item : OrderItem) (err : Option GoError)
  | Rollback (tx : TxHandle) (err : Option GoError)
  | Commit (tx : TxHandle) (err : Option GoError)
deriving DecidableEq, Repr

def Call.isExistsUserByID : Call → Bool
  | .ExistsUserByID _ _ _ => true
  | _ => false

def Call.isGetProduct : Call → Bool
  | .GetProduct _ _ _ => true
  | _ => false

def Call.isBeginTx : Call → Bool
  | .BeginTx _ _ => true
  | _ => false

def Call.isCreateOrder : Call → Bool
  | .CreateOrder _ _ _ _ => true
  | _ => false

def Call.isCreateItem : Call → Bool
  | .CreateItem _ _ _ => true
  | _ => false

/-- An insert of an order header or of an order item. -/
def Call.isInsert (c : Call) : Bool :=
  c.isCreateOrder || c.isCreateItem

def Call.isRollback : Call → Bool
  | .Rollback _ _ => true
  | _ => false

def Call.isCommit : Call → Bool
  | .Commit _ _ => true
  | _ => false

/-- The error a call returned (`nil` for a clock read). -/
def Call.err : Call → Option GoError
  | .ExistsUserByID _ _ err => err
  | .GetProduct _ _ err => err
  | .BeginTx _ err => err
  | .NewV4 _ err => err
  | .Now _ => none
  | .CreateOrder _ _ _ err => err
  | .CreateItem _ _ err => err
  | .Rollback _ err => err
  | .Commit _ err => err

/-- Stage of the order workflow a call belongs to: user check, product lookups,
opening of the transaction, order-number generation and clock read, header insert,
item inserts, end of the transaction. -/
def Call.phase : Call → Nat
  | .ExistsUserByID _ _ _ => 0
  | .GetProduct _ _ _ => 1
  | .BeginTx _ _ => 2
  | .NewV4 _ _ => 3
  | .Now _ => 3
  | .CreateOrder _ _ _ _ => 4
  | .CreateItem _ _ _ => 5
  | .Rollback _ _ => 6
  | .Commit _ _ => 6

/-- In `calls`, every call that satisfies `P` occurs before every call that
satisfies `Q`. -/
def Precedes (P Q : Call → Bool) (calls : List Call) : Prop :=
  ∀ (i j : Nat) (a b : Call), calls[i]? = some a → calls[j]? = some b →
    P a = true → Q b = true → i < j

/-! ## Repositories -/

namespace UserRepo

/-- `internal/repository/user/user.go`, `ExistsUserByID`. -/
def ExistsUserByID {σ : Type} (env : Env σ) (id : Int) (s : σ) : (Bool × Option GoError) × σ :=
  env.usersExists id s

end UserRepo

namespace ProductRepo

/-- `internal/repository/product/product.go`, `GetProduct`. -/
def GetProduct {σ : Type} (env : Env σ) (id : Int) (s : σ) : (Product × Option GoError) × σ :=
  match env.productsOne id s with
  | ((none, err), s1) => (({}, err), s1)
  | ((some product, err), s1) => ((product, err), s1)

/-- `internal/repository/product/product.go`, `UpdateProduct`. -/
def UpdateProduct {σ : Type} (env : Env σ) (product : Product) (s : σ) :
    (Int × Option GoError) × σ :=
  match env.productUpdate product s with
  | ((_, some err), s1) => ((0, some err), s1)
  | ((affected, none), s1) => ((affected, none), s1)

end ProductRepo

namespace OrderRepo

/-- `internal/repository/order/order.go`, `CreateOrder`. -/
def CreateOrder {σ : Type} (env : Env σ) (tx : TxHandle) (order : Order) (s : σ) :
    (Order × Option GoError) × σ :=
  match env.orderInsert tx order s with
  | ((_, some err), s1) => (({}, some err), s1)
  | ((order1, none), s1) => ((order1, none), s1)

/-- `internal/repository/order/order.go`, `CreateItem`. -/
def CreateItem {σ : Type} (env : Env σ) (tx : TxHandle) (item : OrderItem) (s : σ) :
    Option GoError × σ :=
  env.orderItemInsert tx item s

end OrderRepo

namespace Repository

/-- `internal/repository/repo.go`, `impl.Tx`. The unit of work `fn` returns its
error, the calls it made and the next state. -/
def Tx {σ : Type} (env : Env σ) (fn : TxHandle → σ → Option GoError × List Call × σ) (s : σ) :
    Option GoError × List Call × σ :=
  match env.beginTx s with
  | ((tx, some err), s1) => (some err, [Call.BeginTx tx (some err)], s1)
  | ((tx, none), s1) =>
    match fn tx s1 with
    | (some err, calls, s2) =>
      match env.rollback tx s2 with
      | (rerr, s3) => (some err, Call.BeginTx tx none :: calls ++ [Call.Rollback tx rerr], s3)
    | (none, calls, s2) =>
      match env.commit tx s2 with
      | (cerr, s3) => (cerr, Call.BeginTx tx none :: calls ++ [Call.Commit tx cerr], s3)

end Repository

/-! ## Order service -/

namespace OrderService

def OrderStatusNew : String := "NEW"
def OrderStatusPending : String := "PENDING"
def OrderStatusSuccess : String := "SUCCESS"
def OrderStatusFailed : String := "FAILED"

def ErrUserNotExist : GoError := .ErrUserNotExist
def ErrProductNotExist : GoError := .ErrProductNotExist

structure OrderItemInput where
  ProductID : Int := 0
  ProductPrice : Float64 := {}
  ProductName : String := ""
  Quantity : Int := 0
  Discount : Float64 := {}
  Note : String := ""
deriving DecidableEq, Repr

structure OrderInput where
  Note : String := ""
  UserID : Int := 0
  Items : List OrderItemInput := []
deriving DecidableEq, Repr

/-- `CreateOrder`, lines 51-60: the loop that looks every product up and writes its
title and price into the item. On success the result is the updated item list, which
the unit of work reads afterwards. On the error path the service reads the items no
more, so the items overwritten until then are not returned. -/
def checkProducts {σ : Type} (env : Env σ) :
    List OrderItemInput → σ → Except GoError (List OrderItemInput) × List Call × σ
  | [], s => (.ok [], [], s)
  | item :: rest, s =>
    match ProductRepo.GetProduct env item.ProductID s with
    | ((product, err), s1) =>
      if errorsIs err GoError.ErrNoRows then
        (.error ErrProductNotExist, [Call.GetProduct item.ProductID product err], s1)
      else
        match err with
        | some e => (.error e, [Call.GetProduct item.ProductID product err], s1)
        | none =>
          match checkProducts env rest s1 with
          | (.error e, calls, s2) =>
            (.error e, Call.GetProduct item.ProductID product err :: calls, s2)
          | (.ok rest1, calls, s2) =>
            (.ok ({ item with ProductName := product.Title, ProductPrice := product.Price }
                :: rest1),
              Call.GetProduct item.ProductID product err :: calls, s2)

/-- The `model.OrderItem` built at lines 83-91 for one input item. -/
def toOrderItem (orderID : Int) (item : OrderItemInput) : OrderItem :=
  { OrderID := orderID
    ProductID := item.ProductID
    ProductPrice := item.ProductPrice
    ProductName := item.ProductName
    Quantity := item.Quantity
    Discount := item.Discount
    Note := item.Note }

/-- `CreateOrder`, lines 82-94: the loop that inserts the order items. -/
def createItems {σ : Type} (env : Env σ) (tx : TxHandle) (orderID : Int) :
    List OrderItemInput → σ → Option GoError × List Call × σ
  | [], s => (none, [], s)
  | item :: rest, s =>
    match OrderRepo.CreateItem env tx (toOrderItem orderID item) s with
    | (some err, s1) =>
      (some (fmtErrorf "error when create order item: " err),
        [Call.CreateItem tx (toOrderItem orderID item) (some err)], s1)
    | (none, s1) =>
      match createItems env tx orderID rest s1 with
      | (r, calls, s2) => (r, Call.CreateItem tx (toOrderItem orderID item) none :: calls, s2)

/-- The `model.Order` built at lines 70-76. -/
def newOrder (orderNumber : String) (now : Time) (input : OrderInput) : Order :=
  { OrderNumber := orderNumber
    OrderDate := now
    Status := OrderStatusNew
    Note := input.Note
    UserID := input.UserID }

/-- `CreateOrder`, lines 62-97: the unit of work handed to `Tx`. -/
def createOrderTx {σ : Type} (env : Env σ) (input : OrderInput) (tx : TxHandle) (s : σ) :
    Option GoError × List Call × σ :=
  match env.uuidNewV4 s with
  | ((orderNumber, some err), s1) =>
    (some (fmtErrorf "error when generate order number: " err),
      [Call.NewV4 orderNumber (some err)], s1)
  | ((orderNumber, none), s1) =>
    match env.timeNow s1 with
    | (now, s2) =>
      match OrderRepo.CreateOrder env tx (newOrder orderNumber now input) s2 with
      | ((order, some err), s3) =>
        (some (fmtErrorf "error when create order: " err),
          [Call.NewV4 orderNumber none, Call.Now now,
            Call.CreateOrder tx (newOrder orderNumber now input) order (some err)], s3)
      | ((order, none), s3) =>
        match createItems env tx order.ID input.Items s3 with
        | (r, calls, s4) =>
          (r,
            Call.NewV4 orderNumber none :: Call.Now now ::
              Call.CreateOrder tx (newOrder orderNumber now input) order none :: calls, s4)

/-- `internal/service/order/order.go`, `impl.CreateOrder`: the returned error, the
calls made and the final state. -/
def CreateOrder {σ : Type} (env : Env σ) (input : OrderInput) (s : σ) :
    Option GoError × List Call × σ :=
  match UserRepo.ExistsUserByID env input.UserID s with
  | ((existed, some err), s1) =>
    (some err, [Call.ExistsUserByID input.UserID existed (some err)], s1)
  | ((false, none), s1) =>
    (some ErrUserNotExist, [Call.ExistsUserByID input.UserID false none], s1)
  | ((true, none), s1) =>
    match checkProducts env input.Items s1 with
    | (.error err, calls, s2) =>
      (some err, Call.ExistsUserByID input.UserID true none :: calls, s2)
    | (.ok items, calls, s2) =>
      match Repository.Tx env (createOrderTx env { input with Items := items }) s2 with
      | (err, calls2, s3) =>
        (err, Call.ExistsUserByID input.UserID true none :: calls ++ calls2, s3)

/-! ## Scripted collaborators

Concrete environments for running the service on explicit inputs, in the manner of
`mockData` in `internal/service/order/order_test.go`. -/

/-- What each collaborator answers: the `i`-th product lookup answers
`product[i]` with `productErr[i]`, the `i`-th item insert answers `itemErr[i]`; the
existence query on table `products` answers `productExist` with `productExistErr`. -/
structure Script where
  userExist : Bool := true
  userErr : Option GoError := none
  product : List (Option Product) := []
  productErr : List (Option GoError) := []
  beginErr : Option GoError := none
  uuidErr : Option GoError := none
  orderID : Int := 1
  orderErr : Option GoError := none
  itemErr : List (Option GoError) := []
  rollbackErr : Option GoError := none
  commitErr : Option GoError := none
  productExist : Bool := true
  productExistErr : Option GoError := none

/-- How many product lookups and item inserts were answered so far, and how many
times a transaction was rolled back and committed. -/
structure ScriptState where
  lookups : Nat := 0
  inserts : Nat := 0
  rolledBack : Nat := 0
  committed : Nat := 0
deriving DecidableEq, Repr

/-- The environment that answers from a script. -/
def scriptEnv (sc : Script) : Env ScriptState where
  usersExists := fun _ s => ((sc.userExist, sc.userErr), s)
  productsOne := fun _ s =>
    ((sc.product.getD s.lookups none, sc.productErr.getD s.lookups none),
      { s with lookups := s.lookups + 1 })
  productUpdate := fun _ s => ((1, none), s)
  beginTx := fun s => ((1, sc.beginErr), s)
  uuidNewV4 := fun s => (("6ba7b810-9dad-41d1-80b4-00c04fd430c8", sc.uuidErr), s)
  timeNow := fun s => (1000, s)
  orderInsert := fun _ order s => (({ order with ID := sc.orderID }, sc.orderErr), s)
  orderItemInsert := fun _ _ s => (sc.itemErr.getD s.inserts none, { s with inserts := s.inserts + 1 })
  rollback := fun _ s => (sc.rollbackErr, { s with rolledBack := s.rolledBack + 1 })
  commit := fun _ s => (sc.commitErr, { s with committed := s.committed + 1 })
  productsExists := fun _ s => ((sc.productExist, sc.productExistErr), s)

/-- The order of the test cases of `TestOrderService_CreateOrder`: user 2, two items. -/
def testInput : OrderInput :=
  { Note := "New order"
    UserID := 2
    Items :=
      [ { ProductID := 1, Quantity := 10, Discount := { bits := 0 }, Note := "item 1" },
        { ProductID := 3, Quantity := 20, Discount := { bits := 0x3FE0000000000000 },
          Note := "item 2" } ] }

/-- The two products of the test cases: prices 100 and 200. -/
def testProducts : List (Option Product) :=
  [ some { ID := 1, Title := "product 1", Price := { bits := 0x4059000000000000 } },
    some { ID := 2, Title := "product 2", Price := { bits := 0x4069000000000000 } } ]

/-- Lookup answers when the second product has no row: the query returns a nil
pointer together with `sql.ErrNoRows`. -/
def testSecondMissing : Script :=
  { product := [testProducts.getD 0 none, none], productErr := [none, some .ErrNoRows] }

/-- Everything succeeds. -/
def testAllOK : Script :=
  { product := testProducts }

/-- The user does not exist. -/
def testUserMissing : Script :=
  { userExist := false, product := testProducts }

/-- The user-existence lookup fails. -/
def testUserLookupFails : Script :=
  { userErr := some (.errorString "connection refused") }

/-- The second product lookup fails with an error other than "no rows". -/
def testProductLookupFails : Script :=
  { product := testProducts, productErr := [none, some (.errorString "connection refused")] }

/-- The transaction cannot be opened. -/
def testBeginFails : Script :=
  { product := testProducts, beginErr := some (.errorString "too many connections") }

/-- No order number can be generated. -/
def testUuidFails : Script :=
  { product := testProducts, uuidErr := some (.errorString "unexpected end of input") }

/-- The header insert fails. -/
def testHeaderFails : Script :=
  { product := testProducts, orderErr := some (.errorString "pq: connection reset") }

/-- The insert of the second item fails. -/
def testItemFails : Script :=
  { product := testProducts, itemErr := [none, some (.errorString "pq: connection reset")] }

/-- Every insert succeeds and the commit fails. -/
def testCommitFails : Script :=
  { product := testProducts, commitErr := some (.errorString "commit failed") }

/-- The rollback fails. -/
def testRollbackFails : Script :=
  { rollbackErr := some (.errorString "driver: bad connection") }

/-! ## In-memory store

The tables behind the generated `model` package, for statements about stored rows. -/

/-- Modelled from the spec: the relational store (tables `users`, `products`,
`orders`, `order_items`) that the generated `model` package reads and writes; its
code is not among the sources. An order item row holds its own copy of product
price and product name; `saved` holds the order tables as they were when the open
transaction began. -/
structure MemDB where
  users : List Int := []
  products : List Product := []
  orders : List Order := []
  orderItems : List OrderItem := []
  saved : Option (List Order × List OrderItem) := none
  nextID : Int := 1
  clock : Time := 1
deriving DecidableEq, Repr

/-- The row of table `products` with the given id, if there is one. -/
def MemDB.product (db : MemDB) (id : Int) : Option Product :=
  db.products.find? (fun p => decide (p.ID = id))

/-- The error of `database/sql` for a transaction that is already finished. -/
def ErrTxDone : GoError :=
  .errorString "sql: transaction has already been committed or rolled back"

/-- Modelled from the spec: what the queries of the generated `model` package
(`Users(...).Exists`, `Products(...).One`, `Products(...).Exists`, `Product.Update`,
`Order.Insert`, `OrderItem.Insert`) and the transaction of `database/sql` do on the store. A lookup
reads; `Product.Update` rewrites the rows of table `products` with the given id and
touches no other table; an insert appends one row with a fresh id; `Rollback`
restores the order tables saved by `BeginTx`, `Commit` keeps them. -/
def memEnv : Env MemDB where
  usersExists := fun id db => ((decide (id ∈ db.users), none), db)
  productsOne := fun id db =>
    match db.product id with
    | some p => ((some p, none), db)
    | none => ((none, some .ErrNoRows), db)
  productUpdate := fun product db =>
    (((db.products.filter (fun p => decide (p.ID = product.ID))).length, none),
      { db with
        products := db.products.map (fun p =>
          if p.ID = product.ID then { product with UpdatedAt := db.clock } else p)
        clock := db.clock + 1 })
  beginTx := fun db => ((1, none), { db with saved := some (db.orders, db.orderItems) })
  uuidNewV4 := fun db => (("6ba7b810-9dad-41d1-80b4-00c04fd430c8", none), db)
  timeNow := fun db => (db.clock, { db with clock := db.clock + 1 })
  orderInsert := fun _ order db =>
    (({ order with ID := db.nextID, CreatedAt := db.clock, UpdatedAt := db.clock }, none),
      { db with
        orders := db.orders ++
          [{ order with ID := db.nextID, CreatedAt := db.clock, UpdatedAt := db.clock }]
        nextID := db.nextID + 1
        clock := db.clock + 1 })
  orderItemInsert := fun _ item db =>
    (none,
      { db with
        orderItems := db.orderItems ++
          [{ item with ID := db.nextID, CreatedAt := db.clock, UpdatedAt := db.clock }]
        nextID := db.nextID + 1
        clock := db.clock + 1 })
  rollback := fun _ db =>
    match db.saved with
    | some (orders, orderItems) =>
      (none, { db with orders := orders, orderItems := orderItems, saved := none })
    | none => (some ErrTxDone, db)
  commit := fun _ db =>
    match db.saved with
    | some _ => (none, { db with saved := none })
    | none => (some ErrTxDone, db)
  productsExists := fun id db => ((db.products.any (fun p => decide (p.ID = id)), none), db)

/-- A store with user 2 and the products 1 (price 100) and 3 (price 200). -/
def testDB : MemDB :=
  { users := [1, 2]
    products :=
      [ { ID := 1, Title := "product 1", Price := { bits := 0x4059000000000000 }, UserID := 1 },
        { ID := 3, Title := "product 3", Price := { bits := 0x4069000000000000 }, UserID := 1 } ] }

/-! ## Shapes of a run

The calls of one `CreateOrder` run, described piece by piece. -/

/-- The successful lookups of the first `products.length` items. -/
def lookupCalls (items : List OrderItemInput) (products : List Product) : List Call :=
  List.zipWith (fun item product => Call.GetProduct item.ProductID product none) items products

/-- The items after lines 58-59 copied title and price of the looked-up products. -/
def snapshot (items : List OrderItemInput) (products : List Product) : List OrderItemInput :=
  List.zipWith
    (fun item product => { item with ProductName := product.Title, ProductPrice := product.Price })
    items products

/-- Successful inserts of the given items. -/
def itemCalls (tx : TxHandle) (orderID : Int) (items : List OrderItemInput) : List Call :=
  items.map (fun item => Call.CreateItem tx (toOrderItem orderID item) none)

/-- What the product loop returns and which calls it makes. -/
inductive CheckRun (items : List OrderItemInput) :
    Except GoError (List OrderItemInput) → List Call → Prop where
  | ok (products : List Product) (hlen : products.length = items.length) :
      CheckRun items (.ok (snapshot items products)) (lookupCalls items products)
  | notFound (products : List Product) (hlt : products.length < items.length)
      (product : Product) (err : Option GoError) (his : errorsIs err GoError.ErrNoRows = true) :
      CheckRun items (.error ErrProductNotExist)
        (lookupCalls items products ++
          [Call.GetProduct (items.get ⟨products.length, hlt⟩).ProductID product err])
  | failed (products : List Product) (hlt : products.length < items.length)
      (product : Product) (e : GoError) (his : errorsIs (some e) GoError.ErrNoRows = false) :
      CheckRun items (.error e)
        (lookupCalls items products ++
          [Call.GetProduct (items.get ⟨products.length, hlt⟩).ProductID product (some e)])

/-- What the item loop returns and which calls it makes. -/
inductive ItemsRun (tx : TxHandle) (orderID : Int) (items : List OrderItemInput) :
    Option GoError → List Call → Prop where
  | ok : ItemsRun tx orderID items none (itemCalls tx orderID items)
  | failed (k : Nat) (hk : k < items.length) (cause : GoError) :
      ItemsRun tx orderID items (some (fmtErrorf "error when create order item: " cause))
        (itemCalls tx orderID (items.take k) ++
          [Call.CreateItem tx (toOrderItem orderID (items.get ⟨k, hk⟩)) (some cause)])

/-- What the unit of work returns and which calls it makes. -/
inductive TxBodyRun (input : OrderInput) (tx : TxHandle) :
    Option GoError → List Call → Prop where
  | uuidFailed (orderNumber : String) (cause : GoError) :
      TxBodyRun input tx (some (fmtErrorf "error when generate order number: " cause))
        [Call.NewV4 orderNumber (some cause)]
  | headerFailed (orderNumber : String) (now : Time) (cause : GoError) :
      TxBodyRun input tx (some (fmtErrorf "error when create order: " cause))
        [Call.NewV4 orderNumber none, Call.Now now,
          Call.CreateOrder tx (newOrder orderNumber now input) {} (some cause)]
  | items (orderNumber : String) (now : Time) (order : Order) (r : Option GoError)
      (calls : List Call) (h : ItemsRun tx order.ID input.Items r calls) :
      TxBodyRun input tx r
        (Call.NewV4 orderNumber none :: Call.Now now ::
          Call.CreateOrder tx (newOrder orderNumber now input) order none :: calls)

/-- What `CreateOrder` returns and which calls it makes. -/
inductive CreateOrderRun (input : OrderInput) : Option GoError → List Call → Prop where
  | userFailed (existed : Bool) (e : GoError) :
      CreateOrderRun input (some e) [Call.ExistsUserByID input.UserID existed (some e)]
  | userNotExist :
      CreateOrderRun input (some ErrUserNotExist) [Call.ExistsUserByID input.UserID false none]
  | productFailed (e : GoError) (calls : List Call)
      (h : CheckRun input.Items (.error e) calls) :
      CreateOrderRun input (some e) (Call.ExistsUserByID input.UserID true none :: calls)
  | beginFailed (products : List Product) (hlen : products.length = input.Items.length)
      (tx : TxHandle) (e : GoError) :
      CreateOrderRun input (some e)
        (Call.ExistsUserByID input.UserID true none ::
          lookupCalls input.Items products ++ [Call.BeginTx tx (some e)])
  | rolledBack (products : List Product) (hlen : products.length = input.Items.length)
      (tx : TxHandle) (e : GoError) (calls : List Call) (rerr : Option GoError)
      (h : TxBodyRun { input with Items := snapshot input.Items products } tx (some e) calls) :
      CreateOrderRun input (some e)
        (Call.ExistsUserByID input.UserID true none ::
          lookupCalls input.Items products ++
            (Call.BeginTx tx none :: calls ++ [Call.Rollback tx rerr]))
  | committed (products : List Product) (hlen : products.length = input.Items.length)
      (tx : TxHandle) (calls : List Call) (cerr : Option GoError)
      (h : TxBodyRun { input with Items := snapshot input.Items products } tx none calls) :
      CreateOrderRun input cerr
        (Call.ExistsUserByID input.UserID true none ::
          lookupCalls input.Items products ++
            (Call.BeginTx tx none :: calls ++ [Call.Commit tx cerr]))

/-- Calls whose stages lie between `lo` and `hi` and never decrease. -/
def Staged (lo hi : Nat) (calls : List Call) : Prop :=
  calls.Pairwise (fun a b => a.phase ≤ b.phase) ∧ ∀ c ∈ calls, lo ≤ c.phase ∧ c.phase ≤ hi

end OrderService

/-! # Listing: filter, sort and pagination

Shallow embedding of

* `internal/repository/order/order.go`     (`GetOrders`)
* `internal/repository/user/user.go`       (`GetUsers`)
* `internal/repository/product/product.go` (`GetProducts`)
* `internal/service/order/order.go`        (`GetOrders`)
* `internal/service/product/product.go`    (`toFilter`, `GetProducts`)
* `internal/handler/rest/v1/pagination.go` (`validatePagination`)
* `internal/handler/rest/v1/order.go`      (`validateOrderRequest`)
* `internal/handler/rest/v1/errors.go`     (the error values)

A query is the list of query mods handed to the generated `model` package. The
environment answers `Count` and `All` for a list of mods; the listing functions
return, next to their results, the queries they ran.
-/

/-! ## Go numbers -/

/-- Go `int` on a 64-bit platform: the value that a result wraps around to. -/
def wrapInt64 (x : Int) : Int :=
  (x + 9223372036854775808) % 18446744073709551616 - 9223372036854775808

/-- Go `a - b` on `int`. -/
def intSub (a b : Int) : Int := wrapInt64 (a - b)

/-- Go `a * b` on `int`. -/
def intMul (a b : Int) : Int := wrapInt64 (a * b)

/-- Whether an integer is a value of Go `int` (64 bits). -/
abbrev isInt64 (x : Int) : Prop :=
  -9223372036854775808 ≤ x ∧ x ≤ 9223372036854775807

namespace Float64

/-- Not-a-number: exponent bits all ones and a non-zero fraction. -/
def isNaN (x : Float64) : Bool :=
  (x.bits / 4503599627370496) % 2048 == 2047 && x.bits % 4503599627370496 != 0

/-- The sign bit. -/
def sign (x : Float64) : Bool :=
  (x.bits / 9223372036854775808) % 2 == 1

/-- The bits below the sign bit. For values that are not NaN they grow with the
absolute value. -/
def magnitude (x : Float64) : Nat :=
  x.bits % 9223372036854775808

/-- An integer that orders the values that are not NaN as IEEE-754 orders them
(both zeros get 0). -/
def key (x : Float64) : Int :=
  if x.sign then -(x.magnitude : Int) else (x.magnitude : Int)

/-- Go `x < y` on `float64`: false when either side is NaN. -/
def lt (x y : Float64) : Bool :=
  !x.isNaN && !y.isNaN && decide (x.key < y.key)

/-- Go `x <= y` on `float64`: false when either side is NaN. -/
def le (x y : Float64) : Bool :=
  !x.isNaN && !y.isNaN && decide (x.key ≤ y.key)

/-- The `float64` 0. -/
def zero : Float64 := { bits := 0 }

/-- The `float64` 1. -/
def one : Float64 := { bits := 0x3FF0000000000000 }

/-- A quiet NaN. -/
def nan : Float64 := { bits := 0x7FF8000000000000 }

end Float64

/-- Go `null.Bool` (`github.com/volatiletech/null/v8`); `Bool_` is its field `Bool`. -/
structure NullBool where
  Bool_ : Bool := false
  Valid : Bool := false
deriving DecidableEq, Repr

/-! ## Query mods -/

/-- A value bound to a query. -/
inductive SQLValue where
  | int (v : Int)
  | string (v : String)
  | bool (v : Bool)
  | float (v : Float64)
deriving DecidableEq, Repr

/-- The comparison operators of `qmhelper`. -/
inductive Operator where
  | EQ
  | NEQ
  | LT
  | LTE
  | GT
  | GTE
deriving DecidableEq, Repr

/-- A query mod of sqlboiler (`qm.QueryMod`): `qm.Load`, `qmhelper.Where(field, op,
value)` (what the generated `EQ`, `GTE`, `LTE` helpers build), `qm.Where(clause,
args...)`, `qm.OrderBy`, `qm.Offset`, `qm.Limit`. -/
inductive QueryMod where
  | Load (relationship : String)
  | WhereOp (field : String) (op : Operator) (value : SQLValue)
  | Where (clause : String) (args : List SQLValue)
  | OrderBy (clause : String)
  | Offset (offset : Int)
  | Limit (limit : Int)
deriving DecidableEq, Repr

def QueryMod.isLoad : QueryMod → Bool
  | .Load _ => true
  | _ => false

/-- A filter condition. -/
def QueryMod.isWhere : QueryMod → Bool
  | .WhereOp _ _ _ => true
  | .Where _ _ => true
  | _ => false

def QueryMod.isOrderBy : QueryMod → Bool
  | .OrderBy _ => true
  | _ => false

def QueryMod.isOffset : QueryMod → Bool
  | .Offset _ => true
  | _ => false

def QueryMod.isLimit : QueryMod → Bool
  | .Limit _ => true
  | _ => false

/-- Generated `whereHelperint.EQ`. -/
def whereHelperint_EQ (field : String) (x : Int) : QueryMod :=
  .WhereOp field .EQ (.int x)

/-- Generated `whereHelperstring.EQ`. -/
def whereHelperstring_EQ (field : String) (x : String) : QueryMod :=
  .WhereOp field .EQ (.string x)

/-- Generated `whereHelperbool.EQ`. -/
def whereHelperbool_EQ (field : String) (x : Bool) : QueryMod :=
  .WhereOp field .EQ (.bool x)

/-- Generated `whereHelperfloat64.GTE`. -/
def whereHelperfloat64_GTE (field : String) (x : Float64) : QueryMod :=
  .WhereOp field .GTE (.float x)

/-- Generated `whereHelperfloat64.LTE`. -/
def whereHelperfloat64_LTE (field : String) (x : Float64) : QueryMod :=
  .WhereOp field .LTE (.float x)

/-! ## Names of the generated model

The files `model/orders.go`, `model/users.go` and `model/products.go` are not among
the sources; the constants below are the ones the repositories use, with the
values that the generator gives them (as in `model/order_items.go`: bare column
names in `...Columns`, quoted `"table"."column"` in `...Where`). The column names are
those of the `boil.Whitelist` calls in `repository/user/user.go` (line 16) and
`repository/product/product.go` (line 32) and of the `boil` tags in
`repository/order/order.go` (line 48). -/

namespace Model

namespace OrderColumns
def OrderDate : String := "order_date"
def CreatedAt : String := "created_at"
def UpdatedAt : String := "updated_at"
end OrderColumns

namespace OrderWhere
def ID : String := "\"orders\".\"id\""
def OrderNumber : String := "\"orders\".\"order_number\""
def Status : String := "\"orders\".\"status\""
def UserID : String := "\"orders\".\"user_id\""
end OrderWhere

namespace OrderRels
def OrderItems : String := "OrderItems"
end OrderRels

namespace UserColumns
def Name : String := "name"
def Email : String := "email"
def CreatedAt : String := "created_at"
def UpdatedAt : String := "updated_at"
end UserColumns

namespace UserWhere
def ID : String := "\"users\".\"id\""
def Email : String := "\"users\".\"email\""
def IsActive : String := "\"users\".\"is_active\""
def Role : String := "\"users\".\"role\""
end UserWhere

namespace ProductColumns
def Title : String := "title"
def Price : String := "price"
def Quantity : String := "quantity"
def CreatedAt : String := "created_at"
def UpdatedAt : String := "updated_at"
end ProductColumns

namespace ProductWhere
def ID : String := "\"products\".\"id\""
def Price : String := "\"products\".\"price\""
def IsActive : String := "\"products\".\"is_active\""
def UserID : String := "\"products\".\"user_id\""
end ProductWhere

namespace ProductRels
def User : String := "User"
end ProductRels

end Model

/-- Row of table `users` (`model.User`). -/
structure User where
  ID : Int := 0
  Name : String := ""
  Email : String := ""
  Password : String := ""
  Phone : String := ""
  Role : String := ""
  IsActive : Bool := false
  CreatedAt : Time := 0
  UpdatedAt : Time := 0
deriving DecidableEq, Repr

/-- An order with its loaded relationship `R.OrderItems`. -/
structure LoadedOrder where
  order : Order := {}
  OrderItems : List OrderItem := []
deriving DecidableEq, Repr

/-- A product with its loaded relationship `R.User`. -/
structure LoadedProduct where
  product : Product := {}
  User : User := {}
deriving DecidableEq, Repr

/-! ## Environment of the listing operations -/

/-- The queries of the generated model that the listing operations run. Every
handler takes the query mods and the current state and returns its Go results and
the next state. -/
structure QueryEnv (σ : Type) where
  /-- `model.Orders(qms...).Count(ctx, db)` -/
  ordersCount : List QueryMod → σ → (Int × Option GoError) × σ
  /-- `model.Orders(qms...).All(ctx, db)` -/
  ordersAll : List QueryMod → σ → (List LoadedOrder × Option GoError) × σ
  /-- `model.Users(qms...).Count(ctx, db)` -/
  usersCount : List QueryMod → σ → (Int × Option GoError) × σ
  /-- `model.Users(qms...).All(ctx, db)` -/
  usersAll : List QueryMod → σ → (List User × Option GoError) × σ
  /-- `model.Products(qms...).Count(ctx, db)` -/
  productsCount : List QueryMod → σ → (Int × Option GoError) × σ
  /-- `model.Products(qms...).All(ctx, db)` -/
  productsAll : List QueryMod → σ → (List LoadedProduct × Option GoError) × σ

/-- One query run by a listing operation: the table, the query mods, what came back
(the count, or the number of rows) and the error. -/
inductive QueryCall where
  | Count (table : String) (mods : List QueryMod) (count : Int) (err : Option GoError)
  | All (table : String) (mods : List QueryMod) (rows : Nat) (err : Option GoError)
deriving DecidableEq, Repr

def QueryCall.isCount : QueryCall → Bool
  | .Count _ _ _ _ => true
  | _ => false

def QueryCall.mods : QueryCall → List QueryMod
  | .Count _ mods _ _ => mods
  | .All _ mods _ _ => mods

def QueryCall.err : QueryCall → Option GoError
  | .Count _ _ _ err => err
  | .All _ _ _ err => err

/-! ## Order repository: `GetOrders` -/

namespace OrderRepo

structure OrderFilter where
  ID : Int := 0
  OrderNumber : String := ""
  Status : String := ""
  UserID : Int := 0
deriving DecidableEq, Repr

structure OrderSortBy where
  OrderDate : String := ""
  CreatedAt : String := ""
deriving DecidableEq, Repr

structure Pagination where
  Limit : Int := 0
  Page : Int := 0
deriving DecidableEq, Repr

structure OrdersInput where
  Filter : OrderFilter := {}
  SortBy : OrderSortBy := {}
  Pagination : Pagination := {}
deriving DecidableEq, Repr

structure OrderItem where
  ID : Int := 0
  ProductID : Int := 0
  ProductPrice : Float64 := {}
  ProductName : String := ""
  Quantity : Int := 0
  Discount : Float64 := {}
  Note : String := ""
  CreatedAt : Time := 0
  UpdatedAt : Time := 0
deriving DecidableEq, Repr

structure Order where
  ID : Int := 0
  OrderNumber : String := ""
  OrderDate : Time := 0
  Status : String := ""
  Note : String := ""
  UserID : Int := 0
  OrderItems : List OrderItem := []
  CreatedAt : Time := 0
  UpdatedAt : Time := 0
deriving DecidableEq, Repr

/-- `GetOrders`, lines 133-149: the load mod and the filter conditions. -/
def filterMods (input : OrdersInput) : List QueryMod :=
  [QueryMod.Load Model.OrderRels.OrderItems]
    ++ (if input.Filter.ID > 0 then
          [whereHelperint_EQ Model.OrderWhere.ID input.Filter.ID] else [])
    ++ (if input.Filter.OrderNumber ≠ "" then
          [whereHelperstring_EQ Model.OrderWhere.OrderNumber input.Filter.OrderNumber] else [])
    ++ (if input.Filter.UserID > 0 then
          [whereHelperint_EQ Model.OrderWhere.UserID input.Filter.UserID] else [])
    ++ (if input.Filter.Status ≠ "" then
          [whereHelperstring_EQ Model.OrderWhere.Status input.Filter.Status] else [])

/-- `GetOrders`, lines 157-166: the sort mods appended to `qms`. -/
def sortMods (input : OrdersInput) (qms : List QueryMod) : List QueryMod :=
  if input.SortBy ≠ {} then
    qms
      ++ (if input.SortBy.OrderDate ≠ "" then
            [QueryMod.OrderBy (Model.OrderColumns.OrderDate ++ " " ++ input.SortBy.OrderDate)]
          else [])
      ++ (if input.SortBy.CreatedAt ≠ "" then
            [QueryMod.OrderBy (Model.OrderColumns.CreatedAt ++ " " ++ input.SortBy.CreatedAt)]
          else [])
  else
    qms ++ [QueryMod.OrderBy (Model.OrderColumns.UpdatedAt ++ " desc")]

/-- `GetOrders`, lines 169-174: the paging mods appended to `qms`. -/
def pagingMods (input : OrdersInput) (qms : List QueryMod) : List QueryMod :=
  if input.Pagination.Limit > 0 ∧ input.Pagination.Page > 0 then
    qms ++ [QueryMod.Offset (intMul input.Pagination.Limit (intSub input.Pagination.Page 1)),
      QueryMod.Limit input.Pagination.Limit]
  else
    qms

/-- `GetOrders`, lines 186-197: one order item of the result. -/
def toOrderItem (orderItem : S3Corp.OrderItem) : OrderItem :=
  { ID := orderItem.ID
    ProductID := orderItem.ProductID
    ProductPrice := orderItem.ProductPrice
    ProductName := orderItem.ProductName
    Quantity := orderItem.Quantity
    Discount := orderItem.Discount
    Note := orderItem.Note
    CreatedAt := orderItem.CreatedAt
    UpdatedAt := orderItem.UpdatedAt }

/-- `GetOrders`, lines 183-211: one order of the result. -/
def toOrder (order : LoadedOrder) : Order :=
  { ID := order.order.ID
    OrderNumber := order.order.OrderNumber
    OrderDate := order.order.OrderDate
    Status := order.order.Status
    Note := order.order.Note
    UserID := order.order.UserID
    OrderItems := order.OrderItems.map toOrderItem
    CreatedAt := order.order.CreatedAt
    UpdatedAt := order.order.UpdatedAt }

/-- `internal/repository/order/order.go`, `GetOrders`: the orders, the total count
and the error; the queries run; the final state. -/
def GetOrders {σ : Type} (env : QueryEnv σ) (input : OrdersInput) (s : σ) :
    (List Order × Int × Option GoError) × List QueryCall × σ :=
  match env.ordersCount (filterMods input) s with
  | ((totalCount, some err), s1) =>
    (([], 0, some err), [QueryCall.Count "orders" (filterMods input) totalCount (some err)], s1)
  | ((totalCount, none), s1) =>
    match env.ordersAll (pagingMods input (sortMods input (filterMods input))) s1 with
    | ((orders, some err), s2) =>
      (([], 0, none),
        [QueryCall.Count "orders" (filterMods input) totalCount none,
          QueryCall.All "orders" (pagingMods input (sortMods input (filterMods input)))
            orders.length (some err)], s2)
    | ((orders, none), s2) =>
      ((orders.map toOrder, totalCount, none),
        [QueryCall.Count "orders" (filterMods input) totalCount none,
          QueryCall.All "orders" (pagingMods input (sortMods input (filterMods input)))
            orders.length none], s2)

end OrderRepo

/-! ## User repository: `GetUsers` -/

namespace UserRepo

structure SortParams where
  Name : String := ""
  Email : String := ""
  CreatedAt : String := ""
deriving DecidableEq, Repr

structure Pagination where
  Page : Int := 0
  Limit : Int := 0
deriving DecidableEq, Repr

/-- `Filter` of the user repository; `Sort_` is its field `Sort`. -/
structure Filter where
  ID : Int := 0
  Email : String := ""
  Name : String := ""
  IsActive : NullBool := {}
  Role : String := ""
  Sort_ : SortParams := {}
  Pagination : Pagination := {}
deriving DecidableEq, Repr

/-- `GetUsers`, lines 55-72: the filter conditions. -/
def filterMods (input : Filter) : List QueryMod :=
  (if input.ID > 0 then [whereHelperint_EQ Model.UserWhere.ID input.ID] else [])
    ++ (if input.Email ≠ "" then [whereHelperstring_EQ Model.UserWhere.Email input.Email]
        else [])
    ++ (if input.Name ≠ "" then
          [QueryMod.Where "name LIKE ?" [SQLValue.string ("%" ++ input.Name ++ "%")]] else [])
    ++ (if input.IsActive.Valid then
          [whereHelperbool_EQ Model.UserWhere.IsActive input.IsActive.Bool_] else [])
    ++ (if input.Role ≠ "" then [whereHelperstring_EQ Model.UserWhere.Role input.Role] else [])

/-- `GetUsers`, lines 81-93: the sort mods appended to `qms`. -/
def sortMods (input : Filter) (qms : List QueryMod) : List QueryMod :=
  if input.Sort_ ≠ {} then
    qms
      ++ (if input.Sort_.Name ≠ "" then
            [QueryMod.OrderBy (Model.UserColumns.Name ++ " " ++ input.Sort_.Name)] else [])
      ++ (if input.Sort_.Email ≠ "" then
            [QueryMod.OrderBy (Model.UserColumns.Email ++ " " ++ input.Sort_.Email)] else [])
      ++ (if input.Sort_.CreatedAt ≠ "" then
            [QueryMod.OrderBy (Model.UserColumns.CreatedAt ++ " " ++ input.Sort_.CreatedAt)]
          else [])
  else
    qms ++ [QueryMod.OrderBy (Model.UserColumns.UpdatedAt ++ " " ++ "desc")]

/-- `GetUsers`, lines 96-104: the paging mods appended to `qms`. -/
def pagingMods (input : Filter) (qms : List QueryMod) : List QueryMod :=
  if input.Pagination ≠ {} then
    qms ++ [QueryMod.Offset (intMul input.Pagination.Limit (intSub input.Pagination.Page 1)),
      QueryMod.Limit input.Pagination.Limit]
  else
    qms ++ [QueryMod.Offset 0, QueryMod.Limit 20]

/-- `internal/repository/user/user.go`, `GetUsers`: the users, the total count and
the error; the queries run; the final state. -/
def GetUsers {σ : Type} (env : QueryEnv σ) (input : Filter) (s : σ) :
    (List User × Int × Option GoError) × List QueryCall × σ :=
  match env.usersCount (filterMods input) s with
  | ((totalCount, some err), s1) =>
    (([], 0, some err), [QueryCall.Count "users" (filterMods input) totalCount (some err)], s1)
  | ((totalCount, none), s1) =>
    match env.usersAll (pagingMods input (sortMods input (filterMods input))) s1 with
    | ((users, some err), s2) =>
      (([], 0, some err),
        [QueryCall.Count "users" (filterMods input) totalCount none,
          QueryCall.All "users" (pagingMods input (sortMods input (filterMods input)))
            users.length (some err)], s2)
    | ((users, none), s2) =>
      ((users, totalCount, none),
        [QueryCall.Count "users" (filterMods input) totalCount none,
          QueryCall.All "users" (pagingMods input (sortMods input (filterMods input)))
            users.length none], s2)

end UserRepo

/-! ## Product repository: `GetProducts` -/

namespace ProductRepo

structure OrderBy where
  Title : String := ""
  Price : String := ""
  Quantity : String := ""
  CreatedAt : String := ""
deriving DecidableEq, Repr

structure PriceRange where
  MinPrice : Float64 := {}
  MaxPrice : Float64 := {}
deriving DecidableEq, Repr

structure Pagination where
  Page : Int := 0
  Limit : Int := 0
deriving DecidableEq, Repr

structure Filter where
  ID : Int := 0
  Title : String := ""
  PriceRange : PriceRange := {}
  IsActive : NullBool := {}
  UserID : Int := 0
  OrderBy : OrderBy := {}
  Pagination : Pagination := {}
deriving DecidableEq, Repr

structure CreatedBy where
  ID : Int := 0
  Name : String := ""
  Email : String := ""
  Phone : String := ""
deriving DecidableEq, Repr

structure ProductItem where
  ID : Int := 0
  Title : String := ""
  Description : String := ""
  Price : Float64 := {}
  Quantity : Int := 0
  IsActive : Bool := false
  User : CreatedBy := {}
  CreatedAt : Time := 0
  UpdatedAt : Time := 0
deriving DecidableEq, Repr

/-- `GetProducts`, lines 102-120: the filter conditions. -/
def filterMods (filter : Filter) : List QueryMod :=
  (if filter.ID > 0 then [whereHelperint_EQ Model.ProductWhere.ID filter.ID] else [])
    ++ (if filter.Title ≠ "" then
          [QueryMod.Where "title LIKE ?" [SQLValue.string ("%" ++ filter.Title ++ "%")]]
        else [])
    ++ (if filter.UserID > 0 then [whereHelperint_EQ Model.ProductWhere.UserID filter.UserID]
        else [])
    ++ (if Float64.lt Float64.zero filter.PriceRange.MinPrice
            || Float64.lt Float64.zero filter.PriceRange.MaxPrice then
          [whereHelperfloat64_GTE Model.ProductWhere.Price filter.PriceRange.MinPrice,
            whereHelperfloat64_LTE Model.ProductWhere.Price filter.PriceRange.MaxPrice]
        else [])
    ++ (if filter.IsActive.Valid then
          [whereHelperbool_EQ Model.ProductWhere.IsActive filter.IsActive.Bool_] else [])

/-- `GetProducts`, lines 129-147: the sort mods and the load mod appended to `qms`. -/
def sortMods (filter : Filter) (qms : List QueryMod) : List QueryMod :=
  (if filter.OrderBy ≠ {} then
    qms
      ++ (if filter.OrderBy.Title ≠ "" then
            [QueryMod.OrderBy (Model.ProductColumns.Title ++ " " ++ filter.OrderBy.Title)]
          else [])
      ++ (if filter.OrderBy.CreatedAt ≠ "" then
            [QueryMod.OrderBy
              (Model.ProductColumns.CreatedAt ++ " " ++ filter.OrderBy.CreatedAt)]
          else [])
      ++ (if filter.OrderBy.Price ≠ "" then
            [QueryMod.OrderBy (Model.ProductColumns.Price ++ " " ++ filter.OrderBy.Price)]
          else [])
      ++ (if filter.OrderBy.Quantity ≠ "" then
            [QueryMod.OrderBy (Model.ProductColumns.Quantity ++ " " ++ filter.OrderBy.Quantity)]
          else [])
  else
    qms ++ [QueryMod.OrderBy (Model.ProductColumns.UpdatedAt ++ " desc")])
    ++ [QueryMod.Load Model.ProductRels.User]

/-- `GetProducts`, lines 150-155: the paging mods appended to `qms`. -/
def pagingMods (filter : Filter) (qms : List QueryMod) : List QueryMod :=
  if filter.Pagination ≠ {} then
    qms ++ [QueryMod.Offset (intMul filter.Pagination.Limit (intSub filter.Pagination.Page 1)),
      QueryMod.Limit filter.Pagination.Limit]
  else
    qms

/-- `GetProducts`, lines 165-182: one product of the result. -/
def toProductItem (p : LoadedProduct) : ProductItem :=
  { ID := p.product.ID
    Title := p.product.Title
    Description := p.product.Description
    Price := p.product.Price
    Quantity := p.product.Quantity
    IsActive := p.product.IsActive
    User := { ID := p.User.ID, Name := p.User.Name, Email := p.User.Email, Phone := p.User.Phone }
    CreatedAt := p.product.CreatedAt
    UpdatedAt := p.product.UpdatedAt }

/-- `internal/repository/product/product.go`, `GetProducts`: the products, the total
count and the error; the queries run; the final state. -/
def GetProducts {σ : Type} (env : QueryEnv σ) (filter : Filter) (s : σ) :
    (List ProductItem × Int × Option GoError) × List QueryCall × σ :=
  match env.productsCount (filterMods filter) s with
  | ((totalCount, some err), s1) =>
    (([], 0, some err),
      [QueryCall.Count "products" (filterMods filter) totalCount (some err)], s1)
  | ((totalCount, none), s1) =>
    match env.productsAll (pagingMods filter (sortMods filter (filterMods filter))) s1 with
    | ((productSlice, some err), s2) =>
      (([], 0, some err),
        [QueryCall.Count "products" (filterMods filter) totalCount none,
          QueryCall.All "products" (pagingMods filter (sortMods filter (filterMods filter)))
            productSlice.length (some err)], s2)
    | ((productSlice, none), s2) =>
      ((productSlice.map toProductItem, totalCount, none),
        [QueryCall.Count "products" (filterMods filter) totalCount none,
          QueryCall.All "products" (pagingMods filter (sortMods filter (filterMods filter)))
            productSlice.length none], s2)

end ProductRepo

/-! ## Order service: `GetOrders` -/

namespace OrderService

structure OrderFilter where
  ID : Int := 0
  OrderNumber : String := ""
  Status : String := ""
  UserID : Int := 0
deriving DecidableEq, Repr

structure OrderSortBy where
  OrderDate : String := ""
  CreatedAt : String := ""
deriving DecidableEq, Repr

structure Pagination where
  Limit : Int := 0
  Page : Int := 0
deriving DecidableEq, Repr

structure OrdersInput where
  Filter : OrderFilter := {}
  SortBy : OrderSortBy := {}
  Pagination : Pagination := {}
deriving DecidableEq, Repr

/-- `OrderItem` of the order service (lines 132-142), named apart from the row type
`model.OrderItem`. -/
structure OrderItemResult where
  ID : Int := 0
  ProductID : Int := 0
  ProductPrice : Float64 := {}
  ProductName : String := ""
  Quantity : Int := 0
  Discount : Float64 := {}
  Note : String := ""
  CreatedAt : Time := 0
  UpdatedAt : Time := 0
deriving DecidableEq, Repr

/-- `Order` of the order service (lines 145-155), named apart from the row type
`model.Order`. -/
structure OrderResult where
  ID : Int := 0
  OrderNumber : String := ""
  OrderDate : Time := 0
  Status : String := ""
  Note : String := ""
  UserID : Int := 0
  OrderItems : List OrderItemResult := []
  CreatedAt : Time := 0
  UpdatedAt : Time := 0
deriving DecidableEq, Repr

/-- `GetOrders`, lines 159-174: the input handed to the repository. -/
def toRepoInput (input : OrdersInput) : OrderRepo.OrdersInput :=
  { Filter :=
      { ID := input.Filter.ID
        OrderNumber := input.Filter.OrderNumber
        Status := input.Filter.Status
        UserID := input.Filter.UserID }
    SortBy :=
      { OrderDate := input.SortBy.OrderDate
        CreatedAt := input.SortBy.CreatedAt }
    Pagination :=
      { Limit := input.Pagination.Limit
        Page := input.Pagination.Page } }

/-- `GetOrders`, lines 185-195: one order item of the result. -/
def toOrderItemResult (orderItem : OrderRepo.OrderItem) : OrderItemResult :=
  { ID := orderItem.ID
    ProductID := orderItem.ProductID
    ProductPrice := orderItem.ProductPrice
    ProductName := orderItem.ProductName
    Quantity := orderItem.Quantity
    Discount := orderItem.Discount
    Note := orderItem.Note
    CreatedAt := orderItem.CreatedAt
    UpdatedAt := orderItem.UpdatedAt }

/-- `GetOrders`, lines 182-209: one order of the result. -/
def toOrderResult (order : OrderRepo.Order) : OrderResult :=
  { ID := order.ID
    OrderNumber := order.OrderNumber
    OrderDate := order.OrderDate
    Status := order.Status
    Note := order.Note
    UserID := order.UserID
    OrderItems := order.OrderItems.map toOrderItemResult
    CreatedAt := order.CreatedAt
    UpdatedAt := order.UpdatedAt }

/-- `internal/service/order/order.go`, `GetOrders`. -/
def GetOrders {σ : Type} (env : QueryEnv σ) (input : OrdersInput) (s : σ) :
    (List OrderResult × Int × Option GoError) × List QueryCall × σ :=
  match OrderRepo.GetOrders env (toRepoInput input) s with
  | ((_, _, some err), calls, s1) => (([], 0, some err), calls, s1)
  | ((orders, totalCount, none), calls, s1) =>
    ((orders.map toOrderResult, totalCount, none), calls, s1)

end OrderService

/-! ## User service: the pagination type -/

namespace UserService

structure Pagination where
  Page : Int := 0
  Limit : Int := 0
deriving DecidableEq, Repr

end UserService

/-! ## Product service: `GetProducts` -/

namespace ProductService

/-- The sort fields of a product listing (the type is called `OrderInput` in
`internal/service/product/product.go`). -/
structure OrderInput where
  Title : String := ""
  Price : String := ""
  Quantity : String := ""
  CreatedAt : String := ""
deriving DecidableEq, Repr

structure PriceRange where
  MinPrice : Float64 := {}
  MaxPrice : Float64 := {}
deriving DecidableEq, Repr

structure Pagination where
  Page : Int := 0
  Limit : Int := 0
deriving DecidableEq, Repr

structure GetProductsInput where
  ID : Int := 0
  Title : String := ""
  PriceRange : PriceRange := {}
  IsActive : NullBool := {}
  UserID : Int := 0
  OrderBy : OrderInput := {}
  Pagination : Pagination := {}
deriving DecidableEq, Repr

structure CreatedBy where
  ID : Int := 0
  Name : String := ""
  Email : String := ""
  Phone : String := ""
deriving DecidableEq, Repr

structure ProductItem where
  ID : Int := 0
  Title : String := ""
  Description : String := ""
  Price : Float64 := {}
  Quantity : Int := 0
  IsActive : Bool := false
  User : CreatedBy := {}
  CreatedAt : Time := 0
  UpdatedAt : Time := 0
deriving DecidableEq, Repr

/-- `internal/service/product/product.go`, `toFilter`. -/
def toFilter (input : GetProductsInput) : ProductRepo.Filter :=
  { ID := input.ID
    Title := input.Title
    PriceRange :=
      { MinPrice := input.PriceRange.MinPrice
        MaxPrice := input.PriceRange.MaxPrice }
    IsActive := input.IsActive
    UserID := input.UserID
    OrderBy :=
      { Title := input.OrderBy.Title
        Price := input.OrderBy.Price
        Quantity := input.OrderBy.Quantity
        CreatedAt := input.OrderBy.CreatedAt }
    Pagination :=
      { Limit := input.Pagination.Limit
        Page := input.Pagination.Page } }

/-- `GetProducts`, lines 192-195: the default pagination. -/
def withDefaultPagination (input : GetProductsInput) : GetProductsInput :=
  if input.Pagination = {} then
    { input with Pagination := { Page := 1, Limit := 20 } }
  else
    input

/-- `GetProducts`, lines 205-222: one product of the result. -/
def toProductItem (p : ProductRepo.ProductItem) : ProductItem :=
  { ID := p.ID
    Title := p.Title
    Description := p.Description
    Price := p.Price
    Quantity := p.Quantity
    IsActive := p.IsActive
    User := { ID := p.User.ID, Name := p.User.Name, Email := p.User.Email, Phone := p.User.Phone }
    CreatedAt := p.CreatedAt
    UpdatedAt := p.UpdatedAt }

/-- `internal/service/product/product.go`, `GetProducts`. -/
def GetProducts {σ : Type} (env : QueryEnv σ) (input : GetProductsInput) (s : σ) :
    (List ProductItem × Int × Option GoError) × List QueryCall × σ :=
  match ProductRepo.GetProducts env (toFilter (withDefaultPagination input)) s with
  | ((_, _, some err), calls, s1) => (([], 0, some err), calls, s1)
  | ((products, totalCount, none), calls, s1) =>
    ((products.map toProductItem, totalCount, none), calls, s1)

end ProductService

/-! ## REST handlers: validation -/

namespace RestV1

/-- `http.StatusBadRequest`. -/
def StatusBadRequest : Int := 400

def DefaultLimit : Int := 20
def MaxLimit : Int := 1000

def ErrInvalidQuantity : GoError :=
  .errorResponse StatusBadRequest "invalid_quantity" "quantity is invalid"
def ErrInvalidUserID : GoError :=
  .errorResponse StatusBadRequest "invalid_user_id" "user id is invalid"
def ErrInvalidPaginationPage : GoError :=
  .errorResponse StatusBadRequest "invalid_page" "page is invalid"
def ErrInvalidPaginationLimit : GoError :=
  .errorResponse StatusBadRequest "invalid_limit" "limit is invalid"
def ErrItemsCannotBeBlank : GoError :=
  .errorResponse StatusBadRequest "invalid_input" "items cannot be blank"
def ErrInvalidProductID : GoError :=
  .errorResponse StatusBadRequest "invalid_product_id" "product id is invalid"
def ErrInvalidDiscount : GoError :=
  .errorResponse StatusBadRequest "invalid_discount" "discount is invalid"

structure paginationInput where
  Page : Int := 0
  Limit : Int := 0
deriving DecidableEq, Repr

/-- `internal/handler/rest/v1/pagination.go`, `validatePagination`. -/
def validatePagination (pagination : paginationInput) : UserService.Pagination × Option GoError :=
  if pagination.Page < 0 then
    ({}, some ErrInvalidPaginationPage)
  else if pagination.Limit < 0 ∨ pagination.Limit > MaxLimit then
    ({}, some ErrInvalidPaginationLimit)
  else
    ({ Page := if pagination.Page = 0 then 1 else pagination.Page
       Limit := if pagination.Limit = 0 then DefaultLimit else pagination.Limit }, none)

structure OrderItemRequest where
  ProductID : Int := 0
  Quantity : Int := 0
  Discount : Float64 := {}
  Note : String := ""
deriving DecidableEq, Repr

structure OrderRequest where
  Note : String := ""
  UserID : Int := 0
  Items : List OrderItemRequest := []
deriving DecidableEq, Repr

/-- The three checks of lines 36-44 pass for an item: `ProductID` and `Quantity` are
positive, and `Discount` is neither `< 0` nor `> 1`. -/
abbrev itemChecksPass (item : OrderItemRequest) : Prop :=
  0 < item.ProductID ∧ 0 < item.Quantity ∧
    Float64.lt item.Discount Float64.zero = false ∧
    Float64.lt Float64.one item.Discount = false

/-- `validateOrderRequest`, lines 35-51: the loop over the items. It stops at the
first item that fails a check. -/
def validateItems : List OrderItemRequest → Except GoError (List OrderService.OrderItemInput)
  | [] => .ok []
  | item :: rest =>
    if item.ProductID ≤ 0 then
      .error ErrInvalidProductID
    else if item.Quantity ≤ 0 then
      .error ErrInvalidQuantity
    else if Float64.lt item.Discount Float64.zero || Float64.lt Float64.one item.Discount then
      .error ErrInvalidDiscount
    else
      match validateItems rest with
      | .error err => .error err
      | .ok items =>
        .ok ({ ProductID := item.ProductID
               Quantity := item.Quantity
               Discount := item.Discount
               Note := item.Note } :: items)

/-- `internal/handler/rest/v1/order.go`, `validateOrderRequest`. -/
def validateOrderRequest (r : OrderRequest) : OrderService.OrderInput × Option GoError :=
  if r.UserID ≤ 0 then
    ({}, some ErrInvalidUserID)
  else if r.Items.length = 0 then
    ({}, some ErrItemsCannotBeBlank)
  else
    match validateItems r.Items with
    | .error err => ({}, some err)
    | .ok items => ({ Note := r.Note, UserID := r.UserID, Items := items }, none)

end RestV1

/-! ## A table for running the listing operations

Concrete environments for running the listing operations on explicit inputs. -/

/-- The rows that match the filter of the query at hand, and the errors that the
two queries answer. -/
structure QueryTable where
  orders : List LoadedOrder := []
  users : List User := []
  products : List LoadedProduct := []
  countErr : Option GoError := none
  allErr : Option GoError := none
deriving DecidableEq, Repr

/-- The offset of a query: the value of its last `Offset` mod, 0 without one. -/
def offsetOf (mods : List QueryMod) : Nat :=
  mods.foldl (fun acc m => match m with
    | .Offset n => n.toNat
    | _ => acc) 0

/-- The limit of a query: the value of its last `Limit` mod, if it has one. -/
def limitOf (mods : List QueryMod) : Option Nat :=
  mods.foldl (fun acc m => match m with
    | .Limit n => some n.toNat
    | _ => acc) none

/-- The page of `rows` that a query selects by its offset and limit. -/
def pageOf {α : Type} (mods : List QueryMod) (rows : List α) : List α :=
  match limitOf mods with
  | none => rows.drop (offsetOf mods)
  | some n => (rows.drop (offsetOf mods)).take n

/-- The environment that answers from a table: `Count` answers the number of rows,
`All` answers the page of the rows that the query selects; a failing query answers
its error and no rows. -/
def tableEnv (t : QueryTable) : QueryEnv Unit where
  ordersCount := fun _ s => ((t.orders.length, t.countErr), s)
  ordersAll := fun mods s =>
    ((if t.allErr.isSome then [] else pageOf mods t.orders, t.allErr), s)
  usersCount := fun _ s => ((t.users.length, t.countErr), s)
  usersAll := fun mods s =>
    ((if t.allErr.isSome then [] else pageOf mods t.users, t.allErr), s)
  productsCount := fun _ s => ((t.products.length, t.countErr), s)
  productsAll := fun mods s =>
    ((if t.allErr.isSome then [] else pageOf mods t.products, t.allErr), s)

/-- Three orders of user 10. -/
def threeOrders : QueryTable :=
  { orders :=
      [ { order := { ID := 1, OrderNumber := "ORDER_NUMBER_1", Status := "NEW", UserID := 10 },
          OrderItems := [{ ID := 10, OrderID := 1, ProductID := 10, ProductName := "Product 10",
                           Quantity := 20 }] },
        { order := { ID := 5, OrderNumber := "ORDER_NUMBER_5", Status := "NEW", UserID := 10 } },
        { order := { ID := 7, OrderNumber := "ORDER_NUMBER_7", Status := "NEW", UserID := 10 } } ]
    users := [{ ID := 1, Name := "admin" }, { ID := 2, Name := "guest" }, { ID := 3 }]
    products := [{ product := { ID := 4 } }, { product := { ID := 5 } }, { product := { ID := 6 } }] }

/-- The same table when the count query fails. -/
def threeOrdersCountFails : QueryTable :=
  { threeOrders with countErr := some (.errorString "connection refused") }

/-- The same table when the page-fetch query fails. -/
def threeOrdersFetchFails : QueryTable :=
  { threeOrders with allErr := some (.errorString "connection refused") }

/-- Twenty-one orders. -/
def manyOrders : QueryTable :=
  { orders := (List.range 21).map (fun i => { order := { ID := (i : Int) + 1 } }) }

/-! # Request validation, error mapping, statistics, bulk insert

Shallow embedding of

* `internal/handler/rest/v1/order.go`           (`validGetOrdersReq`, `handleOrderError`)
* `internal/handler/rest/v1/product_request.go` (`validGetProductsInput`)
* `internal/handler/gql/graph/product.go`       (`validateProductPagination`,
  `validGetProductsInput`)
* `internal/service/user/statistics.go`         (`GetStatistics`)
* `internal/service/product/product.go`         (`UpdateProduct`)
* `internal/repository/product/product.go`      (`ExistsProductByID`, `InsertAll`)
* `pkg/utils/json.go`                           (`WriteJSONResponse`)
-/

/-! ## Go strings and floats -/

namespace unicode

/-- Go `unicode.IsSpace`: the Latin-1 spaces `\t`, `\n`, `\v`, `\f`, `\r`, space,
U+0085, U+00A0, and the other code points with the White Space property. -/
def IsSpace (c : Char) : Bool :=
  (0x09 ≤ c.toNat && c.toNat ≤ 0x0D) || c.toNat == 0x20 || c.toNat == 0x85 || c.toNat == 0xA0
    || c.toNat == 0x1680 || (0x2000 ≤ c.toNat && c.toNat ≤ 0x200A) || c.toNat == 0x2028
    || c.toNat == 0x2029 || c.toNat == 0x202F || c.toNat == 0x205F || c.toNat == 0x3000

end unicode

namespace strings

/-- Go `strings.TrimSpace`: the string without its leading and trailing white space. -/
def TrimSpace (s : String) : String :=
  String.mk ((s.data.dropWhile unicode.IsSpace).reverse.dropWhile unicode.IsSpace).reverse

/-- Go `strings.TrimSuffix`: the string without the given trailing suffix, or the
string itself when it does not end with the suffix. -/
def TrimSuffix (s suffix : String) : String :=
  if suffix.data.isSuffixOf s.data then
    String.mk (s.data.take (s.data.length - suffix.data.length))
  else s

end strings

namespace Float64

/-- Go `x == y` on `float64`: false when either side is NaN; the two zeros are equal. -/
def eq (x y : Float64) : Bool :=
  !x.isNaN && !y.isNaN && decide (x.key = y.key)

end Float64

/-! ## Writing a response -/

namespace utils

/-- The `data` argument of `WriteJSONResponse`: a string or an error value. -/
inductive ResponseData where
  | text (v : String)
  | value (v : GoError)
deriving DecidableEq, Repr

/-- The body written to the response: the bytes of a string, or the JSON encoding
of a value (`json v` stands for the bytes that `json.Marshal` returns for `v`). -/
inductive Body where
  | raw (v : String)
  | json (v : GoError)
deriving DecidableEq, Repr

/-- What a handler wrote to the `http.ResponseWriter`: the status code given to
`WriteHeader` and the body given to `Write`. -/
structure Response where
  statusCode : Int
  body : Body
deriving DecidableEq, Repr

/-- `pkg/utils/json.go`, `WriteJSONResponse`. The branch for a failing `json.Marshal`
is left out: the values written here are strings and `ErrorResponse` structs of an
int and two strings, for which `json.Marshal` does not fail. -/
def WriteJSONResponse (statusCode : Int) (data : ResponseData) : Response :=
  match data with
  | .text v => { statusCode := statusCode, body := .raw v }
  | .value v => { statusCode := statusCode, body := .json v }

end utils

/-! ## REST handlers: order listing request, order errors, product listing request -/

namespace RestV1

/-- `http.StatusNotFound`. -/
def StatusNotFound : Int := 404

/-- `http.StatusInternalServerError`. -/
def StatusInternalServerError : Int := 500

def ErrInvalidID : GoError :=
  .errorResponse StatusBadRequest "invalid_id" "id is invalid"
def ErrInvalidOrderBy : GoError :=
  .errorResponse StatusBadRequest "invalid_order_by" "order by is invalid"
def ErrInvalidPriceRange : GoError :=
  .errorResponse StatusBadRequest "invalid_price_range" "price range is invalid"
def ErrInvalidOrderID : GoError :=
  .errorResponse StatusBadRequest "invalid_order_id" "order id is invalid"
def ErrInvalidOrderStatus : GoError :=
  .errorResponse StatusBadRequest "invalid_order_status" "order status is invalid"
def ErrUserNotExist : GoError :=
  .errorResponse StatusNotFound "user_not_exist" "user does not exist"
def ErrProductNotFound : GoError :=
  .errorResponse StatusNotFound "product_not_found" "product is not found"
def ErrInternalServerError : GoError :=
  .errorResponse StatusInternalServerError "internal_error" "internal server error"

/-- `internal/handler/rest/v1/user.go`, line 106. -/
def OrderTypeASC : String := "asc"

/-- `internal/handler/rest/v1/user.go`, line 107. -/
def OrderTypeDESC : String := "desc"

/-- `internal/handler/rest/v1/order.go`, `handleOrderError`: the response written
for the error `err` of the order service (`none` is the nil error). -/
def handleOrderError (err : Option GoError) : utils.Response :=
  if err = some OrderService.ErrUserNotExist then
    utils.WriteJSONResponse StatusBadRequest (.value ErrUserNotExist)
  else if err = some OrderService.ErrProductNotExist then
    utils.WriteJSONResponse StatusBadRequest (.value ErrProductNotFound)
  else
    utils.WriteJSONResponse StatusInternalServerError (.value ErrInternalServerError)

structure orderFilter where
  ID : Int := 0
  OrderNumber : String := ""
  Status : String := ""
  UserID : Int := 0
deriving DecidableEq, Repr

structure orderSortBy where
  OrderDate : String := ""
  CreatedAt : String := ""
deriving DecidableEq, Repr

structure ordersRequest where
  Filter : orderFilter := {}
  SortBy : orderSortBy := {}
  Pagination : paginationInput := {}
deriving DecidableEq, Repr

/-- `internal/handler/rest/v1/order.go`, `validOrderStatus`. -/
def validOrderStatus (status : String) : Bool :=
  if status ≠ OrderService.OrderStatusFailed ∧
      status ≠ OrderService.OrderStatusNew ∧
      status ≠ OrderService.OrderStatusPending ∧
      status ≠ OrderService.OrderStatusSuccess then
    false
  else
    true

/-- `internal/handler/rest/v1/order.go`, `validGetOrdersReq`. -/
def validGetOrdersReq (req : ordersRequest) : OrderService.OrdersInput × Option GoError :=
  if req.Filter.ID < 0 then
    ({}, some ErrInvalidOrderID)
  else if strings.TrimSpace req.Filter.Status ≠ ""
      ∧ !validOrderStatus (strings.TrimSpace req.Filter.Status) then
    ({}, some ErrInvalidOrderStatus)
  else if req.Filter.UserID < 0 then
    ({}, some ErrInvalidUserID)
  else
    match validatePagination req.Pagination with
    | (_, some err) => ({}, some err)
    | (pageArgs, none) =>
      if strings.TrimSpace req.SortBy.CreatedAt ≠ ""
          ∧ strings.TrimSpace req.SortBy.CreatedAt ≠ OrderTypeASC
          ∧ strings.TrimSpace req.SortBy.CreatedAt ≠ OrderTypeDESC then
        ({}, some ErrInvalidOrderBy)
      else if strings.TrimSpace req.SortBy.OrderDate ≠ ""
          ∧ strings.TrimSpace req.SortBy.OrderDate ≠ OrderTypeASC
          ∧ strings.TrimSpace req.SortBy.OrderDate ≠ OrderTypeDESC then
        ({}, some ErrInvalidOrderBy)
      else
        ({ Filter :=
             { ID := req.Filter.ID
               OrderNumber := strings.TrimSpace req.Filter.OrderNumber
               Status := strings.TrimSpace req.Filter.Status
               UserID := req.Filter.UserID }
           SortBy :=
             { OrderDate := strings.TrimSpace req.SortBy.OrderDate
               CreatedAt := strings.TrimSpace req.SortBy.CreatedAt }
           Pagination :=
             { Limit := pageArgs.Limit
               Page := pageArgs.Page } }, none)

/-- The sort fields of a product listing request (`orderRequest` in
`product_request.go`). -/
structure orderRequest where
  Title : String := ""
  Price : String := ""
  Quantity : String := ""
  CreatedAt : String := ""
deriving DecidableEq, Repr

structure priceRangeRequest where
  MinPrice : Float64 := {}
  MaxPrice : Float64 := {}
deriving DecidableEq, Repr

structure getProductsRequest where
  ID : Int := 0
  Title : String := ""
  PriceRange : priceRangeRequest := {}
  IsActive : NullBool := {}
  UserID : Int := 0
  OrderBy : orderRequest := {}
  Pagination : paginationInput := {}
deriving DecidableEq, Repr

/-- `internal/handler/rest/v1/product_request.go`, `validGetProductsInput`. -/
def validGetProductsInput (req : getProductsRequest) :
    ProductService.GetProductsInput × Option GoError :=
  if req.ID ≠ 0 ∧ req.ID < 0 then
    ({}, some ErrInvalidID)
  else if (!Float64.eq req.PriceRange.MinPrice Float64.zero
        || !Float64.eq req.PriceRange.MaxPrice Float64.zero)
      && (Float64.lt req.PriceRange.MinPrice Float64.zero
        || Float64.lt req.PriceRange.MaxPrice Float64.zero) then
    ({}, some ErrInvalidPriceRange)
  else if req.UserID ≠ 0 ∧ req.UserID < 0 then
    ({}, some ErrInvalidUserID)
  else if strings.TrimSpace req.OrderBy.Title ≠ ""
      ∧ strings.TrimSpace req.OrderBy.Title ≠ OrderTypeASC
      ∧ strings.TrimSpace req.OrderBy.Title ≠ OrderTypeDESC then
    ({}, some ErrInvalidOrderBy)
  else if strings.TrimSpace req.OrderBy.CreatedAt ≠ ""
      ∧ strings.TrimSpace req.OrderBy.CreatedAt ≠ OrderTypeASC
      ∧ strings.TrimSpace req.OrderBy.CreatedAt ≠ OrderTypeDESC then
    ({}, some ErrInvalidOrderBy)
  else if strings.TrimSpace req.OrderBy.Price ≠ ""
      ∧ strings.TrimSpace req.OrderBy.Price ≠ OrderTypeASC
      ∧ strings.TrimSpace req.OrderBy.Price ≠ OrderTypeDESC then
    ({}, some ErrInvalidOrderBy)
  else if strings.TrimSpace req.OrderBy.Quantity ≠ ""
      ∧ strings.TrimSpace req.OrderBy.Quantity ≠ OrderTypeASC
      ∧ strings.TrimSpace req.OrderBy.Quantity ≠ OrderTypeDESC then
    ({}, some ErrInvalidOrderBy)
  else
    ({ ID := req.ID
       Title := strings.TrimSpace req.Title
       IsActive := req.IsActive
       PriceRange :=
         { MinPrice := req.PriceRange.MinPrice
           MaxPrice := req.PriceRange.MaxPrice }
       UserID := req.UserID
       OrderBy :=
         { CreatedAt := strings.TrimSpace req.OrderBy.CreatedAt
           Title := strings.TrimSpace req.OrderBy.Title
           Price := strings.TrimSpace req.OrderBy.Price
           Quantity := strings.TrimSpace req.OrderBy.Quantity }
       Pagination :=
         { Limit := req.Pagination.Limit
           Page := req.Pagination.Page } }, none)

end RestV1

/-! ## Statistics service -/

namespace UserRepo

structure SummaryStatistics where
  Total : Int := 0
  TotalInactive : Int := 0
deriving DecidableEq, Repr

end UserRepo

namespace ProductRepo

structure SummaryStatistics where
  Total : Int := 0
  TotalInactive : Int := 0
deriving DecidableEq, Repr

end ProductRepo

namespace OrderRepo

/-- One row of the order statistics: a status and the number of orders with it. -/
structure Statistics where
  Status : String := ""
  Count : Int := 0
deriving DecidableEq, Repr

structure OrderInfo where
  OrderID : Int := 0
  OrderNumber : String := ""
  OrderDate : Time := 0
  Status : String := ""
  UserID : Int := 0
  Total : Float64 := {}
deriving DecidableEq, Repr

end OrderRepo

/-- The repository methods that the statistics service calls: `User().GetStatistics`,
`Product().GetStatistics`, `Order().GetStatistics` and `Order().GetLatestOrder`. Every
method takes the current state and returns its Go results and the next state. -/
structure StatisticsRepo (σ : Type) where
  userGetStatistics : σ → (UserRepo.SummaryStatistics × Option GoError) × σ
  productGetStatistics : σ → (ProductRepo.SummaryStatistics × Option GoError) × σ
  orderGetStatistics : σ → (List OrderRepo.Statistics × Option GoError) × σ
  orderGetLatestOrder : Int → σ → (List OrderRepo.OrderInfo × Option GoError) × σ

namespace UserService

structure UserSummary where
  Total : Int := 0
  TotalInactive : Int := 0
deriving DecidableEq, Repr

structure ProductSummary where
  Total : Int := 0
  TotalInactive : Int := 0
deriving DecidableEq, Repr

structure OrderSummary where
  TotalNew : Int := 0
  TotalPending : Int := 0
  TotalSuccess : Int := 0
  TotalFailed : Int := 0
deriving DecidableEq, Repr

structure OrderInfo where
  OrderID : Int := 0
  OrderNumber : String := ""
  OrderDate : Time := 0
  Status : String := ""
  UserID : Int := 0
  Total : Float64 := {}
deriving DecidableEq, Repr

structure SummaryStatistics where
  Users : UserSummary := {}
  Products : ProductSummary := {}
  Orders : OrderSummary := {}
  LatestOrders : List OrderInfo := []
deriving DecidableEq, Repr

/-- `GetStatistics`, lines 61-70: the body of the loop over the order statistics. -/
def addStat (orderSummary : OrderSummary) (stat : OrderRepo.Statistics) : OrderSummary :=
  if stat.Status = OrderService.OrderStatusNew then
    { orderSummary with TotalNew := stat.Count }
  else if stat.Status = OrderService.OrderStatusPending then
    { orderSummary with TotalPending := stat.Count }
  else if stat.Status = OrderService.OrderStatusSuccess then
    { orderSummary with TotalSuccess := stat.Count }
  else if stat.Status = OrderService.OrderStatusFailed then
    { orderSummary with TotalFailed := stat.Count }
  else
    orderSummary

/-- `GetStatistics`, lines 79-88: one latest order of the result. -/
def toOrderInfo (order : OrderRepo.OrderInfo) : OrderInfo :=
  { OrderID := order.OrderID
    OrderNumber := order.OrderNumber
    OrderDate := order.OrderDate
    Status := order.Status
    UserID := order.UserID
    Total := order.Total }

/-- `internal/service/user/statistics.go`, `GetStatistics`. -/
def GetStatistics {σ : Type} (repo : StatisticsRepo σ) (orderLimit : Int) (s : σ) :
    (SummaryStatistics × Option GoError) × σ :=
  match repo.userGetStatistics s with
  | ((_, some err), s1) => (({}, some err), s1)
  | ((userSummary, none), s1) =>
    match repo.productGetStatistics s1 with
    | ((_, some err), s2) => (({}, some err), s2)
    | ((productSummary, none), s2) =>
      match repo.orderGetStatistics s2 with
      | ((_, some err), s3) => (({}, some err), s3)
      | ((orderStatistics, none), s3) =>
        match repo.orderGetLatestOrder orderLimit s3 with
        | ((_, some err), s4) => (({}, some err), s4)
        | ((orderList, none), s4) =>
          (({ Users :=
                { Total := userSummary.Total
                  TotalInactive := userSummary.TotalInactive }
              Products :=
                { Total := productSummary.Total
                  TotalInactive := productSummary.TotalInactive }
              Orders := orderStatistics.foldl addStat {}
              LatestOrders := orderList.map toOrderInfo }, none), s4)

/-- The count reported for a status in the order statistics: the count of the last
row with this status, 0 when no row has it. -/
def reportedCount (status : String) (stats : List OrderRepo.Statistics) : Int :=
  match (stats.filter (fun stat => decide (stat.Status = status))).getLast? with
  | some stat => stat.Count
  | none => 0

/-- A repository whose calls all succeed; the order statistics report `NEW`, an
unknown status and `FAILED`. -/
def testStatisticsRepo : StatisticsRepo Unit where
  userGetStatistics := fun s => (({ Total := 10, TotalInactive := 5 }, none), s)
  productGetStatistics := fun s => (({ Total := 20, TotalInactive := 4 }, none), s)
  orderGetStatistics := fun s =>
    (([{ Status := "NEW", Count := 10 }, { Status := "CANCELLED", Count := 3 },
        { Status := "FAILED", Count := 7 }], none), s)
  orderGetLatestOrder := fun _ s =>
    (([{ OrderID := 1, OrderNumber := "order-1", Status := "NEW", UserID := 1,
         Total := { bits := 0x4059000000000000 } }], none), s)

/-- The same repository when the order statistics cannot be read. -/
def testStatisticsRepoFails : StatisticsRepo Unit :=
  { testStatisticsRepo with
    orderGetStatistics := fun s => (([], some (.errorString "connection refused")), s) }

end UserService

/-! ## Decoding the sort fields of an order listing request -/

namespace RestV1

/-- The fields of `orderSortBy`, by their JSON names `order_date` and `created_at`. -/
inductive orderSortKey where
  | order_date
  | created_at
deriving DecidableEq, Repr

/-- What `json.NewDecoder(r.Body).Decode(&req)` stores in `req.SortBy`: `members` are
the members of the `sort_by` object of the body that name a field, in the order in
which the body gives them; each member sets its field. -/
def decodeOrderSortBy (members : List (orderSortKey × String)) : orderSortBy :=
  members.foldl (fun sortBy member =>
    match member.1 with
    | .order_date => { sortBy with OrderDate := member.2 }
    | .created_at => { sortBy with CreatedAt := member.2 }) {}

end RestV1

/-! ## Product service: `UpdateProduct` -/

namespace ProductRepo

/-- `internal/repository/product/product.go`, `ExistsProductByID`. -/
def ExistsProductByID {σ : Type} (env : Env σ) (id : Int) (s : σ) :
    (Bool × Option GoError) × σ :=
  env.productsExists id s

end ProductRepo

namespace ProductService

/-- `errors.New("user does not exist")` of `internal/service/product/errors.go`. -/
def ErrUserNotExist : GoError := .errorString "user does not exist"

/-- `errors.New("product is not found")` of `internal/service/product/errors.go`. -/
def ErrProductNotFound : GoError := .errorString "product is not found"

structure ProductInput where
  Title : String := ""
  Description : String := ""
  Price : Float64 := {}
  Quantity : Int := 0
  IsActive : Bool := false
  UserID : Int := 0
deriving DecidableEq, Repr

/-- `internal/service/product/product.go`, `UpdateProduct`. -/
def UpdateProduct {σ : Type} (env : Env σ) (id : Int) (product : ProductInput) (s : σ) :
    Option GoError × σ :=
  match ProductRepo.ExistsProductByID env id s with
  | ((_, some err), s1) => (some err, s1)
  | ((existed, none), s1) =>
    if !existed then
      (some ErrUserNotExist, s1)
    else
      match ProductRepo.UpdateProduct env
          { ID := id
            Title := product.Title
            Description := product.Description
            Price := product.Price
            Quantity := product.Quantity
            IsActive := product.IsActive
            UserID := product.UserID } s1 with
      | ((_, some err), s2) => (some err, s2)
      | ((result, none), s2) =>
        if result = 0 then (some ErrProductNotFound, s2) else (none, s2)

/-- The product input of the test cases of `TestProductService_UpdateProduct`. -/
def testProductInput : ProductInput :=
  { Title := "test", Price := { bits := 0x40D3880000000000 }, Quantity := 10, IsActive := true,
    UserID := 1 }

end ProductService

namespace OrderService

/-- The user exists, no product has the given id. -/
def testProductMissing : Script :=
  { userExist := true, productExist := false }

/-- The product exists, the user does not. -/
def testOwnerMissing : Script :=
  { userExist := false, productExist := true }

end OrderService

/-! ## Counting the invocations of a unit of work -/

namespace Repository

/-- The environment on states that carry a counter: every handler acts on the state
and leaves the counter as it is. -/
def withCounter {σ : Type} (env : Env σ) : Env (σ × Nat) where
  usersExists := fun id s => ((env.usersExists id s.1).1, ((env.usersExists id s.1).2, s.2))
  productsOne := fun id s => ((env.productsOne id s.1).1, ((env.productsOne id s.1).2, s.2))
  productUpdate := fun product s =>
    ((env.productUpdate product s.1).1, ((env.productUpdate product s.1).2, s.2))
  beginTx := fun s => ((env.beginTx s.1).1, ((env.beginTx s.1).2, s.2))
  uuidNewV4 := fun s => ((env.uuidNewV4 s.1).1, ((env.uuidNewV4 s.1).2, s.2))
  timeNow := fun s => ((env.timeNow s.1).1, ((env.timeNow s.1).2, s.2))
  orderInsert := fun tx order s =>
    ((env.orderInsert tx order s.1).1, ((env.orderInsert tx order s.1).2, s.2))
  orderItemInsert := fun tx item s =>
    ((env.orderItemInsert tx item s.1).1, ((env.orderItemInsert tx item s.1).2, s.2))
  rollback := fun tx s => ((env.rollback tx s.1).1, ((env.rollback tx s.1).2, s.2))
  commit := fun tx s => ((env.commit tx s.1).1, ((env.commit tx s.1).2, s.2))
  productsExists := fun id s =>
    ((env.productsExists id s.1).1, ((env.productsExists id s.1).2, s.2))

/-- The unit of work `fn` on states that carry a counter: every invocation runs `fn`
on the state and adds one to the counter. -/
def counted {σ : Type} (fn : TxHandle → σ → Option GoError × List Call × σ) :
    TxHandle → σ × Nat → Option GoError × List Call × (σ × Nat) :=
  fun tx s => ((fn tx s.1).1, (fn tx s.1).2.1, ((fn tx s.1).2.2, s.2 + 1))

end Repository

/-! ## Product repository: `InsertAll` -/

namespace Model

namespace TableNames
def Products : String := "products"
end TableNames

namespace ProductColumns
def Description : String := "description"
def IsActive : String := "is_active"
def UserID : String := "user_id"
end ProductColumns

end Model

namespace ProductRepo

/-- `InsertAll`, lines 188-193: the statement before the first group. -/
def insertAllHeader : String :=
  "INSERT INTO " ++ Model.TableNames.Products ++ " (" ++ Model.ProductColumns.Title ++ ", "
    ++ Model.ProductColumns.Description ++ ", " ++ Model.ProductColumns.Price ++ ", "
    ++ Model.ProductColumns.Quantity ++ ", " ++ Model.ProductColumns.IsActive ++ ", "
    ++ Model.ProductColumns.UserID ++ ") VALUES "

/-- `InsertAll`, line 201: `fmt.Sprintf("($%d, $%d, $%d, $%d, $%d, $%d),", idx+1, ...,
idx+6)`. -/
def insertAllGroup (idx : Nat) : String :=
  "($" ++ toString (idx + 1) ++ ", $" ++ toString (idx + 2) ++ ", $" ++ toString (idx + 3)
    ++ ", $" ++ toString (idx + 4) ++ ", $" ++ toString (idx + 5) ++ ", $"
    ++ toString (idx + 6) ++ "),"

/-- `InsertAll`, line 202: the values appended for one product. -/
def insertAllValues (p : Product) : List SQLValue :=
  [.string p.Title, .string p.Description, .float p.Price, .int p.Quantity, .bool p.IsActive,
    .int p.UserID]

/-- `InsertAll`, lines 200-204: the loop over the products, on the statement, the
values and `idx`. The counter `idx` is a natural number here: it is at most six times
the length of the slice, and a slice that long does not fit a 64-bit address space
before `idx` leaves the range of `int`. -/
def insertAllLoop : List Product → String × List SQLValue × Nat → String × List SQLValue × Nat
  | [], st => st
  | p :: products, (queryStr, values, idx) =>
    insertAllLoop products
      (queryStr ++ insertAllGroup idx, values ++ insertAllValues p, idx + 6)

/-- `InsertAll`, lines 188-207: the statement and the values handed to `queries.Raw`. -/
def insertAllQuery (products : List Product) : String × List SQLValue :=
  (strings.TrimSuffix (insertAllLoop products (insertAllHeader, [], 0)).1 ",",
    (insertAllLoop products (insertAllHeader, [], 0)).2.1)

/-- `internal/repository/product/product.go`, `InsertAll`; `exec` is
`queries.Raw(queryStr, values...).Exec(tx)`. -/
def InsertAll {σ : Type} (exec : TxHandle → String → List SQLValue → σ → Option GoError × σ)
    (tx : TxHandle) (products : List Product) (s : σ) : Option GoError × σ :=
  match exec tx (insertAllQuery products).1 (insertAllQuery products).2 s with
  | (some err, s1) => (some err, s1)
  | (none, s1) => (none, s1)

/-- The placeholder group of the `k`-th product (counted from 0), without a comma. -/
def placeholderGroup (k : Nat) : String :=
  "($" ++ toString (6 * k + 1) ++ ", $" ++ toString (6 * k + 2) ++ ", $"
    ++ toString (6 * k + 3) ++ ", $" ++ toString (6 * k + 4) ++ ", $"
    ++ toString (6 * k + 5) ++ ", $" ++ toString (6 * k + 6) ++ ")"

end ProductRepo

/-! ## Price conditions of a product listing -/

namespace ProductRepo

/-- A condition on the column `price` of table `products`. -/
def isPriceCondition : QueryMod → Bool
  | .WhereOp field _ _ => field == Model.ProductWhere.Price
  | _ => false

/-- Whether a product with the given price passes a query mod, as far as the price
conditions go: `price >= value` for `GTE` and `price <= value` for `LTE` on the price
column, compared as the database compares two numbers; every other mod lets it pass. -/
def priceSatisfies (price : Float64) : QueryMod → Bool
  | .WhereOp field .GTE (.float value) =>
    field != Model.ProductWhere.Price || Float64.le value price
  | .WhereOp field .LTE (.float value) =>
    field != Model.ProductWhere.Price || Float64.le price value
  | _ => true

end ProductRepo

/-! ## GraphQL handler: product listing input -/

namespace Graph

/-- A run-time panic of Go. -/
inductive Panic where
  | nilPointerDereference
deriving DecidableEq, Repr

/-- Go `*p`; `none` is the nil pointer, whose dereference panics. -/
def deref {α : Type} : Option α → Except Panic α
  | some v => .ok v
  | none => .error .nilPointerDereference

/-! The input types of package `mod`, with the fields that `product.go` and
`product_test.go` use; a pointer field is an `Option`, `none` being nil. -/

namespace Mod

structure PriceRange where
  MinPrice : Float64 := {}
  MaxPrice : Float64 := {}
deriving DecidableEq, Repr

structure OrderBy where
  Title : Option String := none
  CreatedAt : Option String := none
  Price : Option String := none
  Quantity : Option String := none
deriving DecidableEq, Repr

structure PaginationInput where
  Page : Option Int := none
  Limit : Option Int := none
deriving DecidableEq, Repr

structure GetProductsInput where
  ID : Option Int := none
  Title : Option String := none
  PriceRange : Option PriceRange := none
  IsActive : Option Bool := none
  UserID : Option Int := none
  OrderBy : Option OrderBy := none
  Pagination : Option PaginationInput := none
deriving DecidableEq, Repr

end Mod

def errInvalidUserID : GoError :=
  .errorResponse RestV1.StatusBadRequest "invalid_user_id" "use id is invalid"
def errInvalidPage : GoError :=
  .errorResponse RestV1.StatusBadRequest "invalid_page" "page is invalid"
def errInvalidLimit : GoError :=
  .errorResponse RestV1.StatusBadRequest "invalid_limit" "limit is invalid"
def errInvalidID : GoError :=
  .errorResponse RestV1.StatusBadRequest "invalid_id" "id is invalid"
def errInvalidPriceRange : GoError :=
  .errorResponse RestV1.StatusBadRequest "invalid_price_range" "price range is invalid"
def errInvalidOrderBy : GoError :=
  .errorResponse RestV1.StatusBadRequest "invalid_order_by" "order by is invalid"

def DefaultLimit : Int := 20
def MaxLimit : Int := 1000

def orderTypeASC : String := "asc"
def orderTypeDESC : String := "desc"

/-- `internal/handler/gql/graph/product.go`, `validateProductPagination`: the
pagination and the error that it returns, or the panic that ends it. -/
def validateProductPagination (pagination : Mod.PaginationInput) :
    Except Panic (ProductService.Pagination × Option GoError) :=
  match deref pagination.Page with
  | .error p => .error p
  | .ok page =>
    if page < 1 then
      .ok ({}, some errInvalidPage)
    else
      match deref pagination.Limit with
      | .error p => .error p
      | .ok limit =>
        if limit < 0 ∨ limit > MaxLimit then
          .ok ({}, some errInvalidLimit)
        else
          .ok ({ Page := page, Limit := limit }, none)

/-- `validGetProductsInput`, lines 129-203: the checks before the pagination. Every
pointer is compared with nil before it is dereferenced, so this part returns the
service input built so far or a validation error. -/
def validGetProductsFilter (input : Mod.GetProductsInput) :
    Except GoError ProductService.GetProductsInput := do
  let servInput : ProductService.GetProductsInput := {}
  let servInput ← match input.ID with
    | some id =>
      if id < 0 then Except.error errInvalidID else pure { servInput with ID := id }
    | none => pure servInput
  let servInput := match input.Title with
    | some title => { servInput with Title := strings.TrimSpace title }
    | none => servInput
  let servInput ← match input.PriceRange with
    | some priceRange =>
      if (!Float64.eq priceRange.MinPrice Float64.zero
            || !Float64.eq priceRange.MaxPrice Float64.zero)
          && (Float64.lt priceRange.MinPrice Float64.zero
            || Float64.lt priceRange.MaxPrice Float64.zero) then
        Except.error errInvalidPriceRange
      else
        pure { servInput with
          PriceRange := { MinPrice := priceRange.MinPrice, MaxPrice := priceRange.MaxPrice } }
    | none => pure servInput
  let servInput := match input.IsActive with
    | some isActive => { servInput with IsActive := { Bool_ := isActive, Valid := true } }
    | none => servInput
  let servInput ← match input.UserID with
    | some userID =>
      if userID < 0 then Except.error errInvalidUserID
      else pure { servInput with UserID := userID }
    | none => pure servInput
  match input.OrderBy with
  | none => pure servInput
  | some orderBy =>
    let servInput ← match orderBy.Title with
      | some title =>
        if strings.TrimSpace title ≠ "" ∧ strings.TrimSpace title ≠ orderTypeASC
            ∧ strings.TrimSpace title ≠ orderTypeDESC then
          Except.error errInvalidOrderBy
        else
          pure { servInput with
            OrderBy := { servInput.OrderBy with Title := strings.TrimSpace title } }
      | none => pure servInput
    let servInput ← match orderBy.CreatedAt with
      | some createdAt =>
        if strings.TrimSpace createdAt ≠ "" ∧ strings.TrimSpace createdAt ≠ orderTypeASC
            ∧ strings.TrimSpace createdAt ≠ orderTypeDESC then
          Except.error errInvalidOrderBy
        else
          pure { servInput with
            OrderBy := { servInput.OrderBy with CreatedAt := strings.TrimSpace createdAt } }
      | none => pure servInput
    let servInput ← match orderBy.Price with
      | some price =>
        if strings.TrimSpace price ≠ "" ∧ strings.TrimSpace price ≠ orderTypeASC
            ∧ strings.TrimSpace price ≠ orderTypeDESC then
          Except.error errInvalidOrderBy
        else
          pure { servInput with
            OrderBy := { servInput.OrderBy with Price := strings.TrimSpace price } }
      | none => pure servInput
    match orderBy.Quantity with
    | some quantity =>
      if strings.TrimSpace quantity ≠ "" ∧ strings.TrimSpace quantity ≠ orderTypeASC
          ∧ strings.TrimSpace quantity ≠ orderTypeDESC then
        Except.error errInvalidOrderBy
      else
        pure { servInput with
          OrderBy := { servInput.OrderBy with Quantity := strings.TrimSpace quantity } }
    | none => pure servInput

/-- `internal/handler/gql/graph/product.go`, `validGetProductsInput`: the service input
and the error that it returns, or the panic that ends it. -/
def validGetProductsInput (input : Mod.GetProductsInput) :
    Except Panic (ProductService.GetProductsInput × Option GoError) :=
  match validGetProductsFilter input with
  | .error err => .ok ({}, some err)
  | .ok servInput =>
    match input.Pagination with
    | some pagination =>
      match validateProductPagination pagination with
      | .error p => .error p
      | .ok (_, some err) => .ok ({}, some err)
      | .ok (pageArgs, none) => .ok ({ servInput with Pagination := pageArgs }, none)
    | none =>
      .ok ({ servInput with Pagination := { Page := 1, Limit := DefaultLimit } }, none)

end Graph

/-! ## Reading a log of calls against the environment -/

namespace OrderService

/-- The state that the environment leaves after the call `c` made at state `s`, when
the results recorded in `c` are the ones that the environment gives at `s`; `none`
when they are not. -/
def replayCall {σ : Type} (env : Env σ) (c : Call) (s : σ) : Option σ :=
  match c with
  | .ExistsUserByID id existed err =>
    if (UserRepo.ExistsUserByID env id s).1 = (existed, err) then
      some (UserRepo.ExistsUserByID env id s).2
    else none
  | .GetProduct id product err =>
    if (ProductRepo.GetProduct env id s).1 = (product, err) then
      some (ProductRepo.GetProduct env id s).2
    else none
  | .BeginTx tx err =>
    if (env.beginTx s).1 = (tx, err) then some (env.beginTx s).2 else none
  | .NewV4 orderNumber err =>
    if (env.uuidNewV4 s).1 = (orderNumber, err) then some (env.uuidNewV4 s).2 else none
  | .Now t =>
    if (env.timeNow s).1 = t then some (env.timeNow s).2 else none
  | .CreateOrder tx order ret err =>
    if (OrderRepo.CreateOrder env tx order s).1 = (ret, err) then
      some (OrderRepo.CreateOrder env tx order s).2
    else none
  | .CreateItem tx item err =>
    if (OrderRepo.CreateItem env tx item s).1 = err then
      some (OrderRepo.CreateItem env tx item s).2
    else none
  | .Rollback tx err =>
    if (env.rollback tx s).1 = err then some (env.rollback tx s).2 else none
  | .Commit tx err =>
    if (env.commit tx s).1 = err then some (env.commit tx s).2 else none

/-- The state that the environment leaves after the calls of a log, made one after
the other from state `s`, when every call of the log has the results that the
environment gives at that point; `none` when one has not. -/
def replay {σ : Type} (env : Env σ) : List Call → σ → Option σ
  | [], s => some s
  | c :: calls, s =>
    match replayCall env c s with
    | some s1 => replay env calls s1
    | none => none

/-- The products that `GetProduct` returns for the items, looked up one after the
other from state `s`. -/
def lookedUp {σ : Type} (env : Env σ) : List OrderItemInput → σ → List Product
  | [], _ => []
  | item :: rest, s =>
    (ProductRepo.GetProduct env item.ProductID s).1.1 ::
      lookedUp env rest (ProductRepo.GetProduct env item.ProductID s).2

/-- In `calls`, every call that satisfies `Q` has before it a call that satisfies
`P`. -/
def PrecededBy (P Q : Call → Bool) (calls : List Call) : Prop :=
  ∀ (pre post : List Call) (b : Call), calls = pre ++ b :: post → Q b = true →
    ∃ a ∈ pre, P a = true

/-- The input of `testInput` with a price and a name that the caller made up. -/
def testInputMadeUp : OrderInput :=
  { Note := "New order"
    UserID := 2
    Items :=
      [ { ProductID := 1, ProductPrice := { bits := 0x3FF0000000000000 },
          ProductName := "made up", Quantity := 10, Discount := { bits := 0 },
          Note := "item 1" },
        { ProductID := 3, ProductPrice := { bits := 0x3FF0000000000000 },
          ProductName := "made up", Quantity := 20,
          Discount := { bits := 0x3FE0000000000000 }, Note := "item 2" } ] }

end OrderService

/-! # Theorems -/

namespace OrderService

/-! ## Shape of a run -/

theorem checkProducts_run {σ : Type} (env : Env σ) (items : List OrderItemInput) (s : σ) :
    CheckRun items (checkProducts env items s).1 (checkProducts env items s).2.1 := by
  induction items generalizing s with
  | nil => exact CheckRun.ok [] rfl
  | cons item rest ih =>
    unfold checkProducts
    rcases hg : ProductRepo.GetProduct env item.ProductID s with ⟨⟨product, err⟩, s1⟩
    simp only
    by_cases his : errorsIs err GoError.ErrNoRows = true
    · simp only [his, if_true]
      exact CheckRun.notFound [] (by simp) product err his
    · simp only [his]
      cases err with
      | some e =>
        simp only
        exact CheckRun.failed [] (by simp) product e (by simpa using his)
      | none =>
        simp only
        have h := ih s1
        rcases hr : checkProducts env rest s1 with ⟨res, calls, s2⟩
        rw [hr] at h
        simp only at h
        cases h with
        | ok products hlen =>
          exact CheckRun.ok (product :: products) (by simp [hlen])
        | notFound products hlt p err2 his2 =>
          exact CheckRun.notFound (product :: products) (by simp [hlt]) p err2 his2
        | failed products hlt p e his2 =>
          exact CheckRun.failed (product :: products) (by simp [hlt]) p e his2

theorem createItems_run {σ : Type} (env : Env σ) (tx : TxHandle) (orderID : Int)
    (items : List OrderItemInput) (s : σ) :
    ItemsRun tx orderID items (createItems env tx orderID items s).1
      (createItems env tx orderID items s).2.1 := by
  induction items generalizing s with
  | nil => exact ItemsRun.ok
  | cons item rest ih =>
    unfold createItems
    rcases hc : OrderRepo.CreateItem env tx (toOrderItem orderID item) s with ⟨err, s1⟩
    cases err with
    | some e =>
      simp only
      exact ItemsRun.failed 0 (by simp) e
    | none =>
      simp only
      have h := ih s1
      rcases hr : createItems env tx orderID rest s1 with ⟨r, calls, s2⟩
      rw [hr] at h
      simp only at h
      cases h with
      | ok => exact ItemsRun.ok
      | failed k hk cause =>
        exact ItemsRun.failed (k + 1) (by simpa using hk) cause

theorem OrderRepo_CreateOrder_err {σ : Type} (env : Env σ) (tx : TxHandle) (order ret : Order)
    (e : GoError) (s s1 : σ) (h : OrderRepo.CreateOrder env tx order s = ((ret, some e), s1)) :
    ret = {} := by
  unfold OrderRepo.CreateOrder at h
  split at h
  · simp only [Prod.mk.injEq] at h
    exact h.1.1.symm
  · simp at h

theorem createOrderTx_run {σ : Type} (env : Env σ) (input : OrderInput) (tx : TxHandle) (s : σ) :
    TxBodyRun input tx (createOrderTx env input tx s).1 (createOrderTx env input tx s).2.1 := by
  unfold createOrderTx
  split
  · exact TxBodyRun.uuidFailed _ _
  · split
    split
    · rename_i hc
      rw [OrderRepo_CreateOrder_err env tx _ _ _ _ _ hc]
      exact TxBodyRun.headerFailed _ _ _
    · rename_i order s3 hc
      have h := createItems_run env tx order.ID input.Items s3
      split
      rename_i r calls s4 hr
      rw [hr] at h
      exact TxBodyRun.items _ _ order r calls h

theorem CreateOrder_run {σ : Type} (env : Env σ) (input : OrderInput) (s : σ) :
    CreateOrderRun input (CreateOrder env input s).1 (CreateOrder env input s).2.1 := by
  unfold CreateOrder
  rcases hu : UserRepo.ExistsUserByID env input.UserID s with ⟨⟨existed, uerr⟩, s1⟩
  cases uerr with
  | some e => cases existed <;> exact CreateOrderRun.userFailed _ e
  | none =>
    cases existed with
    | false => exact CreateOrderRun.userNotExist
    | true =>
      simp only
      have hc := checkProducts_run env input.Items s1
      rcases hr : checkProducts env input.Items s1 with ⟨res, calls, s2⟩
      rw [hr] at hc
      simp only at hc
      cases res with
      | error e => exact CreateOrderRun.productFailed e calls hc
      | ok items =>
        simp only
        cases hc with
        | ok products hlen =>
          unfold Repository.Tx
          rcases hb : env.beginTx s2 with ⟨⟨tx, berr⟩, s3⟩
          cases berr with
          | some e => exact CreateOrderRun.beginFailed products hlen tx e
          | none =>
            simp only
            have hf := createOrderTx_run env
              { input with Items := snapshot input.Items products } tx s3
            rcases hfr : createOrderTx env
              { input with Items := snapshot input.Items products } tx s3 with ⟨ferr, fcalls, s4⟩
            rw [hfr] at hf
            simp only at hf
            cases ferr with
            | some e =>
              simp only
              exact CreateOrderRun.rolledBack products hlen tx e fcalls _ hf
            | none =>
              simp only
              exact CreateOrderRun.committed products hlen tx fcalls _ hf

theorem mem_lookupCalls {items : List OrderItemInput} {products : List Product} {c : Call}
    (h : c ∈ lookupCalls items products) : ∃ id p, c = Call.GetProduct id p none := by
  induction items generalizing products with
  | nil => simp [lookupCalls] at h
  | cons item rest ih =>
    cases products with
    | nil => simp [lookupCalls] at h
    | cons p ps =>
      simp only [lookupCalls, List.zipWith_cons_cons, List.mem_cons] at h
      rcases h with h | h
      · exact ⟨_, _, h⟩
      · exact ih h

theorem mem_itemCalls {tx : TxHandle} {orderID : Int} {items : List OrderItemInput} {c : Call}
    (h : c ∈ itemCalls tx orderID items) : ∃ item, c = Call.CreateItem tx item none := by
  simp only [itemCalls, List.mem_map] at h
  rcases h with ⟨item, _, rfl⟩
  exact ⟨_, rfl⟩

theorem ItemsRun_mem {tx : TxHandle} {orderID : Int} {items : List OrderItemInput}
    {r : Option GoError} {calls : List Call} (h : ItemsRun tx orderID items r calls)
    {c : Call} (hc : c ∈ calls) : ∃ item err, c = Call.CreateItem tx item err := by
  cases h with
  | ok =>
    rcases mem_itemCalls hc with ⟨item, rfl⟩
    exact ⟨_, _, rfl⟩
  | failed k hk cause =>
    simp only [List.mem_append, List.mem_singleton] at hc
    rcases hc with hc | hc
    · rcases mem_itemCalls hc with ⟨item, rfl⟩
      exact ⟨_, _, rfl⟩
    · exact ⟨_, _, hc⟩

/-- Calls of the unit of work are order-number generation, clock reads and inserts. -/
theorem TxBodyRun_mem {input : OrderInput} {tx : TxHandle} {r : Option GoError}
    {calls : List Call} (h : TxBodyRun input tx r calls) {c : Call} (hc : c ∈ calls) :
    (∃ n err, c = Call.NewV4 n err) ∨ (∃ t, c = Call.Now t) ∨
      (∃ order ret err, c = Call.CreateOrder tx order ret err) ∨
      (∃ item err, c = Call.CreateItem tx item err) := by
  cases h with
  | uuidFailed orderNumber cause =>
    simp only [List.mem_singleton] at hc
    exact Or.inl ⟨_, _, hc⟩
  | headerFailed orderNumber now cause =>
    simp only [List.mem_cons, List.mem_singleton, List.not_mem_nil, or_false] at hc
    rcases hc with hc | hc | hc
    · exact Or.inl ⟨_, _, hc⟩
    · exact Or.inr (Or.inl ⟨_, hc⟩)
    · exact Or.inr (Or.inr (Or.inl ⟨_, _, _, hc⟩))
  | items orderNumber now order r calls h =>
    simp only [List.mem_cons] at hc
    rcases hc with hc | hc | hc | hc
    · exact Or.inl ⟨_, _, hc⟩
    · exact Or.inr (Or.inl ⟨_, hc⟩)
    · exact Or.inr (Or.inr (Or.inl ⟨_, _, _, hc⟩))
    · exact Or.inr (Or.inr (Or.inr (ItemsRun_mem h hc)))

/-- A product lookup that occurs in a run either succeeded, or it is the last call
of the run and decides the returned error. -/
theorem CreateOrderRun_getProduct {input : OrderInput} {err : Option GoError} {calls : List Call}
    (h : CreateOrderRun input err calls) {id : Int} {p : Product} {gerr : Option GoError}
    (hc : Call.GetProduct id p gerr ∈ calls) :
    gerr = none ∨
      ((∀ c ∈ calls, c.isExistsUserByID = true ∨ c.isGetProduct = true) ∧
        ((errorsIs gerr GoError.ErrNoRows = true ∧ err = some ErrProductNotExist) ∨
          (errorsIs gerr GoError.ErrNoRows = false ∧ err = gerr))) := by
  have hlook : ∀ {products : List Product},
      Call.GetProduct id p gerr ∈ lookupCalls input.Items products → gerr = none := by
    intro products hm
    rcases mem_lookupCalls hm with ⟨_, _, heq⟩
    simp only [Call.GetProduct.injEq] at heq
    exact heq.2.2
  have hbody : ∀ {inp : OrderInput} {tx : TxHandle} {r : Option GoError} {body : List Call},
      TxBodyRun inp tx r body → Call.GetProduct id p gerr ∈ body → False := by
    intro inp tx r body hb hm
    rcases TxBodyRun_mem hb hm with ⟨_, _, h1⟩ | ⟨_, h1⟩ | ⟨_, _, _, h1⟩ | ⟨_, _, h1⟩ <;>
      simp at h1
  have hall : ∀ (products : List Product) (last : Call), last.isGetProduct = true →
      ∀ c ∈ Call.ExistsUserByID input.UserID true none ::
          (lookupCalls input.Items products ++ [last]),
        c.isExistsUserByID = true ∨ c.isGetProduct = true := by
    intro products last hlast c hmem
    rcases List.mem_cons.1 hmem with rfl | hmem
    · exact Or.inl rfl
    · rcases List.mem_append.1 hmem with hmem | hmem
      · rcases mem_lookupCalls hmem with ⟨_, _, rfl⟩
        exact Or.inr rfl
      · rw [List.mem_singleton.1 hmem]
        exact Or.inr hlast
  cases h with
  | userFailed existed e => simp at hc
  | userNotExist => simp at hc
  | productFailed e calls h =>
    cases h with
    | notFound products hlt product err2 his =>
      rcases List.mem_cons.1 hc with hc | hc
      · simp at hc
      · rcases List.mem_append.1 hc with hc | hc
        · exact Or.inl (hlook hc)
        · have heq := List.mem_singleton.1 hc
          simp only [Call.GetProduct.injEq] at heq
          refine Or.inr ⟨hall products _ rfl, Or.inl ⟨?_, rfl⟩⟩
          rw [heq.2.2]
          exact his
    | failed products hlt product e2 his =>
      rcases List.mem_cons.1 hc with hc | hc
      · simp at hc
      · rcases List.mem_append.1 hc with hc | hc
        · exact Or.inl (hlook hc)
        · have heq := List.mem_singleton.1 hc
          simp only [Call.GetProduct.injEq] at heq
          refine Or.inr ⟨hall products _ rfl, Or.inr ⟨?_, ?_⟩⟩
          · rw [heq.2.2]
            exact his
          · rw [heq.2.2]
  | beginFailed products hlen tx e =>
    rcases List.mem_cons.1 hc with hc | hc
    · simp at hc
    · rcases List.mem_append.1 hc with hc | hc
      · exact Or.inl (hlook hc)
      · simp at hc
  | rolledBack products hlen tx e calls rerr h =>
    rcases List.mem_cons.1 hc with hc | hc
    · simp at hc
    · rcases List.mem_append.1 hc with hc | hc
      · exact Or.inl (hlook hc)
      · rcases List.mem_cons.1 hc with hc | hc
        · simp at hc
        · rcases List.mem_append.1 hc with hc | hc
          · exact (hbody h hc).elim
          · simp at hc
  | committed products hlen tx calls cerr h =>
    rcases List.mem_cons.1 hc with hc | hc
    · simp at hc
    · rcases List.mem_append.1 hc with hc | hc
      · exact Or.inl (hlook hc)
      · rcases List.mem_cons.1 hc with hc | hc
        · simp at hc
        · rcases List.mem_append.1 hc with hc | hc
          · exact (hbody h hc).elim
          · simp at hc

theorem TxBodyRun_phase {input : OrderInput} {tx : TxHandle} {r : Option GoError}
    {calls : List Call} (h : TxBodyRun input tx r calls) {c : Call} (hc : c ∈ calls) :
    3 ≤ c.phase ∧ c.phase ≤ 5 := by
  rcases TxBodyRun_mem h hc with ⟨_, _, rfl⟩ | ⟨_, rfl⟩ | ⟨_, _, _, rfl⟩ | ⟨_, _, rfl⟩ <;>
    simp [Call.phase]

/-- A call of stage 3 or later lies in a run that opened the transaction: the run is
the user check, successful lookups of all items, `BeginTx`, the calls of the unit of
work, and one final `Rollback` or `Commit`. -/
theorem CreateOrderRun_inTx {input : OrderInput} {err : Option GoError} {calls : List Call}
    (h : CreateOrderRun input err calls) {c : Call} (hc : c ∈ calls) (hphase : 3 ≤ c.phase) :
    ∃ (products : List Product) (tx : TxHandle) (r : Option GoError) (body : List Call)
      (final : Call),
      products.length = input.Items.length ∧
      calls = Call.ExistsUserByID input.UserID true none ::
        lookupCalls input.Items products ++ (Call.BeginTx tx none :: body ++ [final]) ∧
      TxBodyRun { input with Items := snapshot input.Items products } tx r body ∧
      ((∃ e rerr, r = some e ∧ err = some e ∧ final = Call.Rollback tx rerr) ∨
        (∃ cerr, r = none ∧ err = cerr ∧ final = Call.Commit tx cerr)) ∧
      (c ∈ body ∨ c = final) := by
  have hlook : ∀ {products : List Product}, c ∈ lookupCalls input.Items products → False := by
    intro products hm
    rcases mem_lookupCalls hm with ⟨_, _, rfl⟩
    simp [Call.phase] at hphase
  cases h with
  | userFailed existed e =>
    rw [List.mem_singleton.1 hc] at hphase
    simp [Call.phase] at hphase
  | userNotExist =>
    rw [List.mem_singleton.1 hc] at hphase
    simp [Call.phase] at hphase
  | productFailed e calls h =>
    exfalso
    rcases List.mem_cons.1 hc with hc | hc
    · rw [hc] at hphase
      simp [Call.phase] at hphase
    · cases h with
      | notFound products hlt product err2 his =>
        rcases List.mem_append.1 hc with hc | hc
        · exact hlook hc
        · rw [List.mem_singleton.1 hc] at hphase
          simp [Call.phase] at hphase
      | failed products hlt product e2 his =>
        rcases List.mem_append.1 hc with hc | hc
        · exact hlook hc
        · rw [List.mem_singleton.1 hc] at hphase
          simp [Call.phase] at hphase
  | beginFailed products hlen tx e =>
    exfalso
    rcases List.mem_cons.1 hc with hc | hc
    · rw [hc] at hphase
      simp [Call.phase] at hphase
    · rcases List.mem_append.1 hc with hc | hc
      · exact hlook hc
      · rw [List.mem_singleton.1 hc] at hphase
        simp [Call.phase] at hphase
  | rolledBack products hlen tx e body rerr h =>
    refine ⟨products, tx, some e, body, Call.Rollback tx rerr, hlen, rfl, h,
      Or.inl ⟨e, rerr, rfl, rfl, rfl⟩, ?_⟩
    rcases List.mem_cons.1 hc with hc | hc
    · rw [hc] at hphase
      simp [Call.phase] at hphase
    · rcases List.mem_append.1 hc with hc | hc
      · exact (hlook hc).elim
      · rcases List.mem_cons.1 hc with hc | hc
        · rw [hc] at hphase
          simp [Call.phase] at hphase
        · rcases List.mem_append.1 hc with hc | hc
          · exact Or.inl hc
          · exact Or.inr (List.mem_singleton.1 hc)
  | committed products hlen tx body cerr h =>
    refine ⟨products, tx, none, body, Call.Commit tx err, hlen, rfl, h,
      Or.inr ⟨err, rfl, rfl, rfl⟩, ?_⟩
    rcases List.mem_cons.1 hc with hc | hc
    · rw [hc] at hphase
      simp [Call.phase] at hphase
    · rcases List.mem_append.1 hc with hc | hc
      · exact (hlook hc).elim
      · rcases List.mem_cons.1 hc with hc | hc
        · rw [hc] at hphase
          simp [Call.phase] at hphase
        · rcases List.mem_append.1 hc with hc | hc
          · exact Or.inl hc
          · exact Or.inr (List.mem_singleton.1 hc)

theorem opening_calls_props {input : OrderInput} {products : List Product} {tx : TxHandle}
    {n : String} {now : Time} {c : Call}
    (hc : c ∈ Call.ExistsUserByID input.UserID true none ::
      lookupCalls input.Items products ++
        [Call.BeginTx tx none, Call.NewV4 n none, Call.Now now]) :
    c.isInsert = false ∧ c.isCommit = false ∧ c.isRollback = false ∧ c.err = none := by
  rcases List.mem_cons.1 hc with rfl | hc
  · exact ⟨rfl, rfl, rfl, rfl⟩
  · rcases List.mem_append.1 hc with hc | hc
    · rcases mem_lookupCalls hc with ⟨_, _, rfl⟩
      exact ⟨rfl, rfl, rfl, rfl⟩
    · simp only [List.mem_cons, List.mem_singleton, List.not_mem_nil, or_false] at hc
      rcases hc with rfl | rfl | rfl <;> exact ⟨rfl, rfl, rfl, rfl⟩

theorem filter_lookupCalls_pos (P : Call → Bool) (hP : ∀ id p e, P (Call.GetProduct id p e) = true)
    (items : List OrderItemInput) (products : List Product) :
    (lookupCalls items products).filter P = lookupCalls items products := by
  apply List.filter_eq_self.2
  intro c hc
  rcases mem_lookupCalls hc with ⟨_, _, rfl⟩
  exact hP _ _ _

theorem filter_lookupCalls_neg (P : Call → Bool)
    (hP : ∀ id p e, P (Call.GetProduct id p e) = false)
    (items : List OrderItemInput) (products : List Product) :
    (lookupCalls items products).filter P = [] := by
  apply List.filter_eq_nil_iff.2
  intro c hc
  rcases mem_lookupCalls hc with ⟨_, _, rfl⟩
  simp [hP]

theorem filter_itemCalls_pos (P : Call → Bool) (hP : ∀ tx item e, P (Call.CreateItem tx item e) = true)
    (tx : TxHandle) (orderID : Int) (items : List OrderItemInput) :
    (itemCalls tx orderID items).filter P = itemCalls tx orderID items := by
  apply List.filter_eq_self.2
  intro c hc
  rcases mem_itemCalls hc with ⟨_, rfl⟩
  exact hP _ _ _

theorem filter_itemCalls_neg (P : Call → Bool)
    (hP : ∀ tx item e, P (Call.CreateItem tx item e) = false)
    (tx : TxHandle) (orderID : Int) (items : List OrderItemInput) :
    (itemCalls tx orderID items).filter P = [] := by
  apply List.filter_eq_nil_iff.2
  intro c hc
  rcases mem_itemCalls hc with ⟨_, rfl⟩
  simp [hP]

/-- The item inserts of a run, written out over the input items and the products
that the lookups returned. -/
theorem itemCalls_snapshot (tx : TxHandle) (orderID : Int) (items : List OrderItemInput)
    (products : List Product) :
    itemCalls tx orderID (snapshot items products) =
      List.zipWith
        (fun item product =>
          Call.CreateItem tx
            { OrderID := orderID
              ProductID := item.ProductID
              ProductPrice := product.Price
              ProductName := product.Title
              Quantity := item.Quantity
              Discount := item.Discount
              Note := item.Note } none)
        items products := by
  simp only [itemCalls, snapshot, List.map_zipWith, toOrderItem]

/-- A run that returns nil consists of the user check, successful lookups of all
items, `BeginTx`, order number, clock read, header insert, inserts of all items,
and a successful `Commit`. -/
theorem CreateOrderRun_nil {input : OrderInput} {calls : List Call}
    (h : CreateOrderRun input none calls) :
    ∃ (products : List Product) (tx : TxHandle) (orderNumber : String) (now : Time)
      (ret : Order),
      products.length = input.Items.length ∧
      calls = Call.ExistsUserByID input.UserID true none ::
        lookupCalls input.Items products ++
          (Call.BeginTx tx none ::
            (Call.NewV4 orderNumber none :: Call.Now now ::
              Call.CreateOrder tx
                (newOrder orderNumber now { input with Items := snapshot input.Items products })
                ret none ::
              itemCalls tx ret.ID (snapshot input.Items products)) ++
            [Call.Commit tx none]) := by
  cases h with
  | committed products hlen tx body cerr hbody =>
    cases hbody with
    | items n now order1 r icalls hitems =>
      cases hitems with
      | ok => exact ⟨products, tx, n, now, order1, hlen, rfl⟩

/-- A run in which the user exists and every call before the commit succeeds has
the same shape, ending with `Commit`, whose result it returns. -/
theorem CreateOrderRun_complete {input : OrderInput} {err : Option GoError} {calls : List Call}
    (h : CreateOrderRun input err calls)
    (hexists : Call.ExistsUserByID input.UserID true none ∈ calls)
    (hok : ∀ c ∈ calls, c.isCommit = false → c.err = none) :
    ∃ (products : List Product) (tx : TxHandle) (orderNumber : String) (now : Time)
      (ret : Order),
      products.length = input.Items.length ∧
      calls = Call.ExistsUserByID input.UserID true none ::
        lookupCalls input.Items products ++
          (Call.BeginTx tx none ::
            (Call.NewV4 orderNumber none :: Call.Now now ::
              Call.CreateOrder tx
                (newOrder orderNumber now { input with Items := snapshot input.Items products })
                ret none ::
              itemCalls tx ret.ID (snapshot input.Items products)) ++
            [Call.Commit tx err]) := by
  cases h with
  | userFailed existed e =>
    have := hok _ (List.mem_singleton.2 rfl) rfl
    simp [Call.err] at this
  | userNotExist => simp at hexists
  | productFailed e calls h =>
    exfalso
    cases h with
    | notFound products hlt product err2 his =>
      have := hok _
        (List.mem_cons_of_mem _ (List.mem_append_right _ (List.mem_singleton.2 rfl))) rfl
      simp only [Call.err] at this
      rw [this] at his
      simp [errorsIs] at his
    | failed products hlt product his =>
      have := hok _
        (List.mem_cons_of_mem _ (List.mem_append_right _ (List.mem_singleton.2 rfl))) rfl
      simp [Call.err] at this
  | beginFailed products hlen tx e =>
    have := hok _
      (List.mem_cons_of_mem _ (List.mem_append_right _ (List.mem_singleton.2 rfl))) rfl
    simp [Call.err] at this
  | rolledBack products hlen tx e body rerr hbody =>
    exfalso
    have hbok : ∀ c ∈ body, c.isCommit = false → c.err = none := fun c hc =>
      hok c (List.mem_cons_of_mem _ (List.mem_append_right _
        (List.mem_cons_of_mem _ (List.mem_append_left _ hc))))
    generalize hr : some e = r at hbody
    cases hbody with
    | uuidFailed n cause =>
      have := hbok _ (List.mem_singleton.2 rfl) rfl
      simp [Call.err] at this
    | headerFailed n now cause =>
      have := hbok _
        (List.mem_cons_of_mem _ (List.mem_cons_of_mem _ (List.mem_singleton.2 rfl))) rfl
      simp [Call.err] at this
    | items n now order1 r icalls hitems =>
      cases hitems with
      | ok => simp at hr
      | failed k hk cause =>
        have := hbok _
          (List.mem_cons_of_mem _ (List.mem_cons_of_mem _ (List.mem_cons_of_mem _
            (List.mem_append_right _ (List.mem_singleton.2 rfl))))) rfl
        simp [Call.err] at this
  | committed products hlen tx body cerr hbody =>
    cases hbody with
    | items n now order1 r icalls hitems =>
      cases hitems with
      | ok => exact ⟨products, tx, n, now, order1, hlen, rfl⟩

/-! ## Order of the calls -/

theorem Staged.append {lo1 hi1 lo2 hi2 : Nat} {l1 l2 : List Call} (h1 : Staged lo1 hi1 l1)
    (h2 : Staged lo2 hi2 l2) (hle : hi1 ≤ lo2) (hlo : lo1 ≤ lo2) (hhi : hi1 ≤ hi2) :
    Staged lo1 hi2 (l1 ++ l2) := by
  refine ⟨List.pairwise_append.2 ⟨h1.1, h2.1, ?_⟩, ?_⟩
  · intro a ha b hb
    have := (h1.2 a ha).2
    have := (h2.2 b hb).1
    omega
  · intro c hc
    rcases List.mem_append.1 hc with hc | hc
    · have := h1.2 c hc
      omega
    · have := h2.2 c hc
      omega

theorem Staged.const {k : Nat} {l : List Call} (h : ∀ c ∈ l, c.phase = k) : Staged k k l := by
  refine ⟨?_, fun c hc => by rw [h c hc]; exact ⟨le_refl _, le_refl _⟩⟩
  induction l with
  | nil => exact List.Pairwise.nil
  | cons a l ih =>
    refine List.pairwise_cons.2 ⟨?_, ih (fun c hc => h c (List.mem_cons_of_mem _ hc))⟩
    intro b hb
    rw [h a (List.mem_cons_self _ _), h b (List.mem_cons_of_mem _ hb)]

theorem Staged.single (k : Nat) (c : Call) (h : c.phase = k) : Staged k k [c] :=
  Staged.const (fun d hd => by rw [List.mem_singleton.1 hd, h])

theorem Staged.mono {lo hi lo1 hi1 : Nat} {l : List Call} (h : Staged lo hi l) (hlo : lo1 ≤ lo)
    (hhi : hi ≤ hi1) : Staged lo1 hi1 l :=
  ⟨h.1, fun c hc => ⟨le_trans hlo (h.2 c hc).1, le_trans (h.2 c hc).2 hhi⟩⟩

theorem lookupCalls_staged (items : List OrderItemInput) (products : List Product) :
    Staged 1 1 (lookupCalls items products) :=
  Staged.const (fun c hc => by rcases mem_lookupCalls hc with ⟨_, _, rfl⟩; rfl)

theorem itemCalls_staged (tx : TxHandle) (orderID : Int) (items : List OrderItemInput) :
    Staged 5 5 (itemCalls tx orderID items) :=
  Staged.const (fun c hc => by rcases mem_itemCalls hc with ⟨_, rfl⟩; rfl)

theorem ItemsRun_staged {tx : TxHandle} {orderID : Int} {items : List OrderItemInput}
    {r : Option GoError} {calls : List Call} (h : ItemsRun tx orderID items r calls) :
    Staged 5 5 calls := by
  cases h with
  | ok => exact itemCalls_staged _ _ _
  | failed k hk cause =>
    exact (itemCalls_staged _ _ _).append (Staged.single 5 (Call.CreateItem _ _ _) rfl)
      (le_refl _) (le_refl _) (le_refl _)

theorem TxBodyRun_staged {input : OrderInput} {tx : TxHandle} {r : Option GoError}
    {calls : List Call} (h : TxBodyRun input tx r calls) : Staged 3 5 calls := by
  cases h with
  | uuidFailed n cause =>
    exact (Staged.single 3 (Call.NewV4 n (some cause)) rfl).mono (le_refl _) (by decide)
  | headerFailed n now cause =>
    have h1 : Staged 3 3 [Call.NewV4 n none, Call.Now now] :=
      Staged.const (fun c hc => by
        rcases List.mem_cons.1 hc with rfl | hc
        · rfl
        · rw [List.mem_singleton.1 hc]; rfl)
    exact h1.append (Staged.single 4 (Call.CreateOrder tx _ _ _) rfl) (by decide) (by decide)
      (by decide) |>.mono (le_refl _) (by decide)
  | items n now order1 r icalls hitems =>
    have h1 : Staged 3 3 [Call.NewV4 n none, Call.Now now] :=
      Staged.const (fun c hc => by
        rcases List.mem_cons.1 hc with rfl | hc
        · rfl
        · rw [List.mem_singleton.1 hc]; rfl)
    have h2 := h1.append (Staged.single 4 (Call.CreateOrder tx
      (newOrder n now input) order1 none) rfl) (by decide) (by decide) (by decide)
    exact h2.append (ItemsRun_staged hitems) (by decide) (by decide) (by decide)

/-- The stages of the calls of a run never decrease. -/
theorem CreateOrderRun_staged {input : OrderInput} {err : Option GoError} {calls : List Call}
    (h : CreateOrderRun input err calls) : Staged 0 6 calls := by
  have hu : ∀ existed e, Staged 0 0 [Call.ExistsUserByID input.UserID existed e] :=
    fun existed e => Staged.single 0 (Call.ExistsUserByID input.UserID existed e) rfl
  cases h with
  | userFailed existed e => exact (hu _ _).mono (le_refl _) (by decide)
  | userNotExist => exact (hu _ _).mono (le_refl _) (by decide)
  | productFailed e calls h =>
    have h1 : Staged 1 1 calls := by
      cases h with
      | notFound products hlt product err2 his =>
        exact (lookupCalls_staged _ _).append (Staged.single 1 (Call.GetProduct _ _ _) rfl)
          (le_refl _) (le_refl _) (le_refl _)
      | failed products hlt product his =>
        exact (lookupCalls_staged _ _).append (Staged.single 1 (Call.GetProduct _ _ _) rfl)
          (le_refl _) (le_refl _) (le_refl _)
    exact ((hu true none).append h1 (by decide) (by decide) (by decide)).mono (le_refl _)
      (by decide)
  | beginFailed products hlen tx e =>
    have h1 := (lookupCalls_staged input.Items products).append
      (Staged.single 2 (Call.BeginTx tx (some e)) rfl) (by decide) (by decide) (by decide)
    exact ((hu true none).append h1 (by decide) (by decide) (by decide)).mono (le_refl _)
      (by decide)
  | rolledBack products hlen tx e body rerr hbody =>
    have h1 := (Staged.single 2 (Call.BeginTx tx none) rfl).append
      ((TxBodyRun_staged hbody).append (Staged.single 6 (Call.Rollback tx rerr) rfl)
        (by decide) (by decide) (by decide)) (by decide) (by decide) (by decide)
    have h2 := (lookupCalls_staged input.Items products).append h1
      (by decide) (by decide) (by decide)
    exact (hu true none).append h2 (by decide) (by decide) (by decide)
  | committed products hlen tx body cerr hbody =>
    have h1 := (Staged.single 2 (Call.BeginTx tx none) rfl).append
      ((TxBodyRun_staged hbody).append (Staged.single 6 (Call.Commit tx err) rfl)
        (by decide) (by decide) (by decide)) (by decide) (by decide) (by decide)
    have h2 := (lookupCalls_staged input.Items products).append h1
      (by decide) (by decide) (by decide)
    exact (hu true none).append h2 (by decide) (by decide) (by decide)

theorem precedes_of_phase {P Q : Call → Bool} {calls : List Call}
    (hs : calls.Pairwise (fun a b => a.phase ≤ b.phase))
    (hPQ : ∀ a b, P a = true → Q b = true → a.phase < b.phase) : Precedes P Q calls := by
  intro i j a b hi hj hP hQ
  by_contra hlt
  have hab := hPQ a b hP hQ
  rcases Nat.eq_or_lt_of_le (Nat.le_of_not_lt hlt) with heq | hlt2
  · subst heq
    rw [hi] at hj
    cases hj
    exact lt_irrefl _ hab
  · rcases List.getElem?_eq_some.1 hi with ⟨hi1, rfl⟩
    rcases List.getElem?_eq_some.1 hj with ⟨hj1, rfl⟩
    have := List.pairwise_iff_getElem.1 hs j i hj1 hi1 hlt2
    omega

theorem phase_isExistsUserByID {c : Call} (h : c.isExistsUserByID = true) : c.phase = 0 := by
  cases c <;> first | rfl | simp [Call.isExistsUserByID] at h

theorem phase_isGetProduct {c : Call} (h : c.isGetProduct = true) : c.phase = 1 := by
  cases c <;> first | rfl | simp [Call.isGetProduct] at h

theorem phase_isBeginTx {c : Call} (h : c.isBeginTx = true) : c.phase = 2 := by
  cases c <;> first | rfl | simp [Call.isBeginTx] at h

theorem phase_isCreateOrder {c : Call} (h : c.isCreateOrder = true) : c.phase = 4 := by
  cases c <;> first | rfl | simp [Call.isCreateOrder] at h

theorem phase_isCreateItem {c : Call} (h : c.isCreateItem = true) : c.phase = 5 := by
  cases c <;> first | rfl | simp [Call.isCreateItem] at h

theorem phase_isInsert {c : Call} (h : c.isInsert = true) : 4 ≤ c.phase := by
  simp only [Call.isInsert, Bool.or_eq_true] at h
  rcases h with h | h
  · rw [phase_isCreateOrder h]
  · rw [phase_isCreateItem h]
    decide

/-! ## Runs on the in-memory store -/

theorem forall₂_chain {α β γ : Type} {R : α → β → Prop} {S : β → γ → Prop} {T : α → γ → Prop}
    (hT : ∀ a b c, R a b → S b c → T a c) {l1 : List α} {l2 : List β} {l3 : List γ}
    (h1 : List.Forall₂ R l1 l2) (h2 : List.Forall₂ S l2 l3) : List.Forall₂ T l1 l3 := by
  induction h1 generalizing l3 with
  | nil =>
    cases h2
    exact List.Forall₂.nil
  | cons hab _ ih =>
    cases h2 with
    | cons hbc htl => exact List.Forall₂.cons (hT _ _ _ hab hbc) (ih htl)

theorem GetProduct_memEnv (id : Int) (db : MemDB) :
    ProductRepo.GetProduct memEnv id db =
      match db.product id with
      | some p => ((p, none), db)
      | none => (({}, some .ErrNoRows), db) := by
  have h : memEnv.productsOne id db =
      match db.product id with
      | some p => ((some p, none), db)
      | none => ((none, some .ErrNoRows), db) := rfl
  unfold ProductRepo.GetProduct
  rw [h]
  cases db.product id <;> rfl

/-- On the in-memory store the product loop changes nothing, and when it succeeds
every item carries title and price of the stored product that has the id of the item. -/
theorem checkProducts_memEnv (items : List OrderItemInput) (db : MemDB) :
    (checkProducts memEnv items db).2.2 = db ∧
      ∀ items1, (checkProducts memEnv items db).1 = .ok items1 →
        List.Forall₂
          (fun item item1 => ∃ p, db.product item.ProductID = some p ∧
            item1 = { item with ProductName := p.Title, ProductPrice := p.Price })
          items items1 := by
  induction items with
  | nil =>
    refine ⟨rfl, ?_⟩
    intro items1 h
    simp only [checkProducts, Except.ok.injEq] at h
    rw [← h]
    exact List.Forall₂.nil
  | cons item rest ih =>
    unfold checkProducts
    rw [GetProduct_memEnv]
    cases hp : db.product item.ProductID with
    | none =>
      simp only [errorsIs, GoError.Is, decide_True, if_true]
      refine ⟨?_, fun _ h => by simp at h⟩
      first | rfl | trivial
    | some p =>
      simp only [errorsIs, Bool.false_eq_true, if_false]
      rcases hr : checkProducts memEnv rest db with ⟨res, calls, db2⟩
      rw [hr] at ih
      simp only at ih
      cases res with
      | error e => exact ⟨ih.1, fun _ h => by simp at h⟩
      | ok rest1 =>
        refine ⟨ih.1, ?_⟩
        intro items1 h
        simp only [Except.ok.injEq] at h
        rw [← h]
        exact List.Forall₂.cons ⟨p, hp, rfl⟩ (ih.2 rest1 rfl)

/-- On the in-memory store the item loop never fails; it appends one row per item,
in order, each with the product id, price and name of its item, and leaves the
saved tables alone. -/
theorem createItems_memEnv (tx : TxHandle) (orderID : Int) (items : List OrderItemInput)
    (db : MemDB) :
    (createItems memEnv tx orderID items db).1 = none ∧
      (createItems memEnv tx orderID items db).2.2.saved = db.saved ∧
      ∃ rows, (createItems memEnv tx orderID items db).2.2.orderItems = db.orderItems ++ rows ∧
        List.Forall₂
          (fun item row => row.ProductID = item.ProductID ∧
            row.ProductPrice = item.ProductPrice ∧ row.ProductName = item.ProductName)
          items rows := by
  induction items generalizing db with
  | nil => exact ⟨rfl, rfl, [], by simp [createItems], List.Forall₂.nil⟩
  | cons item rest ih =>
    unfold createItems
    have hins : OrderRepo.CreateItem memEnv tx (toOrderItem orderID item) db =
        (none,
          { db with
            orderItems := db.orderItems ++
              [{ toOrderItem orderID item with
                  ID := db.nextID, CreatedAt := db.clock, UpdatedAt := db.clock }]
            nextID := db.nextID + 1
            clock := db.clock + 1 }) := rfl
    rw [hins]
    simp only
    rcases ih { db with
        orderItems := db.orderItems ++
          [{ toOrderItem orderID item with
              ID := db.nextID, CreatedAt := db.clock, UpdatedAt := db.clock }]
        nextID := db.nextID + 1
        clock := db.clock + 1 } with ⟨h1, h2, rows, h3, h4⟩
    refine ⟨h1, h2,
      { toOrderItem orderID item with
          ID := db.nextID, CreatedAt := db.clock, UpdatedAt := db.clock } :: rows, ?_,
      List.Forall₂.cons ⟨rfl, rfl, rfl⟩ h4⟩
    rw [h3]
    simp

theorem createOrderTx_memEnv (input : OrderInput) (tx : TxHandle) (db : MemDB) :
    (createOrderTx memEnv input tx db).1 = none ∧
      (createOrderTx memEnv input tx db).2.2.saved = db.saved ∧
      ∃ rows, (createOrderTx memEnv input tx db).2.2.orderItems = db.orderItems ++ rows ∧
        List.Forall₂
          (fun item row => row.ProductID = item.ProductID ∧
            row.ProductPrice = item.ProductPrice ∧ row.ProductName = item.ProductName)
          input.Items rows := by
  have hu : memEnv.uuidNewV4 db = (("6ba7b810-9dad-41d1-80b4-00c04fd430c8", none), db) := rfl
  have hn : memEnv.timeNow db = (db.clock, { db with clock := db.clock + 1 }) := rfl
  have hi : ∀ (order : Order) (db1 : MemDB), OrderRepo.CreateOrder memEnv tx order db1 =
      (({ order with ID := db1.nextID, CreatedAt := db1.clock, UpdatedAt := db1.clock }, none),
        { db1 with
          orders := db1.orders ++
            [{ order with ID := db1.nextID, CreatedAt := db1.clock, UpdatedAt := db1.clock }]
          nextID := db1.nextID + 1
          clock := db1.clock + 1 }) := fun _ _ => rfl
  have key : ∀ (orderID : Int) (db1 : MemDB) (r : Option GoError) (calls : List Call)
      (db2 : MemDB), createItems memEnv tx orderID input.Items db1 = (r, calls, db2) →
      r = none ∧ db2.saved = db1.saved ∧
        ∃ rows, db2.orderItems = db1.orderItems ++ rows ∧
          List.Forall₂
            (fun item row => row.ProductID = item.ProductID ∧
              row.ProductPrice = item.ProductPrice ∧ row.ProductName = item.ProductName)
            input.Items rows := by
    intro orderID db1 r calls db2 hq
    have h := createItems_memEnv tx orderID input.Items db1
    rw [hq] at h
    exact h
  unfold createOrderTx
  split
  · rename_i heq
    rw [hu] at heq
    simp at heq
  · rename_i n s1 heq
    rw [hu] at heq
    simp only [Prod.mk.injEq, and_true] at heq
    rcases heq with ⟨rfl, rfl⟩
    split
    rename_i now s2 heq2
    rw [hn] at heq2
    simp only [Prod.mk.injEq] at heq2
    rcases heq2 with ⟨rfl, rfl⟩
    split
    · rename_i heq3
      rw [hi] at heq3
      simp at heq3
    · rename_i order s3 heq3
      rw [hi] at heq3
      simp only [Prod.mk.injEq, and_true] at heq3
      rcases heq3 with ⟨rfl, rfl⟩
      split
      rename_i r calls s4 heq4
      have h := key _ _ _ _ _ heq4
      exact h

/-- What `Tx` returns when the transaction opens and the unit of work succeeds. -/
theorem Tx_of_fn_nil {σ : Type} (env : Env σ)
    (fn : TxHandle → σ → Option GoError × List Call × σ) (s s1 s2 : σ) (tx : TxHandle)
    (calls : List Call) (hbegin : env.beginTx s = ((tx, none), s1))
    (hfn : fn tx s1 = (none, calls, s2)) :
    Repository.Tx env fn s =
      ((env.commit tx s2).1,
        Call.BeginTx tx none :: calls ++ [Call.Commit tx (env.commit tx s2).1],
        (env.commit tx s2).2) := by
  unfold Repository.Tx
  rw [hbegin]
  simp only [hfn]

/-- What `Tx` returns when the transaction opens and the unit of work fails. -/
theorem Tx_of_fn_err {σ : Type} (env : Env σ)
    (fn : TxHandle → σ → Option GoError × List Call × σ) (s s1 s2 : σ) (tx : TxHandle)
    (e : GoError) (calls : List Call) (hbegin : env.beginTx s = ((tx, none), s1))
    (hfn : fn tx s1 = (some e, calls, s2)) :
    Repository.Tx env fn s =
      (some e, Call.BeginTx tx none :: calls ++ [Call.Rollback tx (env.rollback tx s2).1],
        (env.rollback tx s2).2) := by
  unfold Repository.Tx
  rw [hbegin]
  simp only [hfn]

/-- On the in-memory store a `CreateOrder` call that returns nil leaves, after the
rows that were there, one row per input item, in order, with the price and title
that the product of that id had when the call began. -/
theorem CreateOrder_memEnv (input : OrderInput) (db : MemDB)
    (h : (CreateOrder memEnv input db).1 = none) :
    ∃ rows, (CreateOrder memEnv input db).2.2.orderItems = db.orderItems ++ rows ∧
      List.Forall₂
        (fun item row => ∃ p, db.product item.ProductID = some p ∧
          row.ProductID = item.ProductID ∧ row.ProductPrice = p.Price ∧
          row.ProductName = p.Title)
        input.Items rows := by
  have hu : UserRepo.ExistsUserByID memEnv input.UserID db =
      ((decide (input.UserID ∈ db.users), none), db) := rfl
  have hcp := checkProducts_memEnv input.Items db
  unfold CreateOrder at h ⊢
  split at h
  · simp at h
  · simp at h
  · rename_i s1 heq
    rw [hu] at heq
    simp only [Prod.mk.injEq, and_true] at heq
    rcases heq with ⟨-, rfl⟩
    split at h
    · simp at h
    · rename_i items1 calls s2 heq2
      rw [heq2] at hcp
      simp only at hcp
      rcases hcp with ⟨rfl, hres⟩
      have hsnap := hres items1 rfl
      rcases createOrderTx_memEnv { input with Items := items1 } 1
          { s2 with saved := some (s2.orders, s2.orderItems) } with ⟨h1, h2, rows, h3, h4⟩
      rcases hf : createOrderTx memEnv { input with Items := items1 } 1
          { s2 with saved := some (s2.orders, s2.orderItems) } with ⟨ferr, fcalls, s3⟩
      rw [hf] at h1 h2 h3
      simp only at h1 h2 h3
      subst h1
      have htx := Tx_of_fn_nil memEnv (createOrderTx memEnv { input with Items := items1 })
        s2 { s2 with saved := some (s2.orders, s2.orderItems) } s3 1 fcalls rfl hf
      have hc : memEnv.commit 1 s3 = (none, { s3 with saved := none }) := by
        show (match s3.saved with
          | some _ => (none, { s3 with saved := none })
          | none => (some ErrTxDone, s3)) = _
        rw [h2]
      rw [hc] at htx
      rw [htx]
      refine ⟨rows, h3, ?_⟩
      refine forall₂_chain ?_ hsnap h4
      rintro item item1 row ⟨p, hp, rfl⟩ ⟨hr1, hr2, hr3⟩
      exact ⟨p, hp, hr1, hr2, hr3⟩

theorem UpdateProduct_memEnv_orderItems (product : Product) (db : MemDB) :
    (ProductRepo.UpdateProduct memEnv product db).2.orderItems = db.orderItems := rfl



theorem replay_append {σ : Type} (env : Env σ) (l1 l2 : List Call) (s : σ) :
    replay env (l1 ++ l2) s = (replay env l1 s).bind (replay env l2) := by
  induction l1 generalizing s with
  | nil => rfl
  | cons c l1 ih =>
    show (match replayCall env c s with
      | some s1 => replay env (l1 ++ l2) s1
      | none => none) = (match replayCall env c s with
      | some s1 => replay env l1 s1
      | none => none).bind (replay env l2)
    cases replayCall env c s with
    | none => rfl
    | some s1 => exact ih s1

theorem replay_cons {σ : Type} (env : Env σ) (c : Call) (calls : List Call) (s s1 : σ)
    (h : replayCall env c s = some s1) : replay env (c :: calls) s = replay env calls s1 := by
  show (match replayCall env c s with
    | some s1 => replay env calls s1
    | none => none) = _
  rw [h]

/-- The log of the product loop is what the environment answered. -/
theorem checkProducts_faithful {σ : Type} (env : Env σ) (items : List OrderItemInput) (s : σ) :
    replay env (checkProducts env items s).2.1 s = some (checkProducts env items s).2.2 := by
  induction items generalizing s with
  | nil => rfl
  | cons item rest ih =>
    unfold checkProducts
    rcases hg : ProductRepo.GetProduct env item.ProductID s with ⟨⟨product, err⟩, s1⟩
    have hc : replayCall env (Call.GetProduct item.ProductID product err) s = some s1 := by
      simp only [replayCall, hg, if_true]
    simp only
    split
    · exact (replay_cons env _ _ s s1 hc).trans rfl
    · split
      · exact (replay_cons env _ _ s s1 hc).trans rfl
      · have h1 := ih s1
        split
        · rename_i h2
          rw [h2] at h1
          exact (replay_cons env _ _ s s1 hc).trans h1
        · rename_i h2
          rw [h2] at h1
          exact (replay_cons env _ _ s s1 hc).trans h1

/-- The log of the item loop is what the environment answered. -/
theorem createItems_faithful {σ : Type} (env : Env σ) (tx : TxHandle) (orderID : Int)
    (items : List OrderItemInput) (s : σ) :
    replay env (createItems env tx orderID items s).2.1 s
      = some (createItems env tx orderID items s).2.2 := by
  induction items generalizing s with
  | nil => rfl
  | cons item rest ih =>
    unfold createItems
    rcases hg : OrderRepo.CreateItem env tx (toOrderItem orderID item) s with ⟨err, s1⟩
    have hc : replayCall env (Call.CreateItem tx (toOrderItem orderID item) err) s = some s1 := by
      simp only [replayCall, hg, if_true]
    cases err with
    | some e => exact (replay_cons env _ _ s s1 hc).trans rfl
    | none =>
      simp only
      exact (replay_cons env _ _ s s1 hc).trans (ih s1)

/-- The log of the unit of work is what the environment answered. -/
theorem createOrderTx_faithful {σ : Type} (env : Env σ) (input : OrderInput) (tx : TxHandle)
    (s : σ) :
    replay env (createOrderTx env input tx s).2.1 s
      = some (createOrderTx env input tx s).2.2 := by
  unfold createOrderTx
  split
  · rename_i orderNumber err s1 hu
    have hc1 : replayCall env (Call.NewV4 orderNumber (some err)) s = some s1 := by
      simp only [replayCall, hu, if_true]
    exact (replay_cons env _ _ s s1 hc1).trans rfl
  · rename_i orderNumber s1 hu
    have hc1 : replayCall env (Call.NewV4 orderNumber none) s = some s1 := by
      simp only [replayCall, hu, if_true]
    split
    rename_i now s2 hn
    have hc2 : replayCall env (Call.Now now) s1 = some s2 := by
      simp only [replayCall, hn, if_true]
    split
    · rename_i order err s3 ho
      have hc3 : replayCall env
          (Call.CreateOrder tx (newOrder orderNumber now input) order (some err)) s2
            = some s3 := by
        simp only [replayCall, ho, if_true]
      exact (replay_cons env _ _ s s1 hc1).trans
        ((replay_cons env _ _ s1 s2 hc2).trans ((replay_cons env _ _ s2 s3 hc3).trans rfl))
    · rename_i order s3 ho
      have hc3 : replayCall env
          (Call.CreateOrder tx (newOrder orderNumber now input) order none) s2 = some s3 := by
        simp only [replayCall, ho, if_true]
      have h1 := createItems_faithful env tx order.ID input.Items s3
      split
      rename_i r calls s4 hi
      rw [hi] at h1
      exact (replay_cons env _ _ s s1 hc1).trans
        ((replay_cons env _ _ s1 s2 hc2).trans ((replay_cons env _ _ s2 s3 hc3).trans h1))

/-- The log of `Tx` is what the environment answered, when the log of the unit of
work is. -/
theorem Tx_faithful {σ : Type} (env : Env σ)
    (fn : TxHandle → σ → Option GoError × List Call × σ)
    (hfn : ∀ tx s1, replay env (fn tx s1).2.1 s1 = some (fn tx s1).2.2) (s : σ) :
    replay env (Repository.Tx env fn s).2.1 s = some (Repository.Tx env fn s).2.2 := by
  rcases hb : env.beginTx s with ⟨⟨tx, berr⟩, s1⟩
  have hc1 : replayCall env (Call.BeginTx tx berr) s = some s1 := by
    simp only [replayCall, hb, if_true]
  cases berr with
  | some e =>
    have h : Repository.Tx env fn s = (some e, [Call.BeginTx tx (some e)], s1) := by
      unfold Repository.Tx
      rw [hb]
    rw [h]
    exact (replay_cons env _ _ s s1 hc1).trans rfl
  | none =>
    have h1 := hfn tx s1
    rcases hf : fn tx s1 with ⟨_ | e, calls, s2⟩
    · rw [hf] at h1
      have h2 : replay env calls s1 = some s2 := h1
      rw [Tx_of_fn_nil env fn s s1 s2 tx calls hb hf]
      have hc2 : replayCall env (Call.Commit tx (env.commit tx s2).1) s2
          = some (env.commit tx s2).2 := by
        simp only [replayCall, if_true]
      refine (replay_cons env _ _ s s1 hc1).trans ?_
      show replay env (calls ++ [Call.Commit tx (env.commit tx s2).1]) s1
        = some (env.commit tx s2).2
      rw [replay_append, h2]
      exact (replay_cons env _ _ s2 _ hc2).trans rfl
    · rw [hf] at h1
      have h2 : replay env calls s1 = some s2 := h1
      rw [Tx_of_fn_err env fn s s1 s2 tx e calls hb hf]
      have hc2 : replayCall env (Call.Rollback tx (env.rollback tx s2).1) s2
          = some (env.rollback tx s2).2 := by
        simp only [replayCall, if_true]
      refine (replay_cons env _ _ s s1 hc1).trans ?_
      show replay env (calls ++ [Call.Rollback tx (env.rollback tx s2).1]) s1
        = some (env.rollback tx s2).2
      rw [replay_append, h2]
      exact (replay_cons env _ _ s2 _ hc2).trans rfl

/-- The log of `CreateOrder` is what the environment answered, and the final state
is the state that these calls leave. -/
theorem CreateOrder_faithful {σ : Type} (env : Env σ) (input : OrderInput) (s : σ) :
    replay env (CreateOrder env input s).2.1 s = some (CreateOrder env input s).2.2 := by
  unfold CreateOrder
  split
  · rename_i existed err s1 hu
    have hc1 : replayCall env (Call.ExistsUserByID input.UserID existed (some err)) s
        = some s1 := by
      simp only [replayCall, hu, if_true]
    exact (replay_cons env _ _ s s1 hc1).trans rfl
  · rename_i s1 hu
    have hc1 : replayCall env (Call.ExistsUserByID input.UserID false none) s = some s1 := by
      simp only [replayCall, hu, if_true]
    exact (replay_cons env _ _ s s1 hc1).trans rfl
  · rename_i s1 hu
    have hc1 : replayCall env (Call.ExistsUserByID input.UserID true none) s = some s1 := by
      simp only [replayCall, hu, if_true]
    have h1 := checkProducts_faithful env input.Items s1
    split
    · rename_i err calls s2 hp
      rw [hp] at h1
      exact (replay_cons env _ _ s s1 hc1).trans h1
    · rename_i items calls s2 hp
      rw [hp] at h1
      have h2 : replay env calls s1 = some s2 := h1
      have h3 := Tx_faithful env (createOrderTx env { input with Items := items })
        (fun tx s3 => createOrderTx_faithful env _ tx s3) s2
      split
      rename_i err calls2 s3 ht
      rw [ht] at h3
      refine (replay_cons env _ _ s s1 hc1).trans ?_
      show replay env (calls ++ calls2) s1 = some s3
      rw [replay_append, h2]
      exact h3


/-- A replayed log that starts with `c`: the environment gave the answer logged in `c`. -/
theorem replay_cons_some {σ : Type} (env : Env σ) (c : Call) (calls : List Call) (s fin : σ)
    (h : replay env (c :: calls) s = some fin) :
    ∃ s1, replayCall env c s = some s1 ∧ replay env calls s1 = some fin := by
  cases h1 : replayCall env c s with
  | none =>
    rw [show replay env (c :: calls) s = (match replayCall env c s with
      | some s1 => replay env calls s1
      | none => none) from rfl, h1] at h
    cases h
  | some s1 =>
    rw [replay_cons env c calls s s1 h1] at h
    exact ⟨s1, rfl, h⟩

/-- The state before the final `Rollback` of a replayed log, and what the rollback of
the environment did on it. -/
theorem replay_snoc_rollback {σ : Type} (env : Env σ) (pre : List Call) (tx : TxHandle)
    (rerr : Option GoError) (s fin : σ)
    (h : replay env (pre ++ [Call.Rollback tx rerr]) s = some fin) :
    ∃ s2, replay env pre s = some s2 ∧ env.rollback tx s2 = (rerr, fin) := by
  rw [replay_append] at h
  cases h1 : replay env pre s with
  | none =>
    rw [h1] at h
    cases h
  | some s2 =>
    rw [h1] at h
    have h2 : replay env [Call.Rollback tx rerr] s2 = some fin := h
    rcases replay_cons_some env _ _ s2 fin h2 with ⟨s3, h3, h4⟩
    refine ⟨s2, rfl, ?_⟩
    have h5 : s3 = fin := by
      have h6 : replay env [] s3 = some s3 := rfl
      rw [h6] at h4
      exact Option.some.inj h4
    subst h5
    by_cases hc : (env.rollback tx s2).1 = rerr
    · simp only [replayCall, hc, if_true, Option.some.injEq] at h3
      exact Prod.ext hc h3
    · simp only [replayCall, hc, if_false] at h3
      cases h3

/-- The state before the final `Commit` of a replayed log, and what the commit of the
environment did on it. -/
theorem replay_snoc_commit {σ : Type} (env : Env σ) (pre : List Call) (tx : TxHandle)
    (cerr : Option GoError) (s fin : σ)
    (h : replay env (pre ++ [Call.Commit tx cerr]) s = some fin) :
    ∃ s2, replay env pre s = some s2 ∧ env.commit tx s2 = (cerr, fin) := by
  rw [replay_append] at h
  cases h1 : replay env pre s with
  | none =>
    rw [h1] at h
    cases h
  | some s2 =>
    rw [h1] at h
    have h2 : replay env [Call.Commit tx cerr] s2 = some fin := h
    rcases replay_cons_some env _ _ s2 fin h2 with ⟨s3, h3, h4⟩
    refine ⟨s2, rfl, ?_⟩
    have h5 : s3 = fin := by
      have h6 : replay env [] s3 = some s3 := rfl
      rw [h6] at h4
      exact Option.some.inj h4
    subst h5
    by_cases hc : (env.commit tx s2).1 = cerr
    · simp only [replayCall, hc, if_true, Option.some.injEq] at h3
      exact Prod.ext hc h3
    · simp only [replayCall, hc, if_false] at h3
      cases h3

/-- Successful lookups in a replayed log returned the products of the environment. -/
theorem replay_lookupCalls {σ : Type} (env : Env σ) (items : List OrderItemInput)
    (products : List Product) (rest : List Call) (s fin : σ)
    (hlen : products.length = items.length)
    (h : replay env (lookupCalls items products ++ rest) s = some fin) :
    products = lookedUp env items s := by
  induction items generalizing products s with
  | nil =>
    cases products with
    | nil => rfl
    | cons p ps => simp at hlen
  | cons item its ih =>
    cases products with
    | nil => simp at hlen
    | cons p ps =>
      have h1 : replay env (Call.GetProduct item.ProductID p none ::
          (lookupCalls its ps ++ rest)) s = some fin := h
      rcases replay_cons_some env _ _ s fin h1 with ⟨s1, h2, h3⟩
      by_cases hc : (ProductRepo.GetProduct env item.ProductID s).1 = (p, none)
      · simp only [replayCall, hc, if_true, Option.some.injEq] at h2
        subst h2
        have h4 := ih ps _ (by simpa using hlen) h3
        show p :: ps = (ProductRepo.GetProduct env item.ProductID s).1.1 ::
          lookedUp env its (ProductRepo.GetProduct env item.ProductID s).2
        rw [← h4, hc]
      · simp only [replayCall, hc, if_false] at h2
        cases h2

theorem lookedUp_length {σ : Type} (env : Env σ) (items : List OrderItemInput) (s : σ) :
    (lookedUp env items s).length = items.length := by
  induction items generalizing s with
  | nil => rfl
  | cons item its ih =>
    show (lookedUp env its _).length + 1 = its.length + 1
    rw [ih]

/-- A call of a lower stage than `b` stands before `b`. -/
theorem mem_pre_of_phase {calls pre post : List Call} {a b : Call}
    (hs : calls.Pairwise (fun a b => a.phase ≤ b.phase)) (heq : calls = pre ++ b :: post)
    (ha : a ∈ calls) (hlt : a.phase < b.phase) : a ∈ pre := by
  subst heq
  rcases List.mem_append.1 ha with h | h
  · exact h
  · exfalso
    rw [List.pairwise_append] at hs
    rcases List.mem_cons.1 h with h | h
    · subst h
      omega
    · have := (List.pairwise_cons.1 hs.2.1).1 a h
      omega

/-- Every run starts with the user-existence check. -/
theorem CreateOrderRun_head {input : OrderInput} {err : Option GoError} {calls : List Call}
    (h : CreateOrderRun input err calls) :
    ∃ existed e rest, calls = Call.ExistsUserByID input.UserID existed e :: rest := by
  cases h with
  | userFailed existed e => exact ⟨_, _, _, rfl⟩
  | userNotExist => exact ⟨_, _, _, rfl⟩
  | productFailed e calls h => exact ⟨_, _, _, rfl⟩
  | beginFailed products hlen tx e => exact ⟨_, _, _, rfl⟩
  | rolledBack products hlen tx e calls rerr h => exact ⟨_, _, _, rfl⟩
  | committed products hlen tx calls cerr h => exact ⟨_, _, _, rfl⟩

/-- A run that opens the transaction looked up every item first. -/
theorem CreateOrderRun_beginTx {input : OrderInput} {err : Option GoError} {calls : List Call}
    (h : CreateOrderRun input err calls) {tx : TxHandle} {e : Option GoError}
    (hc : Call.BeginTx tx e ∈ calls) :
    ∃ (products : List Product) (rest : List Call),
      products.length = input.Items.length ∧
      calls = Call.ExistsUserByID input.UserID true none ::
        lookupCalls input.Items products ++ Call.BeginTx tx e :: rest ∧
      ∀ c ∈ rest, 3 ≤ c.phase := by
  have hlook : ∀ {products : List Product},
      Call.BeginTx tx e ∈ lookupCalls input.Items products → False := by
    intro products hm
    rcases mem_lookupCalls hm with ⟨_, _, h1⟩
    cases h1
  have hbody : ∀ {r : Option GoError} {body : List Call} {tx1 : TxHandle} {inp : OrderInput},
      TxBodyRun inp tx1 r body → Call.BeginTx tx e ∈ body → False := by
    intro r body tx1 inp hb hm
    have := TxBodyRun_phase hb hm
    simp [Call.phase] at this
  cases h with
  | userFailed existed e1 => simp at hc
  | userNotExist => simp at hc
  | productFailed e1 calls h =>
    exfalso
    rcases List.mem_cons.1 hc with hc | hc
    · cases hc
    · cases h with
      | notFound products hlt product err2 his =>
        rcases List.mem_append.1 hc with hc | hc
        · exact hlook hc
        · simp at hc
      | failed products hlt product e2 his =>
        rcases List.mem_append.1 hc with hc | hc
        · exact hlook hc
        · simp at hc
  | beginFailed products hlen tx1 e1 =>
    rcases List.mem_cons.1 hc with hc | hc
    · cases hc
    · rcases List.mem_append.1 hc with hc | hc
      · exact (hlook hc).elim
      · have h1 := List.mem_singleton.1 hc
        simp only [Call.BeginTx.injEq] at h1
        rw [h1.1, h1.2]
        exact ⟨products, [], hlen, rfl, by simp⟩
  | rolledBack products hlen tx1 e1 body rerr h =>
    rcases List.mem_cons.1 hc with hc | hc
    · cases hc
    · rcases List.mem_append.1 hc with hc | hc
      · exact (hlook hc).elim
      · rcases List.mem_cons.1 hc with hc | hc
        · simp only [Call.BeginTx.injEq] at hc
          rw [hc.1, hc.2]
          refine ⟨products, body ++ [Call.Rollback tx1 rerr], hlen, rfl, ?_⟩
          intro c hm
          rcases List.mem_append.1 hm with hm | hm
          · exact (TxBodyRun_phase h hm).1
          · rw [List.mem_singleton.1 hm]
            simp [Call.phase]
        · rcases List.mem_append.1 hc with hc | hc
          · exact (hbody h hc).elim
          · simp at hc
  | committed products hlen tx1 body cerr h =>
    rcases List.mem_cons.1 hc with hc | hc
    · cases hc
    · rcases List.mem_append.1 hc with hc | hc
      · exact (hlook hc).elim
      · rcases List.mem_cons.1 hc with hc | hc
        · simp only [Call.BeginTx.injEq] at hc
          rw [hc.1, hc.2]
          refine ⟨products, body ++ [Call.Commit tx1 err], hlen, rfl, ?_⟩
          intro c hm
          rcases List.mem_append.1 hm with hm | hm
          · exact (TxBodyRun_phase h hm).1
          · rw [List.mem_singleton.1 hm]
            simp [Call.phase]
        · rcases List.mem_append.1 hc with hc | hc
          · exact (hbody h hc).elim
          · simp at hc

/-- A run with an item insert made a successful header insert. -/
theorem CreateOrderRun_item_header {input : OrderInput} {err : Option GoError}
    {calls : List Call} (h : CreateOrderRun input err calls) {c : Call} (hc : c ∈ calls)
    (hitem : c.isCreateItem = true) :
    ∃ tx order ret, Call.CreateOrder tx order ret none ∈ calls := by
  rcases CreateOrderRun_inTx h hc (by rw [phase_isCreateItem hitem]; decide) with
    ⟨products, tx, r, body, final, hlen, hcalls, hbody, hfinal, hmem⟩
  have hb : c ∈ body := by
    rcases hmem with hmem | hmem
    · exact hmem
    · exfalso
      rcases hfinal with ⟨_, _, _, _, hf⟩ | ⟨_, _, _, hf⟩ <;>
        · rw [hmem, hf] at hitem
          simp [Call.isCreateItem] at hitem
  cases hbody with
  | uuidFailed n cause =>
    rw [List.mem_singleton.1 hb] at hitem
    simp [Call.isCreateItem] at hitem
  | headerFailed n now cause =>
    exfalso
    simp only [List.mem_cons, List.mem_singleton, List.not_mem_nil, or_false] at hb
    rcases hb with hb | hb | hb <;>
      · rw [hb] at hitem
        simp [Call.isCreateItem] at hitem
  | items n now order r calls1 hi =>
    refine ⟨tx, newOrder n now { input with Items := snapshot input.Items products }, order, ?_⟩
    rw [hcalls]
    simp

/-- After the user-existence check every call of a run is of a later stage. -/
theorem CreateOrderRun_rest {input : OrderInput} {err : Option GoError} {calls : List Call}
    (h : CreateOrderRun input err calls) :
    ∃ existed e rest, calls = Call.ExistsUserByID input.UserID existed e :: rest ∧
      ∀ c ∈ rest, 1 ≤ c.phase := by
  have hlook : ∀ {products : List Product} {c : Call},
      c ∈ lookupCalls input.Items products → 1 ≤ c.phase := by
    intro products c hm
    rcases mem_lookupCalls hm with ⟨_, _, h1⟩
    rw [h1]
    simp [Call.phase]
  cases h with
  | userFailed existed e => exact ⟨_, _, [], rfl, by simp⟩
  | userNotExist => exact ⟨_, _, [], rfl, by simp⟩
  | productFailed e calls h =>
    refine ⟨_, _, _, rfl, ?_⟩
    intro c hc
    cases h with
    | notFound products hlt product err2 his =>
      rcases List.mem_append.1 hc with hc | hc
      · exact hlook hc
      · rw [List.mem_singleton.1 hc]
        simp [Call.phase]
    | failed products hlt product e2 his =>
      rcases List.mem_append.1 hc with hc | hc
      · exact hlook hc
      · rw [List.mem_singleton.1 hc]
        simp [Call.phase]
  | beginFailed products hlen tx e =>
    refine ⟨_, _, _, rfl, ?_⟩
    intro c hc
    rcases List.mem_append.1 hc with hc | hc
    · exact hlook hc
    · rw [List.mem_singleton.1 hc]
      simp [Call.phase]
  | rolledBack products hlen tx e body rerr h =>
    refine ⟨_, _, _, rfl, ?_⟩
    intro c hc
    rcases List.mem_append.1 hc with hc | hc
    · exact hlook hc
    · rcases List.mem_cons.1 hc with hc | hc
      · rw [hc]
        simp [Call.phase]
      · rcases List.mem_append.1 hc with hc | hc
        · exact le_trans (by decide) (TxBodyRun_phase h hc).1
        · rw [List.mem_singleton.1 hc]
          simp [Call.phase]
  | committed products hlen tx body cerr h =>
    refine ⟨_, _, _, rfl, ?_⟩
    intro c hc
    rcases List.mem_append.1 hc with hc | hc
    · exact hlook hc
    · rcases List.mem_cons.1 hc with hc | hc
      · rw [hc]
        simp [Call.phase]
      · rcases List.mem_append.1 hc with hc | hc
        · exact le_trans (by decide) (TxBodyRun_phase h hc).1
        · rw [List.mem_singleton.1 hc]
          simp [Call.phase]

/-! ## Claims about the order service -/

/-- C1: when the user-existence lookup answers `(false, nil)`, `CreateOrder` returns
exactly `ErrUserNotExist`; the existence lookup is the only call it makes (no product
lookup, no transaction, no insert) and the state is the one that lookup left. -/
theorem C1_user_not_exist_no_writes {σ : Type} (env : Env σ) (input : OrderInput) (s : σ)
    (h : (UserRepo.ExistsUserByID env input.UserID s).1 = (false, none)) :
    (CreateOrder env input s).1 = some ErrUserNotExist ∧
      (CreateOrder env input s).2.1 = [Call.ExistsUserByID input.UserID false none] ∧
      (CreateOrder env input s).2.2 = (UserRepo.ExistsUserByID env input.UserID s).2 ∧
      ∀ c ∈ (CreateOrder env input s).2.1,
        c.isGetProduct = false ∧ c.isBeginTx = false ∧ c.isInsert = false := by
  have hrun : CreateOrder env input s =
      (some ErrUserNotExist, [Call.ExistsUserByID input.UserID false none],
        (UserRepo.ExistsUserByID env input.UserID s).2) := by
    unfold CreateOrder
    rcases hu : UserRepo.ExistsUserByID env input.UserID s with ⟨⟨existed, uerr⟩, s1⟩
    rw [hu] at h
    simp only [Prod.mk.injEq] at h
    rw [h.1, h.2]
  rw [hrun]
  refine ⟨rfl, rfl, rfl, ?_⟩
  intro c hc
  rw [List.mem_singleton.1 hc]
  exact ⟨rfl, rfl, rfl⟩

theorem C1_user_not_exist_no_writes_witness :
    (UserRepo.ExistsUserByID (scriptEnv testUserMissing)
        testInput.UserID {}).1 = (false, none) ∧
      (CreateOrder (scriptEnv testUserMissing) testInput {}).1
        = some ErrUserNotExist ∧
      (CreateOrder (scriptEnv testUserMissing) testInput {}).2.1
        = [Call.ExistsUserByID 2 false none] :=
  ⟨by decide,
    (C1_user_not_exist_no_writes (scriptEnv testUserMissing)
      testInput {} (by decide)).1,
    (C1_user_not_exist_no_writes (scriptEnv testUserMissing)
      testInput {} (by decide)).2.1⟩

/-- C2: when some product lookup of a run answers an error that is the "no rows"
condition, `CreateOrder` returns `ErrProductNotExist`, and the run opens no transaction
and makes no insert, neither of a header nor of an item (earlier valid items included):
its calls are the user check and product lookups only. -/
theorem C2_product_not_exist_no_writes {σ : Type} (env : Env σ) (input : OrderInput) (s : σ)
    (id : Int) (product : Product) (err : Option GoError)
    (hcall : Call.GetProduct id product err ∈ (CreateOrder env input s).2.1)
    (hnorows : errorsIs err GoError.ErrNoRows = true) :
    (CreateOrder env input s).1 = some ErrProductNotExist ∧
      ∀ c ∈ (CreateOrder env input s).2.1,
        c.isBeginTx = false ∧ c.isInsert = false ∧ c.isCommit = false := by
  rcases CreateOrderRun_getProduct (CreateOrder_run env input s) hcall with h | ⟨hall, h⟩
  · rw [h] at hnorows
    simp [errorsIs] at hnorows
  · rcases h with ⟨_, h⟩ | ⟨h, _⟩
    · refine ⟨h, ?_⟩
      intro c hc
      rcases hall c hc with hk | hk <;> cases c <;> simp_all [Call.isExistsUserByID,
        Call.isGetProduct, Call.isBeginTx, Call.isInsert, Call.isCreateOrder, Call.isCreateItem,
        Call.isCommit]
    · rw [h] at hnorows
      exact absurd hnorows (by simp)

theorem C2_product_not_exist_no_writes_witness :
    (CreateOrder (scriptEnv testSecondMissing)
        testInput {}).1 = some ErrProductNotExist ∧
      ∀ c ∈ (CreateOrder (scriptEnv testSecondMissing) testInput {}).2.1,
        c.isBeginTx = false ∧ c.isInsert = false ∧ c.isCommit = false :=
  C2_product_not_exist_no_writes
    (scriptEnv testSecondMissing) testInput {} 3 {} (some .ErrNoRows) (by decide) (by decide)

/-- The calls around a failed insert and around `Commit`: a failed header insert or
item insert is the last insert of the run and is followed by `Rollback` and by nothing
else; `Commit` is the last call of a run whose header insert and item inserts all
succeeded. -/
theorem all_or_nothing_calls {σ : Type} (env : Env σ) (input : OrderInput) (s : σ) :
    (∀ tx order ret cause,
      Call.CreateOrder tx order ret (some cause) ∈ (CreateOrder env input s).2.1 →
      (CreateOrder env input s).1 =
          some (GoError.errorString ("error when create order: " ++ cause.Error)) ∧
        ∃ pre rerr,
          (CreateOrder env input s).2.1 =
            pre ++ [Call.CreateOrder tx order ret (some cause), Call.Rollback tx rerr] ∧
          ∀ c ∈ pre, c.isInsert = false ∧ c.isCommit = false) ∧
    (∀ tx item cause,
      Call.CreateItem tx item (some cause) ∈ (CreateOrder env input s).2.1 →
      (CreateOrder env input s).1 =
          some (GoError.errorString ("error when create order item: " ++ cause.Error)) ∧
        ∃ pre rerr,
          (CreateOrder env input s).2.1 =
            pre ++ [Call.CreateItem tx item (some cause), Call.Rollback tx rerr] ∧
          ∀ c ∈ pre, c.isCommit = false) ∧
    (∀ tx cerr,
      Call.Commit tx cerr ∈ (CreateOrder env input s).2.1 →
      (CreateOrder env input s).1 = cerr ∧
        ∃ (pre : List Call) (order ret : Order) (items : List OrderItem),
          items.length = input.Items.length ∧
          (CreateOrder env input s).2.1 =
            pre ++ Call.CreateOrder tx order ret none ::
              items.map (fun item => Call.CreateItem tx item none) ++ [Call.Commit tx cerr] ∧
          ∀ c ∈ pre, c.isInsert = false ∧ c.isCommit = false ∧ c.isRollback = false) := by
  have hrun := CreateOrder_run env input s
  generalize (CreateOrder env input s).1 = err at hrun ⊢
  generalize (CreateOrder env input s).2.1 = calls at hrun ⊢
  refine ⟨?_, ?_, ?_⟩
  · intro tx order ret cause hc
    rcases CreateOrderRun_inTx hrun hc (by simp [Call.phase]) with
      ⟨products, tx1, r, body, final, hlen, hcalls, hbody, hfinal, hmem⟩
    rcases hmem with hmem | hmem
    · cases hbody with
      | uuidFailed n cause1 => simp at hmem
      | headerFailed n now cause1 =>
        rcases List.mem_cons.1 hmem with hmem | hmem
        · simp at hmem
        rcases List.mem_cons.1 hmem with hmem | hmem
        · simp at hmem
        have heq := List.mem_singleton.1 hmem
        simp only [Call.CreateOrder.injEq, Option.some.injEq] at heq
        rcases heq with ⟨rfl, rfl, rfl, rfl⟩
        rcases hfinal with ⟨e, rerr, hr, herr, rfl⟩ | ⟨cerr, hr, _, _⟩
        · simp only [Option.some.injEq] at hr
          subst hr
          refine ⟨herr, Call.ExistsUserByID input.UserID true none ::
            lookupCalls input.Items products ++
              [Call.BeginTx tx none, Call.NewV4 n none, Call.Now now], rerr, ?_, ?_⟩
          · rw [hcalls]
            simp
          · intro c hcpre
            exact ⟨(opening_calls_props hcpre).1, (opening_calls_props hcpre).2.1⟩
        · simp at hr
      | items n now order1 r icalls hitems =>
        rcases List.mem_cons.1 hmem with hmem | hmem
        · simp at hmem
        rcases List.mem_cons.1 hmem with hmem | hmem
        · simp at hmem
        rcases List.mem_cons.1 hmem with hmem | hmem
        · simp at hmem
        · rcases ItemsRun_mem hitems hmem with ⟨_, _, h1⟩
          simp at h1
    · rcases hfinal with ⟨e, rerr, _, _, rfl⟩ | ⟨cerr, _, _, rfl⟩ <;> simp at hmem
  · intro tx item cause hc
    rcases CreateOrderRun_inTx hrun hc (by simp [Call.phase]) with
      ⟨products, tx1, r, body, final, hlen, hcalls, hbody, hfinal, hmem⟩
    rcases hmem with hmem | hmem
    · cases hbody with
      | uuidFailed n cause1 => simp at hmem
      | headerFailed n now cause1 => simp at hmem
      | items n now order1 r icalls hitems =>
        rcases List.mem_cons.1 hmem with hmem | hmem
        · simp at hmem
        rcases List.mem_cons.1 hmem with hmem | hmem
        · simp at hmem
        rcases List.mem_cons.1 hmem with hmem | hmem
        · simp at hmem
        cases hitems with
        | ok =>
          rcases mem_itemCalls hmem with ⟨_, h1⟩
          simp at h1
        | failed k hk cause1 =>
          rcases List.mem_append.1 hmem with hmem | hmem
          · rcases mem_itemCalls hmem with ⟨_, h1⟩
            simp at h1
          · have heq := List.mem_singleton.1 hmem
            simp only [Call.CreateItem.injEq, Option.some.injEq] at heq
            rcases heq with ⟨rfl, rfl, rfl⟩
            rcases hfinal with ⟨e, rerr, hr, herr, rfl⟩ | ⟨cerr, hr, _, _⟩
            · simp only [Option.some.injEq] at hr
              subst hr
              refine ⟨herr, (Call.ExistsUserByID input.UserID true none ::
                lookupCalls input.Items products ++
                  [Call.BeginTx tx none, Call.NewV4 n none, Call.Now now]) ++
                (Call.CreateOrder tx
                    (newOrder n now { input with Items := snapshot input.Items products })
                    order1 none ::
                  itemCalls tx order1.ID ((snapshot input.Items products).take k)),
                rerr, ?_, ?_⟩
              · rw [hcalls]
                simp
              · intro c hcpre
                rcases List.mem_append.1 hcpre with hcpre | hcpre
                · exact (opening_calls_props hcpre).2.1
                · rcases List.mem_cons.1 hcpre with rfl | hcpre
                  · rfl
                  · rcases mem_itemCalls hcpre with ⟨_, rfl⟩
                    rfl
            · simp at hr
    · rcases hfinal with ⟨e, rerr, _, _, rfl⟩ | ⟨cerr, _, _, rfl⟩ <;> simp at hmem
  · intro tx cerr hc
    rcases CreateOrderRun_inTx hrun hc (by simp [Call.phase]) with
      ⟨products, tx1, r, body, final, hlen, hcalls, hbody, hfinal, hmem⟩
    rcases hmem with hmem | hmem
    · have := TxBodyRun_phase hbody hmem
      simp [Call.phase] at this
    · rcases hfinal with ⟨e, rerr, _, _, rfl⟩ | ⟨cerr1, hr, herr, rfl⟩
      · simp at hmem
      · simp only [Call.Commit.injEq] at hmem
        rcases hmem with ⟨rfl, rfl⟩
        subst hr
        cases hbody with
        | items n now order1 r icalls hitems =>
          cases hitems with
          | ok =>
            refine ⟨herr, Call.ExistsUserByID input.UserID true none ::
              lookupCalls input.Items products ++
                [Call.BeginTx tx none, Call.NewV4 n none, Call.Now now],
              newOrder n now { input with Items := snapshot input.Items products }, order1,
              (snapshot input.Items products).map (toOrderItem order1.ID), ?_, ?_, ?_⟩
            · simp [snapshot, hlen]
            · rw [hcalls]
              simp [itemCalls, List.map_map, Function.comp_def]
            · intro c hcpre
              exact ⟨(opening_calls_props hcpre).1, (opening_calls_props hcpre).2.1,
                (opening_calls_props hcpre).2.2.1⟩

/-- C3: a failed header insert or item insert is the last insert of the run, is
followed by `Rollback` and by nothing else, no `Commit` is called, and the returned
error carries the message "error when create order: cause" or "error when create
order item: cause"; the rollback is the one of the environment: with `s2` the state
the environment is in after the failed insert, the logged answer of `Rollback` and
the state the run ends in are `env.rollback tx s2`. `Commit` is called only at the
end of a run whose header insert and whose inserts of all items succeeded, and the
error returned and the final state are then `env.commit tx s2`, with `s2` the state
after the last insert; so an order is committed whole or rolled back. The whole log
is what the environment answered, from the initial state to the final one. -/
theorem C3_all_or_nothing {σ : Type} (env : Env σ) (input : OrderInput) (s : σ) :
    replay env (CreateOrder env input s).2.1 s = some (CreateOrder env input s).2.2 ∧
    (∀ tx order ret cause,
      Call.CreateOrder tx order ret (some cause) ∈ (CreateOrder env input s).2.1 →
      (CreateOrder env input s).1 =
          some (GoError.errorString ("error when create order: " ++ cause.Error)) ∧
        ∃ pre rerr s2,
          (CreateOrder env input s).2.1 =
            pre ++ [Call.CreateOrder tx order ret (some cause), Call.Rollback tx rerr] ∧
          (∀ c ∈ pre, c.isInsert = false ∧ c.isCommit = false) ∧
          replay env (pre ++ [Call.CreateOrder tx order ret (some cause)]) s = some s2 ∧
          env.rollback tx s2 = (rerr, (CreateOrder env input s).2.2)) ∧
    (∀ tx item cause,
      Call.CreateItem tx item (some cause) ∈ (CreateOrder env input s).2.1 →
      (CreateOrder env input s).1 =
          some (GoError.errorString ("error when create order item: " ++ cause.Error)) ∧
        ∃ pre rerr s2,
          (CreateOrder env input s).2.1 =
            pre ++ [Call.CreateItem tx item (some cause), Call.Rollback tx rerr] ∧
          (∀ c ∈ pre, c.isCommit = false) ∧
          replay env (pre ++ [Call.CreateItem tx item (some cause)]) s = some s2 ∧
          env.rollback tx s2 = (rerr, (CreateOrder env input s).2.2)) ∧
    (∀ tx cerr,
      Call.Commit tx cerr ∈ (CreateOrder env input s).2.1 →
      (CreateOrder env input s).1 = cerr ∧
        ∃ (pre : List Call) (order ret : Order) (items : List OrderItem) (s2 : σ),
          items.length = input.Items.length ∧
          (CreateOrder env input s).2.1 =
            pre ++ Call.CreateOrder tx order ret none ::
              items.map (fun item => Call.CreateItem tx item none) ++ [Call.Commit tx cerr] ∧
          (∀ c ∈ pre, c.isInsert = false ∧ c.isCommit = false ∧ c.isRollback = false) ∧
          replay env (pre ++ Call.CreateOrder tx order ret none ::
              items.map (fun item => Call.CreateItem tx item none)) s = some s2 ∧
          env.commit tx s2 = (cerr, (CreateOrder env input s).2.2)) ∧
    (∀ c ∈ (CreateOrder env input s).2.1, c.isInsert = true →
      ∃ tx err, (Call.Rollback tx err ∈ (CreateOrder env input s).2.1 ∨
        Call.Commit tx err ∈ (CreateOrder env input s).2.1)) := by
  have hf := CreateOrder_faithful env input s
  have hold := all_or_nothing_calls env input s
  refine ⟨hf, ?_, ?_, ?_, ?_⟩
  · intro tx order ret cause hc
    rcases hold.1 tx order ret cause hc with ⟨hres, pre, rerr, hcalls, hpre⟩
    have h1 : replay env ((pre ++ [Call.CreateOrder tx order ret (some cause)]) ++
        [Call.Rollback tx rerr]) s = some (CreateOrder env input s).2.2 := by
      rw [hcalls] at hf
      simpa using hf
    rcases replay_snoc_rollback env _ tx rerr s _ h1 with ⟨s2, h2, h3⟩
    exact ⟨hres, pre, rerr, s2, hcalls, hpre, h2, h3⟩
  · intro tx item cause hc
    rcases hold.2.1 tx item cause hc with ⟨hres, pre, rerr, hcalls, hpre⟩
    have h1 : replay env ((pre ++ [Call.CreateItem tx item (some cause)]) ++
        [Call.Rollback tx rerr]) s = some (CreateOrder env input s).2.2 := by
      rw [hcalls] at hf
      simpa using hf
    rcases replay_snoc_rollback env _ tx rerr s _ h1 with ⟨s2, h2, h3⟩
    exact ⟨hres, pre, rerr, s2, hcalls, hpre, h2, h3⟩
  · intro tx cerr hc
    rcases hold.2.2 tx cerr hc with ⟨hres, pre, order, ret, items, hlen, hcalls, hpre⟩
    have h1 : replay env ((pre ++ Call.CreateOrder tx order ret none ::
        items.map (fun item => Call.CreateItem tx item none)) ++
        [Call.Commit tx cerr]) s = some (CreateOrder env input s).2.2 := by
      rw [hcalls] at hf
      simpa using hf
    rcases replay_snoc_commit env _ tx cerr s _ h1 with ⟨s2, h2, h3⟩
    exact ⟨hres, pre, order, ret, items, s2, hlen, hcalls, hpre, h2, h3⟩
  · intro c hc hins
    rcases CreateOrderRun_inTx (CreateOrder_run env input s) hc
        (le_trans (by decide) (phase_isInsert hins)) with
      ⟨products, tx, r, body, final, hlen, hcalls, hbody, hfinal, hmem⟩
    rcases hfinal with ⟨e, rerr, _, _, hfin⟩ | ⟨cerr, _, _, hfin⟩
    · refine ⟨tx, rerr, Or.inl ?_⟩
      rw [hcalls, hfin]
      simp
    · refine ⟨tx, cerr, Or.inr ?_⟩
      rw [hcalls, hfin]
      simp

theorem C3_all_or_nothing_witness :
    ((CreateOrder (scriptEnv testHeaderFails) testInput {}).1 =
        some (.errorString "error when create order: pq: connection reset") ∧
      (CreateOrder (scriptEnv testHeaderFails) testInput {}).2.2 =
        { lookups := 2, inserts := 0, rolledBack := 1, committed := 0 }) ∧
    ((CreateOrder (scriptEnv testItemFails) testInput {}).1 =
        some (.errorString "error when create order item: pq: connection reset") ∧
      (CreateOrder (scriptEnv testItemFails) testInput {}).2.2 =
        { lookups := 2, inserts := 2, rolledBack := 1, committed := 0 }) ∧
    ((CreateOrder (scriptEnv testAllOK) testInput {}).1 = none ∧
      (CreateOrder (scriptEnv testAllOK) testInput {}).2.2 =
        { lookups := 2, inserts := 2, rolledBack := 0, committed := 1 }) ∧
    replay (scriptEnv testItemFails) (CreateOrder (scriptEnv testItemFails) testInput {}).2.1 {} =
      some { lookups := 2, inserts := 2, rolledBack := 1, committed := 0 } :=
  ⟨⟨((C3_all_or_nothing (scriptEnv testHeaderFails) testInput {}).2.1 1
      (newOrder "6ba7b810-9dad-41d1-80b4-00c04fd430c8" 1000 testInput) {}
      (.errorString "pq: connection reset") (by decide)).1, by decide⟩,
    ⟨((C3_all_or_nothing (scriptEnv testItemFails) testInput {}).2.2.1 1
      { OrderID := 1, ProductID := 3, ProductPrice := { bits := 0x4069000000000000 },
        ProductName := "product 2", Quantity := 20,
        Discount := { bits := 0x3FE0000000000000 }, Note := "item 2" }
      (.errorString "pq: connection reset") (by decide)).1, by decide⟩,
    ⟨((C3_all_or_nothing (scriptEnv testAllOK) testInput {}).2.2.2.1 1 none
      (by decide)).1, by decide⟩,
    (C3_all_or_nothing (scriptEnv testItemFails) testInput {}).1.trans (by decide)⟩

/-- C4: in a run that returns nil, the `i`-th product lookup asks for the product of
the `i`-th input item, and the `i`-th item insert carries the price and the title of
the product which the repository `GetProduct` of the environment returns for that
item during the run (`lookedUp`: the lookups are made one after the other, starting
in the state the user check left), together with the product id, quantity, discount
and note of the input item; the `ProductPrice` and `ProductName` of the input item
are not used. -/
theorem C4_price_snapshot {σ : Type} (env : Env σ) (input : OrderInput) (s : σ)
    (h : (CreateOrder env input s).1 = none) :
    ∃ (tx : TxHandle) (orderID : Int),
      (lookedUp env input.Items (UserRepo.ExistsUserByID env input.UserID s).2).length =
        input.Items.length ∧
      (CreateOrder env input s).2.1.filter Call.isGetProduct =
        List.zipWith (fun item product => Call.GetProduct item.ProductID product none)
          input.Items
          (lookedUp env input.Items (UserRepo.ExistsUserByID env input.UserID s).2) ∧
      (CreateOrder env input s).2.1.filter Call.isCreateItem =
        List.zipWith
          (fun item product =>
            Call.CreateItem tx
              { OrderID := orderID
                ProductID := item.ProductID
                ProductPrice := product.Price
                ProductName := product.Title
                Quantity := item.Quantity
                Discount := item.Discount
                Note := item.Note } none)
          input.Items
          (lookedUp env input.Items (UserRepo.ExistsUserByID env input.UserID s).2) := by
  have hrun := CreateOrder_run env input s
  have hf := CreateOrder_faithful env input s
  rw [h] at hrun
  rcases CreateOrderRun_nil hrun with ⟨products, tx, n, now, ret, hlen, hcalls⟩
  have hp : products =
      lookedUp env input.Items (UserRepo.ExistsUserByID env input.UserID s).2 := by
    rw [hcalls] at hf
    rcases replay_cons_some env _ _ s _ hf with ⟨s1, h1, h2⟩
    by_cases hc : (UserRepo.ExistsUserByID env input.UserID s).1 = (true, none)
    · simp only [replayCall, hc, if_true, Option.some.injEq] at h1
      rw [h1]
      exact replay_lookupCalls env input.Items products _ s1 _ hlen h2
    · simp only [replayCall, hc, if_false] at h1
      cases h1
  refine ⟨tx, ret.ID, lookedUp_length env _ _, ?_, ?_⟩
  · rw [← hp, hcalls]
    simp only [List.filter_cons, List.filter_append, List.filter_nil, Call.isGetProduct,
      filter_lookupCalls_pos Call.isGetProduct (fun _ _ _ => rfl),
      filter_itemCalls_neg Call.isGetProduct (fun _ _ _ => rfl)]
    simp [lookupCalls]
  · rw [← hp, hcalls]
    simp only [List.filter_cons, List.filter_append, List.filter_nil, Call.isCreateItem,
      filter_lookupCalls_neg Call.isCreateItem (fun _ _ _ => rfl),
      filter_itemCalls_pos Call.isCreateItem (fun _ _ _ => rfl)]
    simp [itemCalls_snapshot]

theorem C4_price_snapshot_witness :
    (CreateOrder (scriptEnv testAllOK) testInputMadeUp {}).1 = none ∧
    (testInputMadeUp.Items.map (fun item => (item.ProductPrice, item.ProductName)) =
      [({ bits := 0x3FF0000000000000 }, "made up"),
        ({ bits := 0x3FF0000000000000 }, "made up")]) ∧
    ∃ (tx : TxHandle) (orderID : Int),
      (CreateOrder (scriptEnv testAllOK) testInputMadeUp {}).2.1.filter Call.isGetProduct =
        [ Call.GetProduct 1
            { ID := 1, Title := "product 1", Price := { bits := 0x4059000000000000 } } none,
          Call.GetProduct 3
            { ID := 2, Title := "product 2", Price := { bits := 0x4069000000000000 } } none ] ∧
      (CreateOrder (scriptEnv testAllOK) testInputMadeUp {}).2.1.filter Call.isCreateItem =
        [ Call.CreateItem tx
            { OrderID := orderID, ProductID := 1,
              ProductPrice := { bits := 0x4059000000000000 }, ProductName := "product 1",
              Quantity := 10, Discount := { bits := 0 }, Note := "item 1" } none,
          Call.CreateItem tx
            { OrderID := orderID, ProductID := 3,
              ProductPrice := { bits := 0x4069000000000000 }, ProductName := "product 2",
              Quantity := 20, Discount := { bits := 0x3FE0000000000000 },
              Note := "item 2" } none ] :=
  ⟨by decide, by decide,
    (C4_price_snapshot (scriptEnv testAllOK) testInputMadeUp {} (by decide)).elim
      (fun tx h1 => h1.elim (fun orderID h2 => ⟨tx, orderID, h2.2.1, h2.2.2⟩))⟩

/-- C5 as stated fails: with an existing user, existing products and no failing
insert, the call still returns an error when `Commit` fails (after all inserts),
when the transaction cannot be opened, or when no order number can be generated
(in the last two cases no header is inserted). -/
theorem C5_counterexample :
    (Call.ExistsUserByID 2 true none ∈
        (CreateOrder (scriptEnv testCommitFails) testInput {}).2.1 ∧
      ((CreateOrder (scriptEnv testCommitFails) testInput {}).2.1.filter
          Call.isGetProduct).map Call.err = [none, none] ∧
      ((CreateOrder (scriptEnv testCommitFails) testInput {}).2.1.filter
          Call.isInsert).map Call.err = [none, none, none] ∧
      (CreateOrder (scriptEnv testCommitFails) testInput {}).1 =
        some (.errorString "commit failed")) ∧
    (Call.ExistsUserByID 2 true none ∈
        (CreateOrder (scriptEnv testBeginFails) testInput {}).2.1 ∧
      ((CreateOrder (scriptEnv testBeginFails) testInput {}).2.1.filter
          Call.isGetProduct).map Call.err = [none, none] ∧
      (CreateOrder (scriptEnv testBeginFails) testInput {}).2.1.filter
          Call.isInsert = [] ∧
      (CreateOrder (scriptEnv testBeginFails) testInput {}).1 =
        some (.errorString "too many connections")) ∧
    (Call.ExistsUserByID 2 true none ∈
        (CreateOrder (scriptEnv testUuidFails) testInput {}).2.1 ∧
      ((CreateOrder (scriptEnv testUuidFails) testInput {}).2.1.filter
          Call.isGetProduct).map Call.err = [none, none] ∧
      (CreateOrder (scriptEnv testUuidFails) testInput {}).2.1.filter
          Call.isInsert = [] ∧
      (CreateOrder (scriptEnv testUuidFails) testInput {}).1 =
        some (.errorString "error when generate order number: unexpected end of input")) := by
  decide

/-- C5 (amended): in a run in which the user exists and every call before the commit
succeeds (product lookups, opening of the transaction, order-number generation,
header insert, item inserts), exactly one header is inserted, with status "NEW" and
the note and user id of the input, followed by exactly one insert per input item, in
input order, each with the id of the header that the header insert returned and with
product id, quantity, discount and note of the input item; then `Commit` is called
and the call returns what `Commit` returned. -/
theorem C5_complete_run {σ : Type} (env : Env σ) (input : OrderInput) (s : σ)
    (hexists : Call.ExistsUserByID input.UserID true none ∈ (CreateOrder env input s).2.1)
    (hok : ∀ c ∈ (CreateOrder env input s).2.1, c.isCommit = false → c.err = none) :
    ∃ (products : List Product) (tx : TxHandle) (orderNumber : String) (now : Time)
      (ret : Order),
      products.length = input.Items.length ∧
      (CreateOrder env input s).2.1 =
        Call.ExistsUserByID input.UserID true none ::
          List.zipWith (fun item product => Call.GetProduct item.ProductID product none)
            input.Items products ++
          [Call.BeginTx tx none, Call.NewV4 orderNumber none, Call.Now now,
            Call.CreateOrder tx
              { OrderNumber := orderNumber
                OrderDate := now
                Status := "NEW"
                Note := input.Note
                UserID := input.UserID } ret none] ++
          List.zipWith
            (fun item product =>
              Call.CreateItem tx
                { OrderID := ret.ID
                  ProductID := item.ProductID
                  ProductPrice := product.Price
                  ProductName := product.Title
                  Quantity := item.Quantity
                  Discount := item.Discount
                  Note := item.Note } none)
            input.Items products ++
          [Call.Commit tx (CreateOrder env input s).1] := by
  rcases CreateOrderRun_complete (CreateOrder_run env input s) hexists hok with
    ⟨products, tx, n, now, ret, hlen, hcalls⟩
  refine ⟨products, tx, n, now, ret, hlen, ?_⟩
  rw [hcalls, itemCalls_snapshot]
  simp [lookupCalls, newOrder, OrderStatusNew]

theorem C5_complete_run_witness :
    ∃ (products : List Product) (tx : TxHandle) (orderNumber : String) (now : Time)
      (ret : Order),
      products.length = testInput.Items.length ∧
      (CreateOrder (scriptEnv testAllOK) testInput {}).2.1 =
        Call.ExistsUserByID testInput.UserID true none ::
          List.zipWith (fun item product => Call.GetProduct item.ProductID product none)
            testInput.Items products ++
          [Call.BeginTx tx none, Call.NewV4 orderNumber none, Call.Now now,
            Call.CreateOrder tx
              { OrderNumber := orderNumber
                OrderDate := now
                Status := "NEW"
                Note := testInput.Note
                UserID := testInput.UserID } ret none] ++
          List.zipWith
            (fun item product =>
              Call.CreateItem tx
                { OrderID := ret.ID
                  ProductID := item.ProductID
                  ProductPrice := product.Price
                  ProductName := product.Title
                  Quantity := item.Quantity
                  Discount := item.Discount
                  Note := item.Note } none)
            testInput.Items products ++
          [Call.Commit tx (CreateOrder (scriptEnv testAllOK) testInput {}).1] :=
  C5_complete_run (scriptEnv testAllOK) testInput {} (by decide) (by decide)

/-- C6: on the in-memory store, a product update after a `CreateOrder` call leaves
the table of order items exactly as the call left it, whatever price and title the
update gives to whichever product; and when the call returned nil, the rows it
added still carry, after the update, the price and title that the products had in
the store when the order was placed. -/
theorem C6_snapshot_stable (db : MemDB) (input : OrderInput) (product : Product) :
    (ProductRepo.UpdateProduct memEnv product (CreateOrder memEnv input db).2.2).2.orderItems =
        (CreateOrder memEnv input db).2.2.orderItems ∧
      ((CreateOrder memEnv input db).1 = none →
        ∃ rows,
          (ProductRepo.UpdateProduct memEnv product
              (CreateOrder memEnv input db).2.2).2.orderItems = db.orderItems ++ rows ∧
          List.Forall₂
            (fun item row => ∃ p, db.product item.ProductID = some p ∧
              row.ProductID = item.ProductID ∧ row.ProductPrice = p.Price ∧
              row.ProductName = p.Title)
            input.Items rows) := by
  refine ⟨UpdateProduct_memEnv_orderItems _ _, ?_⟩
  intro h
  rcases CreateOrder_memEnv input db h with ⟨rows, h1, h2⟩
  exact ⟨rows, (UpdateProduct_memEnv_orderItems _ _).trans h1, h2⟩

theorem C6_snapshot_stable_witness :
    ∃ rows,
      (ProductRepo.UpdateProduct memEnv
          { ID := 3, Title := "product 3 (new)", Price := { bits := 0x4072C00000000000 } }
          (CreateOrder memEnv testInput testDB).2.2).2.orderItems = testDB.orderItems ++ rows ∧
      List.Forall₂
        (fun item row => ∃ p, testDB.product item.ProductID = some p ∧
          row.ProductID = item.ProductID ∧ row.ProductPrice = p.Price ∧
          row.ProductName = p.Title)
        testInput.Items rows :=
  (C6_snapshot_stable testDB testInput
    { ID := 3, Title := "product 3 (new)", Price := { bits := 0x4072C00000000000 } }).2
    (by decide)

/-- C7: every `CreateOrder` run starts with the user-existence check, and it makes
that check once. A product lookup is made only after that check. A run that opens
the transaction made the check, then one successful lookup for each input item, in
the order of the items, then `BeginTx`, and every later call is of a later stage. An
insert is made only after a successful `BeginTx`, and an item insert only after a
successful header insert. In the calls of the run, the check comes before every
product lookup, every product lookup before the opening of the transaction, the
opening of the transaction before every insert, and the header insert before every
item insert. -/
theorem C7_call_order {σ : Type} (env : Env σ) (input : OrderInput) (s : σ) :
    (∃ existed err rest,
      (CreateOrder env input s).2.1 = Call.ExistsUserByID input.UserID existed err :: rest ∧
        ∀ c ∈ rest, c.isExistsUserByID = false) ∧
    PrecededBy Call.isExistsUserByID Call.isGetProduct (CreateOrder env input s).2.1 ∧
    (∀ tx e, Call.BeginTx tx e ∈ (CreateOrder env input s).2.1 →
      ∃ (products : List Product) (rest : List Call),
        products.length = input.Items.length ∧
        (CreateOrder env input s).2.1 = Call.ExistsUserByID input.UserID true none ::
          lookupCalls input.Items products ++ Call.BeginTx tx e :: rest ∧
        ∀ c ∈ rest, c.isExistsUserByID = false ∧ c.isGetProduct = false ∧
          c.isBeginTx = false) ∧
    PrecededBy (fun c => c.isBeginTx && decide (c.err = none)) Call.isInsert
      (CreateOrder env input s).2.1 ∧
    PrecededBy (fun c => c.isCreateOrder && decide (c.err = none)) Call.isCreateItem
      (CreateOrder env input s).2.1 ∧
    Precedes Call.isExistsUserByID Call.isGetProduct (CreateOrder env input s).2.1 ∧
    Precedes Call.isGetProduct Call.isBeginTx (CreateOrder env input s).2.1 ∧
    Precedes Call.isBeginTx Call.isInsert (CreateOrder env input s).2.1 ∧
    Precedes Call.isCreateOrder Call.isCreateItem (CreateOrder env input s).2.1 := by
  have hrun := CreateOrder_run env input s
  have hs := (CreateOrderRun_staged hrun).1
  generalize (CreateOrder env input s).1 = err at hrun
  generalize (CreateOrder env input s).2.1 = calls at hrun hs ⊢
  refine ⟨?_, ?_, ?_, ?_, ?_, precedes_of_phase hs ?_, precedes_of_phase hs ?_,
    precedes_of_phase hs ?_, precedes_of_phase hs ?_⟩
  · rcases CreateOrderRun_rest hrun with ⟨existed, e, rest, hcalls, hrest⟩
    refine ⟨existed, e, rest, hcalls, ?_⟩
    intro c hc
    have h1 := hrest c hc
    cases hcu : c.isExistsUserByID with
    | false => rfl
    | true =>
      rw [phase_isExistsUserByID hcu] at h1
      omega
  · intro pre post b heq hb
    rcases CreateOrderRun_rest hrun with ⟨existed, e, rest, hcalls, _⟩
    refine ⟨Call.ExistsUserByID input.UserID existed e, ?_, rfl⟩
    refine mem_pre_of_phase hs heq ?_ ?_
    · rw [hcalls]
      exact List.mem_cons_self _ _
    · rw [phase_isGetProduct hb]
      simp [Call.phase]
  · intro tx e hc
    rcases CreateOrderRun_beginTx hrun hc with ⟨products, rest, hlen, hcalls, hrest⟩
    refine ⟨products, rest, hlen, hcalls, ?_⟩
    intro c hm
    have h1 := hrest c hm
    cases c <;> simp [Call.phase] at h1 <;>
      simp [Call.isExistsUserByID, Call.isGetProduct, Call.isBeginTx]
  · intro pre post b heq hb
    have hmem : b ∈ calls := by
      rw [heq]
      simp
    rcases CreateOrderRun_inTx hrun hmem (le_trans (by decide) (phase_isInsert hb)) with
      ⟨products, tx, r, body, final, hlen, hcalls, _, _, _⟩
    refine ⟨Call.BeginTx tx none, ?_, rfl⟩
    refine mem_pre_of_phase hs heq ?_ ?_
    · rw [hcalls]
      simp
    · exact lt_of_lt_of_le (show (Call.BeginTx tx none).phase < 4 by simp [Call.phase])
        (phase_isInsert hb)
  · intro pre post b heq hb
    have hmem : b ∈ calls := by
      rw [heq]
      simp
    rcases CreateOrderRun_item_header hrun hmem hb with ⟨tx, order, ret, hc⟩
    refine ⟨Call.CreateOrder tx order ret none, ?_, rfl⟩
    refine mem_pre_of_phase hs heq hc ?_
    rw [phase_isCreateItem hb]
    simp [Call.phase]
  · intro a b ha hb
    rw [phase_isExistsUserByID ha, phase_isGetProduct hb]
    decide
  · intro a b ha hb
    rw [phase_isGetProduct ha, phase_isBeginTx hb]
    decide
  · intro a b ha hb
    have := phase_isInsert hb
    rw [phase_isBeginTx ha]
    omega
  · intro a b ha hb
    rw [phase_isCreateOrder ha, phase_isCreateItem hb]
    decide

theorem C7_call_order_witness :
    (CreateOrder (scriptEnv testAllOK) testInput {}).2.1 =
      [ Call.ExistsUserByID 2 true none,
        Call.GetProduct 1
          { ID := 1, Title := "product 1", Price := { bits := 0x4059000000000000 } } none,
        Call.GetProduct 3
          { ID := 2, Title := "product 2", Price := { bits := 0x4069000000000000 } } none,
        Call.BeginTx 1 none,
        Call.NewV4 "6ba7b810-9dad-41d1-80b4-00c04fd430c8" none,
        Call.Now 1000,
        Call.CreateOrder 1 (newOrder "6ba7b810-9dad-41d1-80b4-00c04fd430c8" 1000 testInput)
          { newOrder "6ba7b810-9dad-41d1-80b4-00c04fd430c8" 1000 testInput with ID := 1 } none,
        Call.CreateItem 1
          { OrderID := 1, ProductID := 1, ProductPrice := { bits := 0x4059000000000000 },
            ProductName := "product 1", Quantity := 10, Discount := { bits := 0 },
            Note := "item 1" } none,
        Call.CreateItem 1
          { OrderID := 1, ProductID := 3, ProductPrice := { bits := 0x4069000000000000 },
            ProductName := "product 2", Quantity := 20,
            Discount := { bits := 0x3FE0000000000000 }, Note := "item 2" } none,
        Call.Commit 1 none ] ∧
    PrecededBy Call.isExistsUserByID Call.isGetProduct
      (CreateOrder (scriptEnv testAllOK) testInput {}).2.1 ∧
    PrecededBy (fun c => c.isBeginTx && decide (c.err = none)) Call.isInsert
      (CreateOrder (scriptEnv testAllOK) testInput {}).2.1 ∧
    PrecededBy (fun c => c.isCreateOrder && decide (c.err = none)) Call.isCreateItem
      (CreateOrder (scriptEnv testAllOK) testInput {}).2.1 ∧
    Precedes Call.isGetProduct Call.isBeginTx
      (CreateOrder (scriptEnv testAllOK) testInput {}).2.1 :=
  ⟨by decide,
    (C7_call_order (scriptEnv testAllOK) testInput {}).2.1,
    (C7_call_order (scriptEnv testAllOK) testInput {}).2.2.2.1,
    (C7_call_order (scriptEnv testAllOK) testInput {}).2.2.2.2.1,
    (C7_call_order (scriptEnv testAllOK) testInput {}).2.2.2.2.2.2.1⟩

/-- C8: an error of the user-existence lookup is returned as it is, and so is a
product lookup error that is not the "no rows" condition; in both cases the run
opens no transaction. -/
theorem C8_lookup_errors_unmodified {σ : Type} (env : Env σ) (input : OrderInput) (s : σ) :
    (∀ existed e, (UserRepo.ExistsUserByID env input.UserID s).1 = (existed, some e) →
      (CreateOrder env input s).1 = some e ∧
        (CreateOrder env input s).2.1 = [Call.ExistsUserByID input.UserID existed (some e)]) ∧
    (∀ id product e, Call.GetProduct id product (some e) ∈ (CreateOrder env input s).2.1 →
      errorsIs (some e) GoError.ErrNoRows = false →
      (CreateOrder env input s).1 = some e ∧
        ∀ c ∈ (CreateOrder env input s).2.1, c.isBeginTx = false) := by
  constructor
  · intro existed e h
    unfold CreateOrder
    rcases hu : UserRepo.ExistsUserByID env input.UserID s with ⟨⟨ex, uerr⟩, s1⟩
    rw [hu] at h
    simp only [Prod.mk.injEq] at h
    rw [h.1, h.2]
    cases existed <;> exact ⟨rfl, rfl⟩
  · intro id product e hcall hnot
    rcases CreateOrderRun_getProduct (CreateOrder_run env input s) hcall with h | ⟨hall, h⟩
    · simp at h
    · rcases h with ⟨h, _⟩ | ⟨_, h⟩
      · rw [h] at hnot
        exact absurd hnot (by simp)
      · refine ⟨h, ?_⟩
        intro c hc
        rcases hall c hc with hk | hk <;> cases c <;>
          simp_all [Call.isExistsUserByID, Call.isGetProduct, Call.isBeginTx]

theorem C8_lookup_errors_unmodified_witness :
    ((CreateOrder (scriptEnv testUserLookupFails)
          testInput {}).1 = some (.errorString "connection refused") ∧
        (CreateOrder (scriptEnv testUserLookupFails)
          testInput {}).2.1 =
          [Call.ExistsUserByID 2 true (some (.errorString "connection refused"))]) ∧
      ((CreateOrder
          (scriptEnv testProductLookupFails)
          testInput {}).1 = some (.errorString "connection refused") ∧
        ∀ c ∈ (CreateOrder
            (scriptEnv testProductLookupFails)
            testInput {}).2.1, c.isBeginTx = false) :=
  ⟨(C8_lookup_errors_unmodified
      (scriptEnv testUserLookupFails) testInput {}).1
      true (.errorString "connection refused") (by decide),
    (C8_lookup_errors_unmodified
      (scriptEnv testProductLookupFails)
      testInput {}).2 3
      { ID := 2, Title := "product 2", Price := { bits := 0x4069000000000000 } }
      (.errorString "connection refused") (by decide) (by decide)⟩

end OrderService

/-! ## Claims about the transaction coordinator -/

namespace Repository

/-- C9: when the transaction was opened and the unit of work returns the error `e`,
`Tx` returns exactly `e` whatever `Rollback` answers; after the calls of the unit of
work it calls `Rollback` once and it never calls `Commit`. -/
theorem C9_tx_error_path {σ : Type} (env : Env σ)
    (fn : TxHandle → σ → Option GoError × List Call × σ) (s s1 s2 : σ) (tx : TxHandle)
    (e : GoError) (calls : List Call)
    (hbegin : env.beginTx s = ((tx, none), s1))
    (hfn : fn tx s1 = (some e, calls, s2)) :
    (Tx env fn s).1 = some e ∧
      (Tx env fn s).2.1 =
        Call.BeginTx tx none :: calls ++ [Call.Rollback tx (env.rollback tx s2).1] ∧
      (Tx env fn s).2.2 = (env.rollback tx s2).2 ∧
      (Tx env fn s).2.1.countP Call.isRollback = calls.countP Call.isRollback + 1 ∧
      (Tx env fn s).2.1.countP Call.isCommit = calls.countP Call.isCommit := by
  have hrun := OrderService.Tx_of_fn_err env fn s s1 s2 tx e calls hbegin hfn
  rw [hrun]
  refine ⟨rfl, rfl, rfl, ?_, ?_⟩
  · simp [List.countP_cons, List.countP_append, Call.isRollback]
  · simp [List.countP_cons, List.countP_append, Call.isCommit]

theorem C9_tx_error_path_witness :
    (Tx (OrderService.scriptEnv OrderService.testRollbackFails)
        (fun _ s => (some (.errorString "boom"), [], s)) {}).1 = some (.errorString "boom") ∧
      (Tx (OrderService.scriptEnv OrderService.testRollbackFails)
        (fun _ s => (some (.errorString "boom"), [], s)) {}).2.1 =
        [Call.BeginTx 1 none,
          Call.Rollback 1 (some (.errorString "driver: bad connection"))] :=
  ⟨(C9_tx_error_path (OrderService.scriptEnv OrderService.testRollbackFails)
      (fun _ s => (some (.errorString "boom"), [], s)) {} {} {} 1 (.errorString "boom") []
      rfl rfl).1,
    (C9_tx_error_path (OrderService.scriptEnv OrderService.testRollbackFails)
      (fun _ s => (some (.errorString "boom"), [], s)) {} {} {} 1 (.errorString "boom") []
      rfl rfl).2.1⟩

/-- C10: when the transaction was opened and the unit of work returns nil, `Tx`
calls `Commit` once after the calls of the unit of work, never calls `Rollback`, and
returns exactly what `Commit` returned (nil or the commit error). -/
theorem C10_tx_success_path {σ : Type} (env : Env σ)
    (fn : TxHandle → σ → Option GoError × List Call × σ) (s s1 s2 : σ) (tx : TxHandle)
    (calls : List Call)
    (hbegin : env.beginTx s = ((tx, none), s1))
    (hfn : fn tx s1 = (none, calls, s2)) :
    (Tx env fn s).1 = (env.commit tx s2).1 ∧
      (Tx env fn s).2.1 =
        Call.BeginTx tx none :: calls ++ [Call.Commit tx (env.commit tx s2).1] ∧
      (Tx env fn s).2.2 = (env.commit tx s2).2 ∧
      (Tx env fn s).2.1.countP Call.isCommit = calls.countP Call.isCommit + 1 ∧
      (Tx env fn s).2.1.countP Call.isRollback = calls.countP Call.isRollback := by
  have hrun := OrderService.Tx_of_fn_nil env fn s s1 s2 tx calls hbegin hfn
  rw [hrun]
  refine ⟨rfl, rfl, rfl, ?_, ?_⟩
  · simp [List.countP_cons, List.countP_append, Call.isCommit]
  · simp [List.countP_cons, List.countP_append, Call.isRollback]

theorem C10_tx_success_path_witness :
    ((Tx (OrderService.scriptEnv OrderService.testAllOK) (fun _ s => (none, [], s)) {}).1 = none ∧
        (Tx (OrderService.scriptEnv OrderService.testAllOK) (fun _ s => (none, [], s)) {}).2.1 =
          [Call.BeginTx 1 none, Call.Commit 1 none]) ∧
      ((Tx (OrderService.scriptEnv OrderService.testCommitFails)
          (fun _ s => (none, [], s)) {}).1 = some (.errorString "commit failed") ∧
        (Tx (OrderService.scriptEnv OrderService.testCommitFails)
          (fun _ s => (none, [], s)) {}).2.1 =
          [Call.BeginTx 1 none, Call.Commit 1 (some (.errorString "commit failed"))]) :=
  ⟨⟨(C10_tx_success_path (OrderService.scriptEnv OrderService.testAllOK) (fun _ s => (none, [], s)) {} {} {} 1 [] rfl rfl).1,
      (C10_tx_success_path (OrderService.scriptEnv OrderService.testAllOK) (fun _ s => (none, [], s)) {} {} {} 1 [] rfl rfl).2.1⟩,
    ⟨(C10_tx_success_path (OrderService.scriptEnv OrderService.testCommitFails)
        (fun _ s => (none, [], s)) {} {} {} 1 [] rfl rfl).1,
      (C10_tx_success_path (OrderService.scriptEnv OrderService.testCommitFails)
        (fun _ s => (none, [], s)) {} {} {} 1 [] rfl rfl).2.1⟩⟩

end Repository

/-! ## Claims about request validation -/

namespace RestV1

theorem validateItems_ok_iff (items : List OrderItemRequest) :
    (∃ out, validateItems items = .ok out) ↔ ∀ item ∈ items, itemChecksPass item := by
  induction items with
  | nil => simp [validateItems]
  | cons item rest ih =>
    unfold validateItems
    by_cases h1 : item.ProductID ≤ 0
    · simp only [h1, if_true]
      constructor
      · rintro ⟨out, h⟩
        simp at h
      · intro h
        have := (h item (List.mem_cons_self _ _)).1
        omega
    · by_cases h2 : item.Quantity ≤ 0
      · simp only [h1, h2, if_true, if_false]
        constructor
        · rintro ⟨out, h⟩
          simp at h
        · intro h
          have := (h item (List.mem_cons_self _ _)).2.1
          omega
      · by_cases h3 : (Float64.lt item.Discount Float64.zero
            || Float64.lt Float64.one item.Discount) = true
        · simp only [h1, h2, h3, if_true, if_false]
          constructor
          · rintro ⟨out, h⟩
            simp at h
          · intro h
            have h4 := (h item (List.mem_cons_self _ _)).2.2
            rw [h4.1, h4.2] at h3
            simp at h3
        · simp only [h1, h2, h3, if_false]
          have hpass : itemChecksPass item := by
            simp only [Bool.or_eq_true, not_or, Bool.not_eq_true] at h3
            exact ⟨by omega, by omega, h3.1, h3.2⟩
          cases hr : validateItems rest with
          | error e =>
            simp only
            constructor
            · rintro ⟨out, h⟩
              simp at h
            · intro h
              have := ih.2 (fun it hit => h it (List.mem_cons_of_mem _ hit))
              rw [hr] at this
              simp at this
          | ok out =>
            simp only
            constructor
            · intro _ it hit
              rcases List.mem_cons.1 hit with rfl | hit
              · exact hpass
              · exact (ih.1 (by rw [hr]; exact ⟨out, rfl⟩)) it hit
            · intro _
              exact ⟨_, rfl⟩

theorem validateItems_ok_eq (items : List OrderItemRequest)
    (out : List OrderService.OrderItemInput) (h : validateItems items = .ok out) :
    out = items.map (fun item =>
      { ProductID := item.ProductID
        Quantity := item.Quantity
        Discount := item.Discount
        Note := item.Note }) := by
  induction items generalizing out with
  | nil =>
    simp only [validateItems, Except.ok.injEq] at h
    rw [← h]
    rfl
  | cons item rest ih =>
    unfold validateItems at h
    split at h
    · simp at h
    · split at h
      · simp at h
      · split at h
        · simp at h
        · split at h
          · simp at h
          · rename_i items1 hr
            simp only [Except.ok.injEq] at h
            rw [← h, ih items1 hr]
            rfl

theorem validateItems_first_failure (pre post : List OrderItemRequest) (item : OrderItemRequest)
    (hpre : ∀ p ∈ pre, itemChecksPass p) :
    (item.ProductID ≤ 0 → validateItems (pre ++ item :: post) = .error ErrInvalidProductID) ∧
    (0 < item.ProductID → item.Quantity ≤ 0 →
      validateItems (pre ++ item :: post) = .error ErrInvalidQuantity) ∧
    (0 < item.ProductID → 0 < item.Quantity →
      (Float64.lt item.Discount Float64.zero = true ∨
        Float64.lt Float64.one item.Discount = true) →
      validateItems (pre ++ item :: post) = .error ErrInvalidDiscount) := by
  induction pre with
  | nil =>
    refine ⟨?_, ?_, ?_⟩
    · intro h
      simp [validateItems, h]
    · intro h1 h2
      have : ¬ item.ProductID ≤ 0 := by omega
      simp [validateItems, this, h2]
    · intro h1 h2 h3
      have h4 : ¬ item.ProductID ≤ 0 := by omega
      have h5 : ¬ item.Quantity ≤ 0 := by omega
      have h6 : (Float64.lt item.Discount Float64.zero
          || Float64.lt Float64.one item.Discount) = true := by
        simpa using h3
      simp only [List.nil_append, validateItems, h4, h5, h6, if_true, if_false]
  | cons p pre ih =>
    have hp := hpre p (List.mem_cons_self _ _)
    have ih1 := ih (fun q hq => hpre q (List.mem_cons_of_mem _ hq))
    have h4 : ¬ p.ProductID ≤ 0 := by have := hp.1; omega
    have h5 : ¬ p.Quantity ≤ 0 := by have := hp.2.1; omega
    have h6 : ¬ ((Float64.lt p.Discount Float64.zero
        || Float64.lt Float64.one p.Discount) = true) := by
      rw [hp.2.2.1, hp.2.2.2]
      simp
    have step : ∀ e, validateItems (pre ++ item :: post) = .error e →
        validateItems (p :: pre ++ item :: post) = .error e := by
      intro e he
      show validateItems (p :: (pre ++ item :: post)) = .error e
      unfold validateItems
      simp only [h4, h5, h6, if_false, he, Bool.false_eq_true]
    exact ⟨fun h => step _ (ih1.1 h), fun h1 h2 => step _ (ih1.2.1 h1 h2),
      fun h1 h2 h3 => step _ (ih1.2.2 h1 h2 h3)⟩

theorem not_nan_checks (d : Float64) (h : d.isNaN = false) :
    (Float64.lt d Float64.zero = false ∧ Float64.lt Float64.one d = false) ↔
      (Float64.le Float64.zero d = true ∧ Float64.le d Float64.one = true) := by
  have h0 : Float64.zero.isNaN = false := by decide
  have h1 : Float64.one.isNaN = false := by decide
  simp only [Float64.lt, Float64.le, h, h0, h1, Bool.not_false, Bool.true_and,
    decide_eq_false_iff_not, decide_eq_true_eq, not_lt]

/-- The function on a value that no JSON body carries: a request whose only item has
a NaN discount passes `validateOrderRequest`, since both comparisons of line 42 are
false for NaN. -/
theorem validateOrderRequest_nan_discount :
    (validateOrderRequest
        { UserID := 1, Items := [{ ProductID := 1, Quantity := 1, Discount := Float64.nan }] }).2
        = none ∧
      Float64.nan.isNaN = true ∧
      (Float64.le Float64.zero Float64.nan && Float64.le Float64.nan Float64.one) = false := by
  decide

/-- The checks of `validateOrderRequest` as written: it returns no error iff
`UserID > 0`, the item list is non-empty and every item passes the three checks of
lines 36-44; otherwise it returns the error of the first check that fails; on
success the output carries the fields of the request. -/
theorem validateOrderRequest_checks (r : OrderRequest) :
    ((validateOrderRequest r).2 = none ↔
      (0 < r.UserID ∧ r.Items ≠ [] ∧ ∀ item ∈ r.Items, itemChecksPass item)) ∧
    (∀ item ∈ r.Items, item.Discount.isNaN = false →
      (itemChecksPass item ↔
        (0 < item.ProductID ∧ 0 < item.Quantity ∧
          Float64.le Float64.zero item.Discount = true ∧
          Float64.le item.Discount Float64.one = true))) ∧
    (r.UserID ≤ 0 → (validateOrderRequest r).2 = some ErrInvalidUserID) ∧
    (0 < r.UserID → r.Items = [] → (validateOrderRequest r).2 = some ErrItemsCannotBeBlank) ∧
    (0 < r.UserID → ∀ pre item post, r.Items = pre ++ item :: post →
      (∀ p ∈ pre, itemChecksPass p) →
      (item.ProductID ≤ 0 → (validateOrderRequest r).2 = some ErrInvalidProductID) ∧
      (0 < item.ProductID → item.Quantity ≤ 0 →
        (validateOrderRequest r).2 = some ErrInvalidQuantity) ∧
      (0 < item.ProductID → 0 < item.Quantity →
        (Float64.lt item.Discount Float64.zero = true ∨
          Float64.lt Float64.one item.Discount = true) →
        (validateOrderRequest r).2 = some ErrInvalidDiscount)) ∧
    ((validateOrderRequest r).2 = none →
      (validateOrderRequest r).1 =
        { Note := r.Note
          UserID := r.UserID
          Items := r.Items.map (fun item =>
            { ProductID := item.ProductID
              ProductPrice := { bits := 0 }
              ProductName := ""
              Quantity := item.Quantity
              Discount := item.Discount
              Note := item.Note }) }) := by
  refine ⟨?_, ?_, ?_, ?_, ?_, ?_⟩
  · unfold validateOrderRequest
    by_cases h1 : r.UserID ≤ 0
    · simp only [h1, if_true]
      constructor
      · intro h
        simp at h
      · intro h
        omega
    · by_cases h2 : r.Items.length = 0
      · simp only [h1, h2, if_true, if_false]
        constructor
        · intro h
          simp at h
        · intro h
          exact absurd (List.length_eq_zero.1 h2) h.2.1
      · simp only [h1, h2, if_false]
        have h3 : r.Items ≠ [] := fun h => h2 (by rw [h]; rfl)
        cases hv : validateItems r.Items with
        | error e =>
          simp only
          constructor
          · intro h
            simp at h
          · intro h
            have := (validateItems_ok_iff r.Items).2 h.2.2
            rw [hv] at this
            simp at this
        | ok out =>
          simp only
          constructor
          · intro _
            exact ⟨by omega, h3, (validateItems_ok_iff r.Items).1 ⟨out, hv⟩⟩
          · intro _
            trivial
  · intro item _ hnan
    unfold itemChecksPass
    rw [not_nan_checks item.Discount hnan]
  · intro h
    simp [validateOrderRequest, h]
  · intro h1 h2
    have : ¬ r.UserID ≤ 0 := by omega
    simp [validateOrderRequest, this, h2]
  · intro h1 pre item post hitems hpre
    have h2 : ¬ r.UserID ≤ 0 := by omega
    have h3 : ¬ r.Items.length = 0 := by
      rw [hitems]
      simp
    have key : ∀ e, validateItems (pre ++ item :: post) = .error e →
        (validateOrderRequest r).2 = some e := by
      intro e he
      unfold validateOrderRequest
      simp only [h2, h3, if_false]
      rw [hitems, he]
    have hf := validateItems_first_failure pre post item hpre
    exact ⟨fun h => key _ (hf.1 h), fun h4 h5 => key _ (hf.2.1 h4 h5),
      fun h4 h5 h6 => key _ (hf.2.2 h4 h5 h6)⟩
  · intro h
    unfold validateOrderRequest at h ⊢
    split at h
    · simp at h
    · split at h
      · simp at h
      · rename_i h1 h2
        simp only [h1, h2, if_false]
        cases hv : validateItems r.Items with
        | error e =>
          rw [hv] at h
          simp at h
        | ok out =>
          simp only
          rw [validateItems_ok_eq r.Items out hv]

/-- The error of the loop over the items is one of the three item errors. -/
theorem validateItems_error (items : List OrderItemRequest) (e : GoError)
    (h : validateItems items = .error e) :
    e = ErrInvalidProductID ∨ e = ErrInvalidQuantity ∨ e = ErrInvalidDiscount := by
  induction items with
  | nil => simp [validateItems] at h
  | cons item rest ih =>
    unfold validateItems at h
    split at h
    · simp only [Except.error.injEq] at h
      exact Or.inl h.symm
    · split at h
      · simp only [Except.error.injEq] at h
        exact Or.inr (Or.inl h.symm)
      · split at h
        · simp only [Except.error.injEq] at h
          exact Or.inr (Or.inr h.symm)
        · split at h
          · rename_i err hr
            simp only [Except.error.injEq] at h
            subst h
            exact ih hr
          · simp at h

/-- C19: for a request as the handler passes it, decoded from a JSON body, so that no
`Discount` is NaN (a JSON number is a decimal numeral), `validateOrderRequest`
returns no error iff `UserID > 0`, the item list is non-empty and every item has
`ProductID > 0`, `Quantity > 0` and `0 ≤ Discount ≤ 1`. Otherwise it returns the
error of the first violated check: `ErrInvalidUserID`, then `ErrItemsCannotBeBlank`,
then for the first item that fails a check `ErrInvalidProductID`,
`ErrInvalidQuantity` or `ErrInvalidDiscount` in this order; it returns no other
error. On success the output has the same `Note` and `UserID` and one item per
request item, in order, with the same `ProductID`, `Quantity`, `Discount` and `Note`,
`ProductPrice` 0 and an empty `ProductName`. -/
theorem C19_validate_order_request (r : OrderRequest)
    (hjson : ∀ item ∈ r.Items, item.Discount.isNaN = false) :
    ((validateOrderRequest r).2 = none ↔
      (0 < r.UserID ∧ r.Items ≠ [] ∧
        ∀ item ∈ r.Items, 0 < item.ProductID ∧ 0 < item.Quantity ∧
          Float64.le Float64.zero item.Discount = true ∧
          Float64.le item.Discount Float64.one = true)) ∧
    (r.UserID ≤ 0 → (validateOrderRequest r).2 = some ErrInvalidUserID) ∧
    (0 < r.UserID → r.Items = [] → (validateOrderRequest r).2 = some ErrItemsCannotBeBlank) ∧
    (0 < r.UserID → ∀ pre item post, r.Items = pre ++ item :: post →
      (∀ p ∈ pre, 0 < p.ProductID ∧ 0 < p.Quantity ∧
        Float64.le Float64.zero p.Discount = true ∧
        Float64.le p.Discount Float64.one = true) →
      (item.ProductID ≤ 0 → (validateOrderRequest r).2 = some ErrInvalidProductID) ∧
      (0 < item.ProductID → item.Quantity ≤ 0 →
        (validateOrderRequest r).2 = some ErrInvalidQuantity) ∧
      (0 < item.ProductID → 0 < item.Quantity →
        ¬ (Float64.le Float64.zero item.Discount = true ∧
          Float64.le item.Discount Float64.one = true) →
        (validateOrderRequest r).2 = some ErrInvalidDiscount)) ∧
    (∀ e, (validateOrderRequest r).2 = some e →
      e = ErrInvalidUserID ∨ e = ErrItemsCannotBeBlank ∨ e = ErrInvalidProductID ∨
        e = ErrInvalidQuantity ∨ e = ErrInvalidDiscount) ∧
    ((validateOrderRequest r).2 = none →
      (validateOrderRequest r).1 =
        { Note := r.Note
          UserID := r.UserID
          Items := r.Items.map (fun item =>
            { ProductID := item.ProductID
              ProductPrice := { bits := 0 }
              ProductName := ""
              Quantity := item.Quantity
              Discount := item.Discount
              Note := item.Note }) }) := by
  have hold := validateOrderRequest_checks r
  have hpass : ∀ item ∈ r.Items, (itemChecksPass item ↔
      (0 < item.ProductID ∧ 0 < item.Quantity ∧
        Float64.le Float64.zero item.Discount = true ∧
        Float64.le item.Discount Float64.one = true)) :=
    fun item hi => hold.2.1 item hi (hjson item hi)
  refine ⟨?_, hold.2.2.1, hold.2.2.2.1, ?_, ?_, hold.2.2.2.2.2⟩
  · rw [hold.1]
    constructor
    · intro h
      exact ⟨h.1, h.2.1, fun item hi => (hpass item hi).1 (h.2.2 item hi)⟩
    · intro h
      exact ⟨h.1, h.2.1, fun item hi => (hpass item hi).2 (h.2.2 item hi)⟩
  · intro hu pre item post hitems hpre
    have hpre2 : ∀ p ∈ pre, itemChecksPass p := by
      intro p hp
      have hm : p ∈ r.Items := by
        rw [hitems]
        exact List.mem_append_left _ hp
      exact (hpass p hm).2 (hpre p hp)
    have h1 := hold.2.2.2.2.1 hu pre item post hitems hpre2
    refine ⟨h1.1, h1.2.1, ?_⟩
    intro h2 h3 h4
    refine h1.2.2 h2 h3 ?_
    have hm : item ∈ r.Items := by
      rw [hitems]
      simp
    have h5 := not_nan_checks item.Discount (hjson item hm)
    by_contra h6
    simp only [not_or, Bool.not_eq_true] at h6
    exact h4 (h5.1 h6)
  · intro e he
    unfold validateOrderRequest at he
    split at he
    · simp only [Option.some.injEq] at he
      exact Or.inl he.symm
    · split at he
      · simp only [Option.some.injEq] at he
        exact Or.inr (Or.inl he.symm)
      · split at he
        · rename_i err hv
          simp only [Option.some.injEq] at he
          rw [← he]
          exact Or.inr (Or.inr (validateItems_error _ _ hv))
        · simp at he

/-- C19 (witness): the request of note "n" for user 14 with an item of discount 1
and an item of discount 1.5 fails with `ErrInvalidDiscount`; with the discount 0.5
instead it passes, and the output carries the same fields. -/
theorem C19_validate_order_request_witness :
    (∀ item ∈ [({ ProductID := 3, Quantity := 2, Discount := Float64.one } : OrderItemRequest),
        { ProductID := 4, Quantity := 1, Discount := { bits := 0x3FF8000000000000 } }],
      item.Discount.isNaN = false) ∧
    (validateOrderRequest
        { Note := "n", UserID := 14
          Items := [{ ProductID := 3, Quantity := 2, Discount := Float64.one },
                    { ProductID := 4, Quantity := 1,
                      Discount := { bits := 0x3FF8000000000000 } }] }).2
      = some ErrInvalidDiscount ∧
    (validateOrderRequest
        { Note := "n", UserID := 14
          Items := [{ ProductID := 3, Quantity := 2, Discount := Float64.one },
                    { ProductID := 4, Quantity := 1,
                      Discount := { bits := 0x3FE0000000000000 }, Note := "half" }] }).2
      = none ∧
    (validateOrderRequest
        { Note := "n", UserID := 14
          Items := [{ ProductID := 3, Quantity := 2, Discount := Float64.one },
                    { ProductID := 4, Quantity := 1,
                      Discount := { bits := 0x3FE0000000000000 }, Note := "half" }] }).1
      = { Note := "n", UserID := 14
          Items := [{ ProductID := 3, Quantity := 2, Discount := Float64.one },
                    { ProductID := 4, Quantity := 1,
                      Discount := { bits := 0x3FE0000000000000 }, Note := "half" }] } :=
  ⟨by decide,
    ((C19_validate_order_request
      { Note := "n", UserID := 14
        Items := [{ ProductID := 3, Quantity := 2, Discount := Float64.one },
                  { ProductID := 4, Quantity := 1,
                    Discount := { bits := 0x3FF8000000000000 } }] } (by decide)).2.2.2.1
      (by decide) [{ ProductID := 3, Quantity := 2, Discount := Float64.one }]
      { ProductID := 4, Quantity := 1, Discount := { bits := 0x3FF8000000000000 } } [] rfl
      (by decide)).2.2 (by decide) (by decide) (by decide),
    (C19_validate_order_request
      { Note := "n", UserID := 14
        Items := [{ ProductID := 3, Quantity := 2, Discount := Float64.one },
                  { ProductID := 4, Quantity := 1,
                    Discount := { bits := 0x3FE0000000000000 }, Note := "half" }] }
      (by decide)).1.2 (by decide),
    by decide⟩

/-- C20: `validatePagination` returns `ErrInvalidPaginationPage` iff `Page < 0`;
otherwise it returns `ErrInvalidPaginationLimit` iff `Limit < 0` or `Limit > 1000`;
otherwise it succeeds with `Page` replaced by 1 when it is 0 and `Limit` replaced by
20 when it is 0, other values unchanged. Every successful result has `Page ≥ 1` and
`1 ≤ Limit ≤ 1000`. -/
theorem C20_validate_pagination (p : paginationInput) :
    ((validatePagination p).2 = some ErrInvalidPaginationPage ↔ p.Page < 0) ∧
    (0 ≤ p.Page →
      ((validatePagination p).2 = some ErrInvalidPaginationLimit ↔
        (p.Limit < 0 ∨ 1000 < p.Limit))) ∧
    (0 ≤ p.Page → 0 ≤ p.Limit → p.Limit ≤ 1000 →
      validatePagination p =
        ({ Page := if p.Page = 0 then 1 else p.Page
           Limit := if p.Limit = 0 then 20 else p.Limit }, none)) ∧
    ((validatePagination p).2 = none →
      1 ≤ (validatePagination p).1.Page ∧ 1 ≤ (validatePagination p).1.Limit ∧
        (validatePagination p).1.Limit ≤ 1000) := by
  have hne : ErrInvalidPaginationLimit ≠ ErrInvalidPaginationPage := by decide
  unfold validatePagination
  by_cases h1 : p.Page < 0
  · simp only [h1, if_true]
    refine ⟨by simp, fun h => by omega, fun h => by omega, fun h => by simp at h⟩
  · by_cases h2 : p.Limit < 0 ∨ p.Limit > MaxLimit
    · simp only [h1, h2, if_true, if_false]
      refine ⟨?_, fun _ => ?_, fun _ h3 h4 => ?_, fun h => by simp at h⟩
      · simp only [Option.some.injEq, iff_false]
        exact hne
      · simp only [true_iff]
        simpa [MaxLimit] using h2
      · simp only [MaxLimit] at h2
        omega
    · simp only [h1, h2, if_false]
      simp only [MaxLimit, not_or, not_lt, gt_iff_lt] at h2
      refine ⟨by simp, fun _ => ?_, fun _ _ _ => rfl, fun _ => ?_⟩
      · simp only [false_iff, reduceCtorEq, not_or, not_lt]
        omega
      · simp only [DefaultLimit]
        refine ⟨?_, ?_, ?_⟩
        · split <;> omega
        · split <;> omega
        · split <;> omega

/-- C20 (witness): page 0 with limit 1000 gives page 1 with limit 1000. -/
theorem C20_validate_pagination_witness :
    validatePagination { Page := 0, Limit := 1000 } = ({ Page := 1, Limit := 1000 }, none) :=
  (C20_validate_pagination { Page := 0, Limit := 1000 }).2.2.1 (by decide) (by decide)
    (by decide)

end RestV1

/-! ## Claims about the listing operations -/

/-- The three ways a repository listing can run: the count query fails; the count
query succeeds and the page-fetch query fails; both succeed. -/
theorem OrderRepo.GetOrders_shape {σ : Type} (env : QueryEnv σ) (input : OrderRepo.OrdersInput)
    (s : σ) :
    (∃ total e s1, env.ordersCount (OrderRepo.filterMods input) s = ((total, some e), s1) ∧
      OrderRepo.GetOrders env input s =
        (([], 0, some e),
          [QueryCall.Count "orders" (OrderRepo.filterMods input) total (some e)], s1)) ∨
    (∃ total s1 rows e s2,
      env.ordersCount (OrderRepo.filterMods input) s = ((total, none), s1) ∧
      env.ordersAll (OrderRepo.pagingMods input
        (OrderRepo.sortMods input (OrderRepo.filterMods input))) s1 = ((rows, some e), s2) ∧
      OrderRepo.GetOrders env input s =
        (([], 0, none),
          [QueryCall.Count "orders" (OrderRepo.filterMods input) total none,
            QueryCall.All "orders" (OrderRepo.pagingMods input
              (OrderRepo.sortMods input (OrderRepo.filterMods input))) rows.length (some e)],
          s2)) ∨
    (∃ total s1 rows s2,
      env.ordersCount (OrderRepo.filterMods input) s = ((total, none), s1) ∧
      env.ordersAll (OrderRepo.pagingMods input
        (OrderRepo.sortMods input (OrderRepo.filterMods input))) s1 = ((rows, none), s2) ∧
      OrderRepo.GetOrders env input s =
        ((rows.map OrderRepo.toOrder, total, none),
          [QueryCall.Count "orders" (OrderRepo.filterMods input) total none,
            QueryCall.All "orders" (OrderRepo.pagingMods input
              (OrderRepo.sortMods input (OrderRepo.filterMods input))) rows.length none],
          s2)) := by
  unfold OrderRepo.GetOrders
  split
  · rename_i total e s1 h1
    exact Or.inl ⟨total, e, s1, h1, rfl⟩
  · rename_i total s1 h1
    split
    · rename_i rows e s2 h2
      exact Or.inr (Or.inl ⟨total, s1, rows, e, s2, h1, h2, rfl⟩)
    · rename_i rows s2 h2
      exact Or.inr (Or.inr ⟨total, s1, rows, s2, h1, h2, rfl⟩)

theorem UserRepo.GetUsers_shape {σ : Type} (env : QueryEnv σ) (input : UserRepo.Filter)
    (s : σ) :
    (∃ total e s1, env.usersCount (UserRepo.filterMods input) s = ((total, some e), s1) ∧
      UserRepo.GetUsers env input s =
        (([], 0, some e),
          [QueryCall.Count "users" (UserRepo.filterMods input) total (some e)], s1)) ∨
    (∃ total s1 rows e s2,
      env.usersCount (UserRepo.filterMods input) s = ((total, none), s1) ∧
      env.usersAll (UserRepo.pagingMods input
        (UserRepo.sortMods input (UserRepo.filterMods input))) s1 = ((rows, some e), s2) ∧
      UserRepo.GetUsers env input s =
        (([], 0, some e),
          [QueryCall.Count "users" (UserRepo.filterMods input) total none,
            QueryCall.All "users" (UserRepo.pagingMods input
              (UserRepo.sortMods input (UserRepo.filterMods input))) rows.length (some e)],
          s2)) ∨
    (∃ total s1 rows s2,
      env.usersCount (UserRepo.filterMods input) s = ((total, none), s1) ∧
      env.usersAll (UserRepo.pagingMods input
        (UserRepo.sortMods input (UserRepo.filterMods input))) s1 = ((rows, none), s2) ∧
      UserRepo.GetUsers env input s =
        ((rows, total, none),
          [QueryCall.Count "users" (UserRepo.filterMods input) total none,
            QueryCall.All "users" (UserRepo.pagingMods input
              (UserRepo.sortMods input (UserRepo.filterMods input))) rows.length none],
          s2)) := by
  unfold UserRepo.GetUsers
  split
  · rename_i total e s1 h1
    exact Or.inl ⟨total, e, s1, h1, rfl⟩
  · rename_i total s1 h1
    split
    · rename_i rows e s2 h2
      exact Or.inr (Or.inl ⟨total, s1, rows, e, s2, h1, h2, rfl⟩)
    · rename_i rows s2 h2
      exact Or.inr (Or.inr ⟨total, s1, rows, s2, h1, h2, rfl⟩)

theorem ProductRepo.GetProducts_shape {σ : Type} (env : QueryEnv σ)
    (filter : ProductRepo.Filter) (s : σ) :
    (∃ total e s1, env.productsCount (ProductRepo.filterMods filter) s = ((total, some e), s1) ∧
      ProductRepo.GetProducts env filter s =
        (([], 0, some e),
          [QueryCall.Count "products" (ProductRepo.filterMods filter) total (some e)], s1)) ∨
    (∃ total s1 rows e s2,
      env.productsCount (ProductRepo.filterMods filter) s = ((total, none), s1) ∧
      env.productsAll (ProductRepo.pagingMods filter
        (ProductRepo.sortMods filter (ProductRepo.filterMods filter))) s1
          = ((rows, some e), s2) ∧
      ProductRepo.GetProducts env filter s =
        (([], 0, some e),
          [QueryCall.Count "products" (ProductRepo.filterMods filter) total none,
            QueryCall.All "products" (ProductRepo.pagingMods filter
              (ProductRepo.sortMods filter (ProductRepo.filterMods filter))) rows.length
              (some e)],
          s2)) ∨
    (∃ total s1 rows s2,
      env.productsCount (ProductRepo.filterMods filter) s = ((total, none), s1) ∧
      env.productsAll (ProductRepo.pagingMods filter
        (ProductRepo.sortMods filter (ProductRepo.filterMods filter))) s1
          = ((rows, none), s2) ∧
      ProductRepo.GetProducts env filter s =
        ((rows.map ProductRepo.toProductItem, total, none),
          [QueryCall.Count "products" (ProductRepo.filterMods filter) total none,
            QueryCall.All "products" (ProductRepo.pagingMods filter
              (ProductRepo.sortMods filter (ProductRepo.filterMods filter))) rows.length none],
          s2)) := by
  unfold ProductRepo.GetProducts
  split
  · rename_i total e s1 h1
    exact Or.inl ⟨total, e, s1, h1, rfl⟩
  · rename_i total s1 h1
    split
    · rename_i rows e s2 h2
      exact Or.inr (Or.inl ⟨total, s1, rows, e, s2, h1, h2, rfl⟩)
    · rename_i rows s2 h2
      exact Or.inr (Or.inr ⟨total, s1, rows, s2, h1, h2, rfl⟩)

/-- The filter conditions of an order listing do not depend on sort and pagination. -/
theorem OrderRepo.filterMods_filter_only_orders (input : OrderRepo.OrdersInput) :
    OrderRepo.filterMods input = OrderRepo.filterMods { Filter := input.Filter } := rfl

theorem UserRepo.filterMods_filter_only_users (input : UserRepo.Filter) :
    UserRepo.filterMods input
      = UserRepo.filterMods { input with Sort_ := {}, Pagination := {} } := rfl

theorem ProductRepo.filterMods_filter_only_products (filter : ProductRepo.Filter) :
    ProductRepo.filterMods filter
      = ProductRepo.filterMods { filter with OrderBy := {}, Pagination := {} } := rfl

theorem OrderRepo.filterMods_plain_orders (input : OrderRepo.OrdersInput) :
    ∀ m ∈ OrderRepo.filterMods input,
      m.isOrderBy = false ∧ m.isOffset = false ∧ m.isLimit = false := by
  intro m hm
  unfold OrderRepo.filterMods at hm
  simp only [List.mem_append, List.mem_singleton] at hm
  rcases hm with (((hm | hm) | hm) | hm) | hm
  · subst hm
    exact ⟨rfl, rfl, rfl⟩
  all_goals
    split at hm
    · rw [List.mem_singleton.1 hm]
      exact ⟨rfl, rfl, rfl⟩
    · cases hm

theorem UserRepo.filterMods_plain_users (input : UserRepo.Filter) :
    ∀ m ∈ UserRepo.filterMods input,
      m.isOrderBy = false ∧ m.isOffset = false ∧ m.isLimit = false := by
  intro m hm
  unfold UserRepo.filterMods at hm
  simp only [List.mem_append] at hm
  rcases hm with (((hm | hm) | hm) | hm) | hm
  all_goals
    split at hm
    · rw [List.mem_singleton.1 hm]
      exact ⟨rfl, rfl, rfl⟩
    · cases hm

theorem ProductRepo.filterMods_plain_products (filter : ProductRepo.Filter) :
    ∀ m ∈ ProductRepo.filterMods filter,
      m.isOrderBy = false ∧ m.isOffset = false ∧ m.isLimit = false := by
  intro m hm
  unfold ProductRepo.filterMods at hm
  simp only [List.mem_append] at hm
  rcases hm with (((hm | hm) | hm) | hm) | hm
  all_goals
    split at hm
    · simp only [List.mem_cons, List.mem_singleton, List.not_mem_nil, or_false] at hm
      rcases hm with rfl | rfl <;> exact ⟨rfl, rfl, rfl⟩
    · cases hm

/-- A run of `GetOrders` whose count query succeeds: the count query and then the
page-fetch query, on what the environment answered. -/
theorem OrderRepo.GetOrders_calls_of_count {σ : Type} (env : QueryEnv σ)
    (input : OrderRepo.OrdersInput) (s : σ) (total : Int) (s1 : σ)
    (h : env.ordersCount (OrderRepo.filterMods input) s = ((total, none), s1)) :
    (OrderRepo.GetOrders env input s).2.1 =
      [QueryCall.Count "orders" (OrderRepo.filterMods input) total none,
        QueryCall.All "orders"
          (OrderRepo.pagingMods input (OrderRepo.sortMods input (OrderRepo.filterMods input)))
          (env.ordersAll (OrderRepo.pagingMods input
            (OrderRepo.sortMods input (OrderRepo.filterMods input))) s1).1.1.length
          (env.ordersAll (OrderRepo.pagingMods input
            (OrderRepo.sortMods input (OrderRepo.filterMods input))) s1).1.2] := by
  rcases OrderRepo.GetOrders_shape env input s with
    ⟨t, e, s2, h1, hs⟩ | ⟨t, s2, rows, e, s3, h1, h2, hs⟩ | ⟨t, s2, rows, s3, h1, h2, hs⟩
  · rw [h] at h1
    cases h1
  · rw [h] at h1
    cases h1
    rw [hs, h2]
  · rw [h] at h1
    cases h1
    rw [hs, h2]

/-- A run of `GetUsers` whose count query succeeds: the count query and then the
page-fetch query, on what the environment answered. -/
theorem UserRepo.GetUsers_calls_of_count {σ : Type} (env : QueryEnv σ)
    (input : UserRepo.Filter) (s : σ) (total : Int) (s1 : σ)
    (h : env.usersCount (UserRepo.filterMods input) s = ((total, none), s1)) :
    (UserRepo.GetUsers env input s).2.1 =
      [QueryCall.Count "users" (UserRepo.filterMods input) total none,
        QueryCall.All "users"
          (UserRepo.pagingMods input (UserRepo.sortMods input (UserRepo.filterMods input)))
          (env.usersAll (UserRepo.pagingMods input
            (UserRepo.sortMods input (UserRepo.filterMods input))) s1).1.1.length
          (env.usersAll (UserRepo.pagingMods input
            (UserRepo.sortMods input (UserRepo.filterMods input))) s1).1.2] := by
  rcases UserRepo.GetUsers_shape env input s with
    ⟨t, e, s2, h1, hs⟩ | ⟨t, s2, rows, e, s3, h1, h2, hs⟩ | ⟨t, s2, rows, s3, h1, h2, hs⟩
  · rw [h] at h1
    cases h1
  · rw [h] at h1
    cases h1
    rw [hs, h2]
  · rw [h] at h1
    cases h1
    rw [hs, h2]

/-- A run of `GetProducts` whose count query succeeds: the count query and then the
page-fetch query, on what the environment answered. -/
theorem ProductRepo.GetProducts_calls_of_count {σ : Type} (env : QueryEnv σ)
    (filter : ProductRepo.Filter) (s : σ) (total : Int) (s1 : σ)
    (h : env.productsCount (ProductRepo.filterMods filter) s = ((total, none), s1)) :
    (ProductRepo.GetProducts env filter s).2.1 =
      [QueryCall.Count "products" (ProductRepo.filterMods filter) total none,
        QueryCall.All "products"
          (ProductRepo.pagingMods filter
            (ProductRepo.sortMods filter (ProductRepo.filterMods filter)))
          (env.productsAll (ProductRepo.pagingMods filter
            (ProductRepo.sortMods filter (ProductRepo.filterMods filter))) s1).1.1.length
          (env.productsAll (ProductRepo.pagingMods filter
            (ProductRepo.sortMods filter (ProductRepo.filterMods filter))) s1).1.2] := by
  rcases ProductRepo.GetProducts_shape env filter s with
    ⟨t, e, s2, h1, hs⟩ | ⟨t, s2, rows, e, s3, h1, h2, hs⟩ | ⟨t, s2, rows, s3, h1, h2, hs⟩
  · rw [h] at h1
    cases h1
  · rw [h] at h1
    cases h1
    rw [hs, h2]
  · rw [h] at h1
    cases h1
    rw [hs, h2]

/-- C11: each listing operation runs the count query first, on the query mods built
from the filter alone (they are the same for every sort and pagination, and none of
them is a sort, offset or limit clause). When the count query fails, its error is
returned. When both queries succeed, the `totalCount` returned is the answer of the
count query, whatever the number of rows of the returned page. When the count query
succeeds and the page-fetch query fails, `GetUsers` and `GetProducts` return the
error, and `GetOrders` returns an empty list, `totalCount` 0 and a nil error: a
success whose `totalCount` is not the answer of the count query. -/
theorem C11_total_count {σ : Type} (env : QueryEnv σ) (s : σ) :
    (∀ input : OrderRepo.OrdersInput,
      (∀ m ∈ OrderRepo.filterMods { Filter := input.Filter },
        m.isOrderBy = false ∧ m.isOffset = false ∧ m.isLimit = false) ∧
      ∃ total cerr rest,
        (env.ordersCount (OrderRepo.filterMods { Filter := input.Filter }) s).1
          = (total, cerr) ∧
        (OrderRepo.GetOrders env input s).2.1 =
          QueryCall.Count "orders" (OrderRepo.filterMods { Filter := input.Filter })
            total cerr :: rest ∧
        (∀ e, cerr = some e →
          (OrderRepo.GetOrders env input s).1 = ([], 0, some e) ∧ rest = []) ∧
        (cerr = none → ∃ mods rows ferr,
          rest = [QueryCall.All "orders" mods rows ferr] ∧
          (ferr = none →
            (OrderRepo.GetOrders env input s).1.2 = (total, none) ∧
              (OrderRepo.GetOrders env input s).1.1.length = rows) ∧
          (∀ e, ferr = some e → (OrderRepo.GetOrders env input s).1 = ([], 0, none)))) ∧
    (∀ input : UserRepo.Filter,
      (∀ m ∈ UserRepo.filterMods { input with Sort_ := {}, Pagination := {} },
        m.isOrderBy = false ∧ m.isOffset = false ∧ m.isLimit = false) ∧
      ∃ total cerr rest,
        (env.usersCount (UserRepo.filterMods { input with Sort_ := {}, Pagination := {} }) s).1
          = (total, cerr) ∧
        (UserRepo.GetUsers env input s).2.1 =
          QueryCall.Count "users"
            (UserRepo.filterMods { input with Sort_ := {}, Pagination := {} })
            total cerr :: rest ∧
        (∀ e, cerr = some e →
          (UserRepo.GetUsers env input s).1 = ([], 0, some e) ∧ rest = []) ∧
        (cerr = none → ∃ mods rows ferr,
          rest = [QueryCall.All "users" mods rows ferr] ∧
          (ferr = none →
            (UserRepo.GetUsers env input s).1.2 = (total, none) ∧
              (UserRepo.GetUsers env input s).1.1.length = rows) ∧
          (∀ e, ferr = some e → (UserRepo.GetUsers env input s).1 = ([], 0, some e)))) ∧
    (∀ filter : ProductRepo.Filter,
      (∀ m ∈ ProductRepo.filterMods { filter with OrderBy := {}, Pagination := {} },
        m.isOrderBy = false ∧ m.isOffset = false ∧ m.isLimit = false) ∧
      ∃ total cerr rest,
        (env.productsCount
            (ProductRepo.filterMods { filter with OrderBy := {}, Pagination := {} }) s).1
          = (total, cerr) ∧
        (ProductRepo.GetProducts env filter s).2.1 =
          QueryCall.Count "products"
            (ProductRepo.filterMods { filter with OrderBy := {}, Pagination := {} })
            total cerr :: rest ∧
        (∀ e, cerr = some e →
          (ProductRepo.GetProducts env filter s).1 = ([], 0, some e) ∧ rest = []) ∧
        (cerr = none → ∃ mods rows ferr,
          rest = [QueryCall.All "products" mods rows ferr] ∧
          (ferr = none →
            (ProductRepo.GetProducts env filter s).1.2 = (total, none) ∧
              (ProductRepo.GetProducts env filter s).1.1.length = rows) ∧
          (∀ e, ferr = some e →
            (ProductRepo.GetProducts env filter s).1 = ([], 0, some e)))) := by
  refine ⟨?_, ?_, ?_⟩
  · intro input
    rw [← OrderRepo.filterMods_filter_only_orders input]
    refine ⟨OrderRepo.filterMods_plain_orders input, ?_⟩
    rcases OrderRepo.GetOrders_shape env input s with
      ⟨total, e, s1, h1, h⟩ | ⟨total, s1, rows, e, s2, h1, h2, h⟩ | ⟨total, s1, rows, s2, h1, h2, h⟩
    · refine ⟨total, some e, [], by rw [h1], by rw [h], ?_, fun h0 => by cases h0⟩
      intro e1 he
      cases he
      exact ⟨by rw [h], rfl⟩
    · refine ⟨total, none, _, by rw [h1], by rw [h], (fun e1 he => by cases he), fun _ => ?_⟩
      refine ⟨_, _, _, rfl, (fun h0 => by cases h0), fun e1 _ => by rw [h]⟩
    · refine ⟨total, none, _, by rw [h1], by rw [h], (fun e1 he => by cases he), fun _ => ?_⟩
      refine ⟨_, _, _, rfl, fun _ => ?_, fun e1 he => by cases he⟩
      rw [h]
      exact ⟨rfl, List.length_map _ _⟩
  · intro input
    rw [← UserRepo.filterMods_filter_only_users input]
    refine ⟨UserRepo.filterMods_plain_users input, ?_⟩
    rcases UserRepo.GetUsers_shape env input s with
      ⟨total, e, s1, h1, h⟩ | ⟨total, s1, rows, e, s2, h1, h2, h⟩ | ⟨total, s1, rows, s2, h1, h2, h⟩
    · refine ⟨total, some e, [], by rw [h1], by rw [h], ?_, fun h0 => by cases h0⟩
      intro e1 he
      cases he
      exact ⟨by rw [h], rfl⟩
    · refine ⟨total, none, _, by rw [h1], by rw [h], (fun e1 he => by cases he), fun _ => ?_⟩
      refine ⟨_, _, _, rfl, (fun h0 => by cases h0), fun e1 he => ?_⟩
      cases he
      rw [h]
    · refine ⟨total, none, _, by rw [h1], by rw [h], (fun e1 he => by cases he), fun _ => ?_⟩
      refine ⟨_, _, _, rfl, fun _ => ?_, fun e1 he => by cases he⟩
      rw [h]
      exact ⟨rfl, rfl⟩
  · intro filter
    rw [← ProductRepo.filterMods_filter_only_products filter]
    refine ⟨ProductRepo.filterMods_plain_products filter, ?_⟩
    rcases ProductRepo.GetProducts_shape env filter s with
      ⟨total, e, s1, h1, h⟩ | ⟨total, s1, rows, e, s2, h1, h2, h⟩ | ⟨total, s1, rows, s2, h1, h2, h⟩
    · refine ⟨total, some e, [], by rw [h1], by rw [h], ?_, fun h0 => by cases h0⟩
      intro e1 he
      cases he
      exact ⟨by rw [h], rfl⟩
    · refine ⟨total, none, _, by rw [h1], by rw [h], (fun e1 he => by cases he), fun _ => ?_⟩
      refine ⟨_, _, _, rfl, (fun h0 => by cases h0), fun e1 he => ?_⟩
      cases he
      rw [h]
    · refine ⟨total, none, _, by rw [h1], by rw [h], (fun e1 he => by cases he), fun _ => ?_⟩
      refine ⟨_, _, _, rfl, fun _ => ?_, fun e1 he => by cases he⟩
      rw [h]
      exact ⟨rfl, List.length_map _ _⟩

/-- C11 (witness): page 100 of the three orders is empty and the total count is 3;
when the page-fetch query fails, the count query answers 3 and `GetOrders` returns a
nil error with total count 0, while `GetUsers` returns the error. -/
theorem C11_total_count_witness :
    (OrderRepo.GetOrders (tableEnv threeOrders)
        { Pagination := { Limit := 10, Page := 100 } } ()).1 = ([], 3, none) ∧
    ((tableEnv threeOrdersFetchFails).ordersCount (OrderRepo.filterMods {}) ()).1
        = (3, none) ∧
    (OrderRepo.GetOrders (tableEnv threeOrdersFetchFails) {} ()).1 = ([], 0, none) ∧
    (UserRepo.GetUsers (tableEnv threeOrdersFetchFails) {} ()).1
        = ([], 0, some (GoError.errorString "connection refused")) ∧
    (∀ m ∈ OrderRepo.filterMods { Filter := {} },
      m.isOrderBy = false ∧ m.isOffset = false ∧ m.isLimit = false) :=
  ⟨by decide, by decide, by decide, by decide,
    ((C11_total_count (tableEnv threeOrdersFetchFails) ()).1 {}).1⟩

theorem OrderRepo.fetch_conditions (input : OrderRepo.OrdersInput) (qms : List QueryMod) :
    (OrderRepo.pagingMods input (OrderRepo.sortMods input qms)).filter QueryMod.isWhere
      = qms.filter QueryMod.isWhere := by
  unfold OrderRepo.pagingMods OrderRepo.sortMods
  split <;> split <;> (try split) <;> (try split) <;>
    simp [List.filter_append, QueryMod.isWhere]

/-- Every query that `GetOrders` runs carries the mods of `filterMods`. -/
theorem OrderRepo.GetOrders_queries {σ : Type} (env : QueryEnv σ)
    (input : OrderRepo.OrdersInput) (s : σ) :
    ∀ c ∈ (OrderRepo.GetOrders env input s).2.1,
      c.mods.filter QueryMod.isWhere = (OrderRepo.filterMods input).filter QueryMod.isWhere := by
  intro c hc
  rcases OrderRepo.GetOrders_shape env input s with
    ⟨total, e, s1, h1, h⟩ | ⟨total, s1, rows, e, s2, h1, h2, h⟩ | ⟨total, s1, rows, s2, h1, h2, h⟩
  · rw [h] at hc
    rw [List.mem_singleton.1 hc]
    rfl
  all_goals
    rw [h] at hc
    rcases List.mem_cons.1 hc with rfl | hc
    · rfl
    · rw [List.mem_singleton.1 hc]
      exact OrderRepo.fetch_conditions input _

theorem OrderRepo.mem_filterMods (input : OrderRepo.OrdersInput) (m : QueryMod) :
    m ∈ OrderRepo.filterMods input ↔
      (m = QueryMod.Load Model.OrderRels.OrderItems ∨
        (0 < input.Filter.ID ∧
          m = QueryMod.WhereOp Model.OrderWhere.ID Operator.EQ (SQLValue.int input.Filter.ID)) ∨
        (input.Filter.OrderNumber ≠ "" ∧
          m = QueryMod.WhereOp Model.OrderWhere.OrderNumber Operator.EQ
            (SQLValue.string input.Filter.OrderNumber)) ∨
        (0 < input.Filter.UserID ∧
          m = QueryMod.WhereOp Model.OrderWhere.UserID Operator.EQ
            (SQLValue.int input.Filter.UserID)) ∨
        (input.Filter.Status ≠ "" ∧
          m = QueryMod.WhereOp Model.OrderWhere.Status Operator.EQ
            (SQLValue.string input.Filter.Status))) := by
  unfold OrderRepo.filterMods whereHelperint_EQ whereHelperstring_EQ
  simp only [List.mem_append, List.mem_singleton, gt_iff_lt]
  constructor
  · rintro ((((h | h) | h) | h) | h)
    · exact Or.inl h
    · split at h
      · exact Or.inr (Or.inl ⟨by assumption, List.mem_singleton.1 h⟩)
      · cases h
    · split at h
      · exact Or.inr (Or.inr (Or.inl ⟨by assumption, List.mem_singleton.1 h⟩))
      · cases h
    · split at h
      · exact Or.inr (Or.inr (Or.inr (Or.inl ⟨by assumption, List.mem_singleton.1 h⟩)))
      · cases h
    · split at h
      · exact Or.inr (Or.inr (Or.inr (Or.inr ⟨by assumption, List.mem_singleton.1 h⟩)))
      · cases h
  · rintro (h | ⟨h1, h⟩ | ⟨h1, h⟩ | ⟨h1, h⟩ | ⟨h1, h⟩)
    · exact Or.inl (Or.inl (Or.inl (Or.inl h)))
    · refine Or.inl (Or.inl (Or.inl (Or.inr ?_)))
      rw [if_pos h1, h]
      exact List.mem_singleton.2 rfl
    · refine Or.inl (Or.inl (Or.inr ?_))
      rw [if_pos h1, h]
      exact List.mem_singleton.2 rfl
    · refine Or.inl (Or.inr ?_)
      rw [if_pos h1, h]
      exact List.mem_singleton.2 rfl
    · refine Or.inr ?_
      rw [if_pos h1, h]
      exact List.mem_singleton.2 rfl

/-- C12: every query that repository `GetOrders` runs (the count query and the
page-fetch query) carries the same filter conditions, and a condition is among them
iff it is the equality on the order ID and `Filter.ID > 0`, or the equality on the
order number and `Filter.OrderNumber` is non-empty, or the equality on the user ID
and `Filter.UserID > 0`, or the equality on the status and `Filter.Status` is
non-empty. A field at its zero or empty value adds no condition on its column, and a
filter with every field at its zero value adds no condition at all. -/
theorem C12_order_filter {σ : Type} (env : QueryEnv σ) (input : OrderRepo.OrdersInput) (s : σ) :
    (∀ c ∈ (OrderRepo.GetOrders env input s).2.1, ∀ m,
      (m ∈ c.mods ∧ m.isWhere = true) ↔
        ((0 < input.Filter.ID ∧
            m = QueryMod.WhereOp Model.OrderWhere.ID Operator.EQ
              (SQLValue.int input.Filter.ID)) ∨
          (input.Filter.OrderNumber ≠ "" ∧
            m = QueryMod.WhereOp Model.OrderWhere.OrderNumber Operator.EQ
              (SQLValue.string input.Filter.OrderNumber)) ∨
          (0 < input.Filter.UserID ∧
            m = QueryMod.WhereOp Model.OrderWhere.UserID Operator.EQ
              (SQLValue.int input.Filter.UserID)) ∨
          (input.Filter.Status ≠ "" ∧
            m = QueryMod.WhereOp Model.OrderWhere.Status Operator.EQ
              (SQLValue.string input.Filter.Status)))) ∧
    (∃ c, (OrderRepo.GetOrders env input s).2.1.head? = some c ∧ c.isCount = true) ∧
    (input.Filter = {} →
      ∀ c ∈ (OrderRepo.GetOrders env input s).2.1, ∀ m ∈ c.mods, m.isWhere = false) := by
  have key : ∀ c ∈ (OrderRepo.GetOrders env input s).2.1, ∀ m,
      (m ∈ c.mods ∧ m.isWhere = true) ↔ (m ∈ OrderRepo.filterMods input ∧ m.isWhere = true) := by
    intro c hc m
    have h := OrderRepo.GetOrders_queries env input s c hc
    have h1 : m ∈ c.mods.filter QueryMod.isWhere
        ↔ m ∈ (OrderRepo.filterMods input).filter QueryMod.isWhere := by rw [h]
    simpa [List.mem_filter] using h1
  refine ⟨?_, ?_, ?_⟩
  · intro c hc m
    rw [key c hc m, OrderRepo.mem_filterMods]
    constructor
    · rintro ⟨h | h | h | h | h, hw⟩
      · rw [h] at hw
        cases hw
      · exact Or.inl h
      · exact Or.inr (Or.inl h)
      · exact Or.inr (Or.inr (Or.inl h))
      · exact Or.inr (Or.inr (Or.inr h))
    · rintro (h | h | h | h)
      · exact ⟨Or.inr (Or.inl h), by rw [h.2]; rfl⟩
      · exact ⟨Or.inr (Or.inr (Or.inl h)), by rw [h.2]; rfl⟩
      · exact ⟨Or.inr (Or.inr (Or.inr (Or.inl h))), by rw [h.2]; rfl⟩
      · exact ⟨Or.inr (Or.inr (Or.inr (Or.inr h))), by rw [h.2]; rfl⟩
  · rcases OrderRepo.GetOrders_shape env input s with
      ⟨total, e, s1, h1, h⟩ | ⟨total, s1, rows, e, s2, h1, h2, h⟩ | ⟨total, s1, rows, s2, h1, h2, h⟩
    all_goals
      rw [h]
      exact ⟨_, rfl, rfl⟩
  · intro hf c hc m hm
    cases hw : m.isWhere with
    | false => rfl
    | true =>
      have h := ((key c hc m).1 ⟨hm, hw⟩).1
      rw [OrderRepo.mem_filterMods, hf] at h
      rcases h with h | ⟨h1, _⟩ | ⟨h1, _⟩ | ⟨h1, _⟩ | ⟨h1, _⟩
      · rw [h] at hw
        cases hw
      · exact absurd h1 (by decide)
      · exact absurd rfl h1
      · exact absurd h1 (by decide)
      · exact absurd rfl h1

/-- C12 (witness): the queries for the orders of user 10 with status NEW carry these
two conditions and no other. -/
theorem C12_order_filter_witness :
    (∀ c ∈ (OrderRepo.GetOrders (tableEnv threeOrders)
        { Filter := { Status := "NEW", UserID := 10 } } ()).2.1,
      c.mods.filter QueryMod.isWhere =
        [QueryMod.WhereOp "\"orders\".\"user_id\"" Operator.EQ (SQLValue.int 10),
          QueryMod.WhereOp "\"orders\".\"status\"" Operator.EQ (SQLValue.string "NEW")]) ∧
      ∀ c ∈ (OrderRepo.GetOrders (tableEnv threeOrders) {} ()).2.1, ∀ m ∈ c.mods,
        m.isWhere = false :=
  ⟨by decide, (C12_order_filter (tableEnv threeOrders) {} ()).2.2 rfl⟩

theorem wrapInt64_of_isInt64 (x : Int) (h : isInt64 x) : wrapInt64 x = x := by
  unfold isInt64 at h
  unfold wrapInt64
  omega

theorem intMul_intSub_exact (n p : Int) (h1 : isInt64 (p - 1)) (h2 : isInt64 (n * (p - 1))) :
    intMul n (intSub p 1) = n * (p - 1) := by
  unfold intMul intSub
  rw [wrapInt64_of_isInt64 _ h1, wrapInt64_of_isInt64 _ h2]

theorem OrderRepo.sortMods_plain_orders (input : OrderRepo.OrdersInput) (qms : List QueryMod)
    (hq : ∀ m ∈ qms, m.isOffset = false ∧ m.isLimit = false) :
    ∀ m ∈ OrderRepo.sortMods input qms, m.isOffset = false ∧ m.isLimit = false := by
  intro m hm
  unfold OrderRepo.sortMods at hm
  split at hm
  · simp only [List.mem_append] at hm
    rcases hm with (hm | hm) | hm
    · exact hq m hm
    all_goals
      split at hm
      · rw [List.mem_singleton.1 hm]
        exact ⟨rfl, rfl⟩
      · cases hm
  · rcases List.mem_append.1 hm with hm | hm
    · exact hq m hm
    · rw [List.mem_singleton.1 hm]
      exact ⟨rfl, rfl⟩

theorem UserRepo.sortMods_plain_users (input : UserRepo.Filter) (qms : List QueryMod)
    (hq : ∀ m ∈ qms, m.isOffset = false ∧ m.isLimit = false) :
    ∀ m ∈ UserRepo.sortMods input qms, m.isOffset = false ∧ m.isLimit = false := by
  intro m hm
  unfold UserRepo.sortMods at hm
  split at hm
  · simp only [List.mem_append] at hm
    rcases hm with ((hm | hm) | hm) | hm
    · exact hq m hm
    all_goals
      split at hm
      · rw [List.mem_singleton.1 hm]
        exact ⟨rfl, rfl⟩
      · cases hm
  · rcases List.mem_append.1 hm with hm | hm
    · exact hq m hm
    · rw [List.mem_singleton.1 hm]
      exact ⟨rfl, rfl⟩

theorem ProductRepo.sortMods_plain_products (filter : ProductRepo.Filter) (qms : List QueryMod)
    (hq : ∀ m ∈ qms, m.isOffset = false ∧ m.isLimit = false) :
    ∀ m ∈ ProductRepo.sortMods filter qms, m.isOffset = false ∧ m.isLimit = false := by
  intro m hm
  unfold ProductRepo.sortMods at hm
  rcases List.mem_append.1 hm with hm | hm
  · split at hm
    · simp only [List.mem_append] at hm
      rcases hm with (((hm | hm) | hm) | hm) | hm
      · exact hq m hm
      all_goals
        split at hm
        · rw [List.mem_singleton.1 hm]
          exact ⟨rfl, rfl⟩
        · cases hm
    · rcases List.mem_append.1 hm with hm | hm
      · exact hq m hm
      · rw [List.mem_singleton.1 hm]
        exact ⟨rfl, rfl⟩
  · rw [List.mem_singleton.1 hm]
    exact ⟨rfl, rfl⟩

/-- The page-fetch query of a run of `GetOrders`. -/
theorem OrderRepo.GetOrders_fetch {σ : Type} (env : QueryEnv σ) (input : OrderRepo.OrdersInput)
    (s : σ) (table : String) (mods : List QueryMod) (rows : Nat) (err : Option GoError)
    (h : QueryCall.All table mods rows err ∈ (OrderRepo.GetOrders env input s).2.1) :
    mods = OrderRepo.pagingMods input (OrderRepo.sortMods input (OrderRepo.filterMods input)) := by
  rcases OrderRepo.GetOrders_shape env input s with
    ⟨total, e, s1, h1, hs⟩ | ⟨total, s1, rs, e, s2, h1, h2, hs⟩ | ⟨total, s1, rs, s2, h1, h2, hs⟩
  all_goals
    rw [hs] at h
    simp only [List.mem_cons, List.mem_singleton, List.not_mem_nil, or_false, reduceCtorEq,
      false_or, QueryCall.All.injEq] at h
  all_goals exact h.2.1

theorem UserRepo.GetUsers_fetch {σ : Type} (env : QueryEnv σ) (input : UserRepo.Filter)
    (s : σ) (table : String) (mods : List QueryMod) (rows : Nat) (err : Option GoError)
    (h : QueryCall.All table mods rows err ∈ (UserRepo.GetUsers env input s).2.1) :
    mods = UserRepo.pagingMods input (UserRepo.sortMods input (UserRepo.filterMods input)) := by
  rcases UserRepo.GetUsers_shape env input s with
    ⟨total, e, s1, h1, hs⟩ | ⟨total, s1, rs, e, s2, h1, h2, hs⟩ | ⟨total, s1, rs, s2, h1, h2, hs⟩
  all_goals
    rw [hs] at h
    simp only [List.mem_cons, List.mem_singleton, List.not_mem_nil, or_false, reduceCtorEq,
      false_or, QueryCall.All.injEq] at h
  all_goals exact h.2.1

theorem ProductRepo.GetProducts_fetch {σ : Type} (env : QueryEnv σ)
    (filter : ProductRepo.Filter) (s : σ) (table : String) (mods : List QueryMod) (rows : Nat)
    (err : Option GoError)
    (h : QueryCall.All table mods rows err ∈ (ProductRepo.GetProducts env filter s).2.1) :
    mods = ProductRepo.pagingMods filter
      (ProductRepo.sortMods filter (ProductRepo.filterMods filter)) := by
  rcases ProductRepo.GetProducts_shape env filter s with
    ⟨total, e, s1, h1, hs⟩ | ⟨total, s1, rs, e, s2, h1, h2, hs⟩ | ⟨total, s1, rs, s2, h1, h2, hs⟩
  all_goals
    rw [hs] at h
    simp only [List.mem_cons, List.mem_singleton, List.not_mem_nil, or_false, reduceCtorEq,
      false_or, QueryCall.All.injEq] at h
  all_goals exact h.2.1

/-- C13 (counterexample): for page 9223372036854775807 with page size 1000, which
`validatePagination` accepts, the offset clause of the order listing is -2000 and not
1000 × (9223372036854775807 − 1). -/
theorem C13_counterexample :
    (RestV1.validatePagination { Page := 9223372036854775807, Limit := 1000 })
        = ({ Page := 9223372036854775807, Limit := 1000 }, none) ∧
      (OrderRepo.GetOrders (tableEnv threeOrders)
          { Pagination := { Limit := 1000, Page := 9223372036854775807 } } ()).2.1 =
        [QueryCall.Count "orders" [QueryMod.Load "OrderItems"] 3 none,
          QueryCall.All "orders"
            [QueryMod.Load "OrderItems", QueryMod.OrderBy "updated_at desc",
              QueryMod.Offset (-2000), QueryMod.Limit 1000] 3 none] ∧
      (-2000 : Int) ≠ 1000 * (9223372036854775807 - 1) := by
  decide

/-- C13 (amended): whenever a listing operation applies pagination for page `p` and
page size `n` (`GetOrders` when both are positive, `GetUsers` and `GetProducts` when
the pagination is not the zero value), its page-fetch query ends with the offset
clause `n × (p − 1)` computed in 64-bit `int` arithmetic and then the limit clause
`n`; no clause before them is an offset or limit clause, so every sort clause comes
before them. The offset is exactly `n × (p − 1)` whenever `p − 1` and `n × (p − 1)`
fit in 64 bits. -/
theorem C13_paging {σ : Type} (env : QueryEnv σ) (s : σ) :
    (∀ (input : OrderRepo.OrdersInput) (table : String) (mods : List QueryMod) (rows : Nat)
        (err : Option GoError),
      QueryCall.All table mods rows err ∈ (OrderRepo.GetOrders env input s).2.1 →
      0 < input.Pagination.Limit → 0 < input.Pagination.Page →
      ∃ pre, mods = pre ++
          [QueryMod.Offset (intMul input.Pagination.Limit (intSub input.Pagination.Page 1)),
            QueryMod.Limit input.Pagination.Limit] ∧
        ∀ m ∈ pre, m.isOffset = false ∧ m.isLimit = false) ∧
    (∀ (input : UserRepo.Filter) (table : String) (mods : List QueryMod) (rows : Nat)
        (err : Option GoError),
      QueryCall.All table mods rows err ∈ (UserRepo.GetUsers env input s).2.1 →
      input.Pagination ≠ {} →
      ∃ pre, mods = pre ++
          [QueryMod.Offset (intMul input.Pagination.Limit (intSub input.Pagination.Page 1)),
            QueryMod.Limit input.Pagination.Limit] ∧
        ∀ m ∈ pre, m.isOffset = false ∧ m.isLimit = false) ∧
    (∀ (filter : ProductRepo.Filter) (table : String) (mods : List QueryMod) (rows : Nat)
        (err : Option GoError),
      QueryCall.All table mods rows err ∈ (ProductRepo.GetProducts env filter s).2.1 →
      filter.Pagination ≠ {} →
      ∃ pre, mods = pre ++
          [QueryMod.Offset (intMul filter.Pagination.Limit (intSub filter.Pagination.Page 1)),
            QueryMod.Limit filter.Pagination.Limit] ∧
        ∀ m ∈ pre, m.isOffset = false ∧ m.isLimit = false) ∧
    (∀ n p : Int, isInt64 (p - 1) → isInt64 (n * (p - 1)) →
      intMul n (intSub p 1) = n * (p - 1)) := by
  refine ⟨?_, ?_, ?_, intMul_intSub_exact⟩
  · intro input table mods rows err h hl hp
    refine ⟨OrderRepo.sortMods input (OrderRepo.filterMods input), ?_,
      OrderRepo.sortMods_plain_orders input _
        (fun m hm => (OrderRepo.filterMods_plain_orders input m hm).2)⟩
    rw [OrderRepo.GetOrders_fetch env input s table mods rows err h]
    unfold OrderRepo.pagingMods
    rw [if_pos ⟨hl, hp⟩]
  · intro input table mods rows err h hne
    refine ⟨UserRepo.sortMods input (UserRepo.filterMods input), ?_,
      UserRepo.sortMods_plain_users input _
        (fun m hm => (UserRepo.filterMods_plain_users input m hm).2)⟩
    rw [UserRepo.GetUsers_fetch env input s table mods rows err h]
    unfold UserRepo.pagingMods
    rw [if_pos hne]
  · intro filter table mods rows err h hne
    refine ⟨ProductRepo.sortMods filter (ProductRepo.filterMods filter), ?_,
      ProductRepo.sortMods_plain_products filter _
        (fun m hm => (ProductRepo.filterMods_plain_products filter m hm).2)⟩
    rw [ProductRepo.GetProducts_fetch env filter s table mods rows err h]
    unfold ProductRepo.pagingMods
    rw [if_pos hne]

/-- C13 (witness): page 3 with page size 2 of the products sorted by price gives
offset 4 and limit 2 after the sort clause. -/
theorem C13_paging_witness :
    (∃ pre, [QueryMod.OrderBy "price asc", QueryMod.Load "User", QueryMod.Offset 4,
          QueryMod.Limit 2]
        = pre ++ [QueryMod.Offset (intMul 2 (intSub 3 1)), QueryMod.Limit 2] ∧
      ∀ m ∈ pre, m.isOffset = false ∧ m.isLimit = false) ∧
    intMul 2 (intSub 3 1) = 2 * (3 - 1) :=
  ⟨(C13_paging (tableEnv threeOrders) ()).2.2.1
      { OrderBy := { Price := "asc" }, Pagination := { Page := 3, Limit := 2 } } "products"
      [QueryMod.OrderBy "price asc", QueryMod.Load "User", QueryMod.Offset 4, QueryMod.Limit 2]
      0 none (by decide) (by decide),
    (C13_paging (tableEnv threeOrders) ()).2.2.2 2 3 (by decide) (by decide)⟩

/-- The order service runs the queries of the repository on the converted input. -/
theorem OrderService.GetOrders_calls {σ : Type} (env : QueryEnv σ)
    (input : OrderService.OrdersInput) (s : σ) :
    (OrderService.GetOrders env input s).2
      = (OrderRepo.GetOrders env (OrderService.toRepoInput input) s).2 := by
  unfold OrderService.GetOrders
  split
  · rename_i h
    rw [h]
  · rename_i h
    rw [h]

/-- C14 (counterexample): on a table of 21 orders, service `GetOrders` with
`Pagination{Page: 0, Limit: 0}` runs a page-fetch query without offset and limit and
returns 21 orders, while with `Pagination{Page: 1, Limit: 20}` the query has offset 0
and limit 20 and 20 orders are returned. -/
theorem C14_counterexample :
    (OrderService.GetOrders (tableEnv manyOrders)
        { Pagination := { Page := 0, Limit := 0 } } ()).2.1 =
      [QueryCall.Count "orders" [QueryMod.Load "OrderItems"] 21 none,
        QueryCall.All "orders"
          [QueryMod.Load "OrderItems", QueryMod.OrderBy "updated_at desc"] 21 none] ∧
    (OrderService.GetOrders (tableEnv manyOrders)
        { Pagination := { Page := 1, Limit := 20 } } ()).2.1 =
      [QueryCall.Count "orders" [QueryMod.Load "OrderItems"] 21 none,
        QueryCall.All "orders"
          [QueryMod.Load "OrderItems", QueryMod.OrderBy "updated_at desc",
            QueryMod.Offset 0, QueryMod.Limit 20] 20 none] ∧
    (OrderService.GetOrders (tableEnv manyOrders)
        { Pagination := { Page := 0, Limit := 0 } } ()).1.1.length = 21 ∧
    (OrderService.GetOrders (tableEnv manyOrders)
        { Pagination := { Page := 1, Limit := 20 } } ()).1.1.length = 20 := by
  decide

/-- C14 (amended): the default pagination of the order listing is applied by
`validatePagination` in the REST handler: it maps page 0 with limit 0 to page 1 with
limit 20, the same result as for page 1 with limit 20. Service `GetOrders` called
with `Pagination{Page: 1, Limit: 20}` makes the repository end its page-fetch query
with offset 0 and limit 20; called with `Pagination{Page: 0, Limit: 0}` it passes the
pagination on unchanged and the page-fetch query has no offset or limit clause. -/
theorem C14_default_pagination {σ : Type} (env : QueryEnv σ) (input : OrderService.OrdersInput)
    (s : σ) :
    RestV1.validatePagination { Page := 0, Limit := 0 } = ({ Page := 1, Limit := 20 }, none) ∧
    RestV1.validatePagination { Page := 1, Limit := 20 } = ({ Page := 1, Limit := 20 }, none) ∧
    (∀ (table : String) (mods : List QueryMod) (rows : Nat) (err : Option GoError),
      QueryCall.All table mods rows err ∈
        (OrderService.GetOrders env { input with Pagination := { Page := 1, Limit := 20 } } s).2.1 →
      ∃ pre, mods = pre ++ [QueryMod.Offset 0, QueryMod.Limit 20] ∧
        ∀ m ∈ pre, m.isOffset = false ∧ m.isLimit = false) ∧
    (∀ (table : String) (mods : List QueryMod) (rows : Nat) (err : Option GoError),
      QueryCall.All table mods rows err ∈
        (OrderService.GetOrders env { input with Pagination := { Page := 0, Limit := 0 } } s).2.1 →
      ∀ m ∈ mods, m.isOffset = false ∧ m.isLimit = false) := by
  refine ⟨by decide, by decide, ?_, ?_⟩
  · intro table mods rows err h
    rw [OrderService.GetOrders_calls] at h
    have h1 := OrderRepo.GetOrders_fetch env _ s table mods rows err h
    refine ⟨OrderRepo.sortMods
      (OrderService.toRepoInput { input with Pagination := { Page := 1, Limit := 20 } })
      (OrderRepo.filterMods
        (OrderService.toRepoInput { input with Pagination := { Page := 1, Limit := 20 } })),
      ?_, OrderRepo.sortMods_plain_orders _ _ (fun m hm => (OrderRepo.filterMods_plain_orders _ m hm).2)⟩
    rw [h1]
    rfl
  · intro table mods rows err h
    rw [OrderService.GetOrders_calls] at h
    have h1 := OrderRepo.GetOrders_fetch env _ s table mods rows err h
    rw [h1]
    exact OrderRepo.sortMods_plain_orders _ _ (fun m hm => (OrderRepo.filterMods_plain_orders _ m hm).2)

/-- C14 (witness): the page-fetch query of the service for page 1 with limit 20 on
the three orders. -/
theorem C14_default_pagination_witness :
    ∃ pre, [QueryMod.Load "OrderItems", QueryMod.OrderBy "updated_at desc",
        QueryMod.Offset 0, QueryMod.Limit 20]
      = pre ++ [QueryMod.Offset 0, QueryMod.Limit 20] ∧
      ∀ m ∈ pre, m.isOffset = false ∧ m.isLimit = false :=
  (C14_default_pagination (tableEnv threeOrders) {} ()).2.2.1 "orders"
    [QueryMod.Load "OrderItems", QueryMod.OrderBy "updated_at desc",
      QueryMod.Offset 0, QueryMod.Limit 20] 3 none (by decide)

/-- C15: repository `GetUsers` with `Pagination{0, 0}` appends offset 0 and limit 20
to its page-fetch query, the same as with `Pagination{Page: 1, Limit: 20}`, and the
two runs are equal. Service `GetProducts` with `Pagination{0, 0}` calls the
repository with the same filter as with `Pagination{Page: 1, Limit: 20}`, whose
pagination is page 1 with limit 20, and the two runs are equal. -/
theorem C15_default_pagination_users_products {σ : Type} (env : QueryEnv σ) (s : σ) :
    (∀ (input : UserRepo.Filter) (qms : List QueryMod),
      UserRepo.pagingMods { input with Pagination := { Page := 0, Limit := 0 } } qms
          = qms ++ [QueryMod.Offset 0, QueryMod.Limit 20] ∧
        UserRepo.pagingMods { input with Pagination := { Page := 1, Limit := 20 } } qms
          = qms ++ [QueryMod.Offset 0, QueryMod.Limit 20]) ∧
    (∀ input : UserRepo.Filter,
      UserRepo.GetUsers env { input with Pagination := { Page := 0, Limit := 0 } } s
        = UserRepo.GetUsers env { input with Pagination := { Page := 1, Limit := 20 } } s) ∧
    (∀ input : ProductService.GetProductsInput,
      ProductService.toFilter (ProductService.withDefaultPagination
          { input with Pagination := { Page := 0, Limit := 0 } })
        = ProductService.toFilter (ProductService.withDefaultPagination
          { input with Pagination := { Page := 1, Limit := 20 } }) ∧
      (ProductService.toFilter (ProductService.withDefaultPagination
          { input with Pagination := { Page := 0, Limit := 0 } })).Pagination
        = { Page := 1, Limit := 20 } ∧
      ProductService.GetProducts env { input with Pagination := { Page := 0, Limit := 0 } } s
        = ProductService.GetProducts env
            { input with Pagination := { Page := 1, Limit := 20 } } s) := by
  have hu : ∀ (input : UserRepo.Filter) (qms : List QueryMod),
      UserRepo.pagingMods { input with Pagination := { Page := 0, Limit := 0 } } qms
          = qms ++ [QueryMod.Offset 0, QueryMod.Limit 20] ∧
        UserRepo.pagingMods { input with Pagination := { Page := 1, Limit := 20 } } qms
          = qms ++ [QueryMod.Offset 0, QueryMod.Limit 20] :=
    fun input qms => ⟨rfl, rfl⟩
  refine ⟨hu, ?_, ?_⟩
  · intro input
    unfold UserRepo.GetUsers
    rw [(hu input _).1, (hu input _).2]
    rfl
  · intro input
    have h : ProductService.toFilter (ProductService.withDefaultPagination
          { input with Pagination := { Page := 0, Limit := 0 } })
        = ProductService.toFilter (ProductService.withDefaultPagination
          { input with Pagination := { Page := 1, Limit := 20 } }) := rfl
    refine ⟨h, rfl, ?_⟩
    unfold ProductService.GetProducts
    rw [h]

/-- A clause that starts with another character than `u` is not the default sort
clause. -/
theorem clause_ne_default (c : Char) (cs : List Char) (x : String) (h : c ≠ 'u') :
    String.mk (c :: cs) ++ " " ++ x ≠ "updated_at desc" := by
  intro heq
  have h1 := congrArg String.data heq
  rw [String.data_append, String.data_append] at h1
  have h2 : ("updated_at desc" : String).data = 'u' :: "pdated_at desc".data := rfl
  rw [h2] at h1
  simp only [List.cons_append, List.cons.injEq] at h1
  exact h h1.1

theorem OrderRepo.sortBy_eq_zero (sortBy : OrderRepo.OrderSortBy) :
    sortBy = {} ↔ (sortBy.OrderDate = "" ∧ sortBy.CreatedAt = "") := by
  cases sortBy
  simp

theorem UserRepo.sort_eq_zero (sort : UserRepo.SortParams) :
    sort = {} ↔ (sort.Name = "" ∧ sort.Email = "" ∧ sort.CreatedAt = "") := by
  cases sort
  simp

theorem ProductRepo.orderBy_eq_zero (orderBy : ProductRepo.OrderBy) :
    orderBy = {} ↔
      (orderBy.Title = "" ∧ orderBy.Price = "" ∧ orderBy.Quantity = "" ∧
        orderBy.CreatedAt = "") := by
  cases orderBy
  simp

theorem filter_isOrderBy_nil (qms : List QueryMod)
    (h : ∀ m ∈ qms, m.isOrderBy = false ∧ m.isOffset = false ∧ m.isLimit = false) :
    qms.filter QueryMod.isOrderBy = [] := by
  rw [List.filter_eq_nil_iff]
  intro m hm
  rw [(h m hm).1]
  decide

theorem OrderRepo.fetch_sorts_orders (input : OrderRepo.OrdersInput) (qms : List QueryMod) :
    (OrderRepo.pagingMods input (OrderRepo.sortMods input qms)).filter QueryMod.isOrderBy
      = qms.filter QueryMod.isOrderBy ++
        (if input.SortBy ≠ {} then
          (if input.SortBy.OrderDate ≠ "" then
            [QueryMod.OrderBy (Model.OrderColumns.OrderDate ++ " " ++ input.SortBy.OrderDate)]
          else []) ++
          (if input.SortBy.CreatedAt ≠ "" then
            [QueryMod.OrderBy (Model.OrderColumns.CreatedAt ++ " " ++ input.SortBy.CreatedAt)]
          else [])
        else [QueryMod.OrderBy "updated_at desc"]) := by
  unfold OrderRepo.pagingMods OrderRepo.sortMods
  split_ifs <;> simp [List.filter_append, QueryMod.isOrderBy] <;> rfl

theorem UserRepo.fetch_sorts_users (input : UserRepo.Filter) (qms : List QueryMod) :
    (UserRepo.pagingMods input (UserRepo.sortMods input qms)).filter QueryMod.isOrderBy
      = qms.filter QueryMod.isOrderBy ++
        (if input.Sort_ ≠ {} then
          (if input.Sort_.Name ≠ "" then
            [QueryMod.OrderBy (Model.UserColumns.Name ++ " " ++ input.Sort_.Name)] else []) ++
          (if input.Sort_.Email ≠ "" then
            [QueryMod.OrderBy (Model.UserColumns.Email ++ " " ++ input.Sort_.Email)] else []) ++
          (if input.Sort_.CreatedAt ≠ "" then
            [QueryMod.OrderBy (Model.UserColumns.CreatedAt ++ " " ++ input.Sort_.CreatedAt)]
          else [])
        else [QueryMod.OrderBy "updated_at desc"]) := by
  unfold UserRepo.pagingMods UserRepo.sortMods
  split_ifs <;> simp [List.filter_append, QueryMod.isOrderBy] <;> rfl

theorem ProductRepo.fetch_sorts_products (filter : ProductRepo.Filter) (qms : List QueryMod) :
    (ProductRepo.pagingMods filter (ProductRepo.sortMods filter qms)).filter QueryMod.isOrderBy
      = qms.filter QueryMod.isOrderBy ++
        (if filter.OrderBy ≠ {} then
          (if filter.OrderBy.Title ≠ "" then
            [QueryMod.OrderBy (Model.ProductColumns.Title ++ " " ++ filter.OrderBy.Title)]
          else []) ++
          (if filter.OrderBy.CreatedAt ≠ "" then
            [QueryMod.OrderBy
              (Model.ProductColumns.CreatedAt ++ " " ++ filter.OrderBy.CreatedAt)]
          else []) ++
          (if filter.OrderBy.Price ≠ "" then
            [QueryMod.OrderBy (Model.ProductColumns.Price ++ " " ++ filter.OrderBy.Price)]
          else []) ++
          (if filter.OrderBy.Quantity ≠ "" then
            [QueryMod.OrderBy (Model.ProductColumns.Quantity ++ " " ++ filter.OrderBy.Quantity)]
          else [])
        else [QueryMod.OrderBy "updated_at desc"]) := by
  unfold ProductRepo.pagingMods ProductRepo.sortMods
  split_ifs <;> simp [List.filter_append, QueryMod.isOrderBy] <;> rfl

/-- Membership in a list of optional sort clauses. -/
theorem mem_clause (c : Prop) [Decidable c] (m x : QueryMod)
    (h : m ∈ (if c then [x] else [])) : m = x := by
  split at h
  · exact List.mem_singleton.1 h
  · cases h

/-- C16: each of the three listing operations, in every run whose count query
succeeds, runs exactly two queries, the count query and then the page-fetch query,
and the page-fetch query is this: when every sort field of the input is empty its
sort clauses are exactly the one clause `updated_at desc`; when at least one sort
field is non-empty its sort clauses are exactly the clauses of the non-empty sort
fields, and the clause `updated_at desc` is not in the query. The count query has no
sort clause. -/
theorem C16_default_sort {σ : Type} (env : QueryEnv σ) (s : σ) :
    (∀ (input : OrderRepo.OrdersInput) (total : Int) (s1 : σ),
      env.ordersCount (OrderRepo.filterMods input) s = ((total, none), s1) →
      ∃ mods,
        (OrderRepo.GetOrders env input s).2.1 =
          [QueryCall.Count "orders" (OrderRepo.filterMods input) total none,
            QueryCall.All "orders" mods (env.ordersAll mods s1).1.1.length
              (env.ordersAll mods s1).1.2] ∧
        (OrderRepo.filterMods input).filter QueryMod.isOrderBy = [] ∧
        ((input.SortBy.OrderDate = "" ∧ input.SortBy.CreatedAt = "") →
          mods.filter QueryMod.isOrderBy = [QueryMod.OrderBy "updated_at desc"]) ∧
        (¬ (input.SortBy.OrderDate = "" ∧ input.SortBy.CreatedAt = "") →
          mods.filter QueryMod.isOrderBy =
            (if input.SortBy.OrderDate ≠ "" then
              [QueryMod.OrderBy ("order_date" ++ " " ++ input.SortBy.OrderDate)] else []) ++
            (if input.SortBy.CreatedAt ≠ "" then
              [QueryMod.OrderBy ("created_at" ++ " " ++ input.SortBy.CreatedAt)] else []) ∧
          QueryMod.OrderBy "updated_at desc" ∉ mods)) ∧
    (∀ (input : UserRepo.Filter) (total : Int) (s1 : σ),
      env.usersCount (UserRepo.filterMods input) s = ((total, none), s1) →
      ∃ mods,
        (UserRepo.GetUsers env input s).2.1 =
          [QueryCall.Count "users" (UserRepo.filterMods input) total none,
            QueryCall.All "users" mods (env.usersAll mods s1).1.1.length
              (env.usersAll mods s1).1.2] ∧
        (UserRepo.filterMods input).filter QueryMod.isOrderBy = [] ∧
        ((input.Sort_.Name = "" ∧ input.Sort_.Email = "" ∧ input.Sort_.CreatedAt = "") →
          mods.filter QueryMod.isOrderBy = [QueryMod.OrderBy "updated_at desc"]) ∧
        (¬ (input.Sort_.Name = "" ∧ input.Sort_.Email = "" ∧ input.Sort_.CreatedAt = "") →
          mods.filter QueryMod.isOrderBy =
            (if input.Sort_.Name ≠ "" then
              [QueryMod.OrderBy ("name" ++ " " ++ input.Sort_.Name)] else []) ++
            (if input.Sort_.Email ≠ "" then
              [QueryMod.OrderBy ("email" ++ " " ++ input.Sort_.Email)] else []) ++
            (if input.Sort_.CreatedAt ≠ "" then
              [QueryMod.OrderBy ("created_at" ++ " " ++ input.Sort_.CreatedAt)] else []) ∧
          QueryMod.OrderBy "updated_at desc" ∉ mods)) ∧
    (∀ (filter : ProductRepo.Filter) (total : Int) (s1 : σ),
      env.productsCount (ProductRepo.filterMods filter) s = ((total, none), s1) →
      ∃ mods,
        (ProductRepo.GetProducts env filter s).2.1 =
          [QueryCall.Count "products" (ProductRepo.filterMods filter) total none,
            QueryCall.All "products" mods (env.productsAll mods s1).1.1.length
              (env.productsAll mods s1).1.2] ∧
        (ProductRepo.filterMods filter).filter QueryMod.isOrderBy = [] ∧
        ((filter.OrderBy.Title = "" ∧ filter.OrderBy.Price = "" ∧
            filter.OrderBy.Quantity = "" ∧ filter.OrderBy.CreatedAt = "") →
          mods.filter QueryMod.isOrderBy = [QueryMod.OrderBy "updated_at desc"]) ∧
        (¬ (filter.OrderBy.Title = "" ∧ filter.OrderBy.Price = "" ∧
            filter.OrderBy.Quantity = "" ∧ filter.OrderBy.CreatedAt = "") →
          mods.filter QueryMod.isOrderBy =
            (if filter.OrderBy.Title ≠ "" then
              [QueryMod.OrderBy ("title" ++ " " ++ filter.OrderBy.Title)] else []) ++
            (if filter.OrderBy.CreatedAt ≠ "" then
              [QueryMod.OrderBy ("created_at" ++ " " ++ filter.OrderBy.CreatedAt)] else []) ++
            (if filter.OrderBy.Price ≠ "" then
              [QueryMod.OrderBy ("price" ++ " " ++ filter.OrderBy.Price)] else []) ++
            (if filter.OrderBy.Quantity ≠ "" then
              [QueryMod.OrderBy ("quantity" ++ " " ++ filter.OrderBy.Quantity)] else []) ∧
          QueryMod.OrderBy "updated_at desc" ∉ mods)) := by
  have hmem : ∀ (l : List QueryMod) (m : QueryMod), m.isOrderBy = true → m ∈ l →
      m ∈ l.filter QueryMod.isOrderBy := fun l m hm hl => List.mem_filter.2 ⟨hl, hm⟩
  have hne : ∀ (c : Char) (cs : List Char) (x : String), c ≠ 'u' →
      QueryMod.OrderBy "updated_at desc" ≠ QueryMod.OrderBy (String.mk (c :: cs) ++ " " ++ x) :=
    fun c cs x h heq => clause_ne_default c cs x h (QueryMod.OrderBy.inj heq).symm
  refine ⟨?_, ?_, ?_⟩
  · intro input total s1 hcount
    refine ⟨OrderRepo.pagingMods input (OrderRepo.sortMods input (OrderRepo.filterMods input)),
      OrderRepo.GetOrders_calls_of_count env input s total s1 hcount,
      filter_isOrderBy_nil _ (OrderRepo.filterMods_plain_orders input), ?_⟩
    have h2 := OrderRepo.fetch_sorts_orders input (OrderRepo.filterMods input)
    rw [filter_isOrderBy_nil _ (OrderRepo.filterMods_plain_orders input), List.nil_append] at h2
    generalize OrderRepo.pagingMods input
      (OrderRepo.sortMods input (OrderRepo.filterMods input)) = mods at h2 ⊢
    constructor
    · intro hz
      rw [h2, if_neg (not_not.2 ((OrderRepo.sortBy_eq_zero _).2 hz))]
    · intro hz
      have hz1 : input.SortBy ≠ {} := fun h => hz ((OrderRepo.sortBy_eq_zero _).1 h)
      rw [if_pos hz1] at h2
      refine ⟨h2, fun hin => ?_⟩
      have h3 := hmem mods (QueryMod.OrderBy "updated_at desc") rfl hin
      rw [h2] at h3
      rcases List.mem_append.1 h3 with h3 | h3
      · exact hne 'o' "rder_date".data _ (by decide) (mem_clause _ _ _ h3)
      · exact hne 'c' "reated_at".data _ (by decide) (mem_clause _ _ _ h3)
  · intro input total s1 hcount
    refine ⟨UserRepo.pagingMods input (UserRepo.sortMods input (UserRepo.filterMods input)),
      UserRepo.GetUsers_calls_of_count env input s total s1 hcount,
      filter_isOrderBy_nil _ (UserRepo.filterMods_plain_users input), ?_⟩
    have h2 := UserRepo.fetch_sorts_users input (UserRepo.filterMods input)
    rw [filter_isOrderBy_nil _ (UserRepo.filterMods_plain_users input), List.nil_append] at h2
    generalize UserRepo.pagingMods input
      (UserRepo.sortMods input (UserRepo.filterMods input)) = mods at h2 ⊢
    constructor
    · intro hz
      rw [h2, if_neg (not_not.2 ((UserRepo.sort_eq_zero _).2 hz))]
    · intro hz
      have hz1 : input.Sort_ ≠ {} := fun h => hz ((UserRepo.sort_eq_zero _).1 h)
      rw [if_pos hz1] at h2
      refine ⟨h2, fun hin => ?_⟩
      have h3 := hmem mods (QueryMod.OrderBy "updated_at desc") rfl hin
      rw [h2] at h3
      rcases List.mem_append.1 h3 with h3 | h3
      · rcases List.mem_append.1 h3 with h3 | h3
        · exact hne 'n' "ame".data _ (by decide) (mem_clause _ _ _ h3)
        · exact hne 'e' "mail".data _ (by decide) (mem_clause _ _ _ h3)
      · exact hne 'c' "reated_at".data _ (by decide) (mem_clause _ _ _ h3)
  · intro filter total s1 hcount
    refine ⟨ProductRepo.pagingMods filter
        (ProductRepo.sortMods filter (ProductRepo.filterMods filter)),
      ProductRepo.GetProducts_calls_of_count env filter s total s1 hcount,
      filter_isOrderBy_nil _ (ProductRepo.filterMods_plain_products filter), ?_⟩
    have h2 := ProductRepo.fetch_sorts_products filter (ProductRepo.filterMods filter)
    rw [filter_isOrderBy_nil _ (ProductRepo.filterMods_plain_products filter),
      List.nil_append] at h2
    generalize ProductRepo.pagingMods filter
      (ProductRepo.sortMods filter (ProductRepo.filterMods filter)) = mods at h2 ⊢
    constructor
    · intro hz
      rw [h2, if_neg (not_not.2 ((ProductRepo.orderBy_eq_zero _).2 hz))]
    · intro hz
      have hz1 : filter.OrderBy ≠ {} := fun h => hz ((ProductRepo.orderBy_eq_zero _).1 h)
      rw [if_pos hz1] at h2
      refine ⟨h2, fun hin => ?_⟩
      have h3 := hmem mods (QueryMod.OrderBy "updated_at desc") rfl hin
      rw [h2] at h3
      rcases List.mem_append.1 h3 with h3 | h3
      · rcases List.mem_append.1 h3 with h3 | h3
        · rcases List.mem_append.1 h3 with h3 | h3
          · exact hne 't' "itle".data _ (by decide) (mem_clause _ _ _ h3)
          · exact hne 'c' "reated_at".data _ (by decide) (mem_clause _ _ _ h3)
        · exact hne 'p' "rice".data _ (by decide) (mem_clause _ _ _ h3)
      · exact hne 'q' "uantity".data _ (by decide) (mem_clause _ _ _ h3)

/-- C16 (witness): without sort fields, the listings of the orders, of the users and
of the products run the count query and then a page-fetch query whose one sort clause
is `updated_at desc`; the product listing sorted by price has the one sort clause
`price desc`. -/
theorem C16_default_sort_witness :
    ((OrderRepo.GetOrders (tableEnv threeOrders) {} ()).2.1 =
        [QueryCall.Count "orders" [QueryMod.Load "OrderItems"] 3 none,
          QueryCall.All "orders"
            [QueryMod.Load "OrderItems", QueryMod.OrderBy "updated_at desc"] 3 none] ∧
      (UserRepo.GetUsers (tableEnv threeOrders) {} ()).2.1 =
        [QueryCall.Count "users" [] 3 none,
          QueryCall.All "users"
            [QueryMod.OrderBy "updated_at desc", QueryMod.Offset 0, QueryMod.Limit 20]
            3 none] ∧
      (ProductRepo.GetProducts (tableEnv threeOrders) {} ()).2.1 =
        [QueryCall.Count "products" [] 3 none,
          QueryCall.All "products"
            [QueryMod.OrderBy "updated_at desc", QueryMod.Load "User"] 3 none] ∧
      (ProductRepo.GetProducts (tableEnv threeOrders) { OrderBy := { Price := "desc" } } ()).2.1 =
        [QueryCall.Count "products" [] 3 none,
          QueryCall.All "products"
            [QueryMod.OrderBy "price desc", QueryMod.Load "User"] 3 none]) ∧
    (∃ mods,
      (OrderRepo.GetOrders (tableEnv threeOrders) {} ()).2.1 =
        [QueryCall.Count "orders" (OrderRepo.filterMods {}) 3 none,
          QueryCall.All "orders" mods ((tableEnv threeOrders).ordersAll mods ()).1.1.length
            ((tableEnv threeOrders).ordersAll mods ()).1.2] ∧
      mods.filter QueryMod.isOrderBy = [QueryMod.OrderBy "updated_at desc"]) ∧
    (∃ mods,
      (UserRepo.GetUsers (tableEnv threeOrders) {} ()).2.1 =
        [QueryCall.Count "users" (UserRepo.filterMods {}) 3 none,
          QueryCall.All "users" mods ((tableEnv threeOrders).usersAll mods ()).1.1.length
            ((tableEnv threeOrders).usersAll mods ()).1.2] ∧
      mods.filter QueryMod.isOrderBy = [QueryMod.OrderBy "updated_at desc"]) ∧
    (∃ mods,
      (ProductRepo.GetProducts (tableEnv threeOrders) {} ()).2.1 =
        [QueryCall.Count "products" (ProductRepo.filterMods {}) 3 none,
          QueryCall.All "products" mods
            ((tableEnv threeOrders).productsAll mods ()).1.1.length
            ((tableEnv threeOrders).productsAll mods ()).1.2] ∧
      mods.filter QueryMod.isOrderBy = [QueryMod.OrderBy "updated_at desc"]) :=
  ⟨by decide,
    ((C16_default_sort (tableEnv threeOrders) ()).1 {} 3 () (by decide)).elim
      (fun mods h => ⟨mods, h.1, h.2.2.1 (by decide)⟩),
    ((C16_default_sort (tableEnv threeOrders) ()).2.1 {} 3 () (by decide)).elim
      (fun mods h => ⟨mods, h.1, h.2.2.1 (by decide)⟩),
    ((C16_default_sort (tableEnv threeOrders) ()).2.2 {} 3 () (by decide)).elim
      (fun mods h => ⟨mods, h.1, h.2.2.1 (by decide)⟩)⟩

/-- C17: a failure of the count query is returned by repository `GetOrders` and by
service `GetOrders` as the error; a failure of the page-fetch query is not: both
then return an empty list, total count 0 and a nil error. -/
theorem C17_fetch_error_swallowed {σ : Type} (env : QueryEnv σ)
    (input : OrderService.OrdersInput) (s : σ) :
    (∀ table mods total e,
      QueryCall.Count table mods total (some e) ∈ (OrderService.GetOrders env input s).2.1 →
      (OrderRepo.GetOrders env (OrderService.toRepoInput input) s).1 = ([], 0, some e) ∧
        (OrderService.GetOrders env input s).1 = ([], 0, some e)) ∧
    (∀ table mods rows e,
      QueryCall.All table mods rows (some e) ∈ (OrderService.GetOrders env input s).2.1 →
      (OrderRepo.GetOrders env (OrderService.toRepoInput input) s).1 = ([], 0, none) ∧
        (OrderService.GetOrders env input s).1 = ([], 0, none)) := by
  have hs : ∀ r, (OrderRepo.GetOrders env (OrderService.toRepoInput input) s).1 = ([], 0, r) →
      (OrderService.GetOrders env input s).1 = ([], 0, r) := by
    intro r hr
    unfold OrderService.GetOrders
    split
    · rename_i h
      rw [h] at hr
      simp only [Prod.mk.injEq] at hr
      rw [← hr.2.2]
    · rename_i h
      rw [h] at hr
      simp only [Prod.mk.injEq] at hr
      rw [← hr.2.2, hr.1, hr.2.1]
      rfl
  constructor
  · intro table mods total e h
    rw [OrderService.GetOrders_calls] at h
    rcases OrderRepo.GetOrders_shape env (OrderService.toRepoInput input) s with
      ⟨t, e1, s1, h1, hr⟩ | ⟨t, s1, rs, e1, s2, h1, h2, hr⟩ | ⟨t, s1, rs, s2, h1, h2, hr⟩
    all_goals
      rw [hr] at h
      simp only [List.mem_cons, List.mem_singleton, List.not_mem_nil, or_false, reduceCtorEq,
        false_or, or_false, and_false, QueryCall.Count.injEq, Option.some.injEq] at h
    obtain ⟨_, _, _, he⟩ := h
    subst he
    exact ⟨by rw [hr], hs _ (by rw [hr])⟩
  · intro table mods rows e h
    rw [OrderService.GetOrders_calls] at h
    rcases OrderRepo.GetOrders_shape env (OrderService.toRepoInput input) s with
      ⟨t, e1, s1, h1, hr⟩ | ⟨t, s1, rs, e1, s2, h1, h2, hr⟩ | ⟨t, s1, rs, s2, h1, h2, hr⟩
    all_goals
      rw [hr] at h
      simp only [List.mem_cons, List.mem_singleton, List.not_mem_nil, or_false, reduceCtorEq,
        false_or, or_false, and_false, QueryCall.All.injEq, Option.some.injEq] at h
    exact ⟨by rw [hr], hs _ (by rw [hr])⟩

/-- C17 (witness): on the table whose page-fetch query fails, the listing of the
orders succeeds with an empty result, while the listing of the users returns the
error. -/
theorem C17_fetch_error_swallowed_witness :
    ((OrderRepo.GetOrders (tableEnv threeOrdersFetchFails) (OrderService.toRepoInput {}) ()).1
        = ([], 0, none) ∧
      (OrderService.GetOrders (tableEnv threeOrdersFetchFails) {} ()).1 = ([], 0, none)) ∧
    (UserRepo.GetUsers (tableEnv threeOrdersFetchFails) {} ()).1
      = ([], 0, some (GoError.errorString "connection refused")) :=
  ⟨(C17_fetch_error_swallowed (tableEnv threeOrdersFetchFails) {} ()).2 "orders"
      [QueryMod.Load "OrderItems", QueryMod.OrderBy "updated_at desc"] 0
      (GoError.errorString "connection refused") (by decide),
    by decide⟩

theorem forall₂_map_self {α β : Type} (R : α → β → Prop) (f : α → β) (h : ∀ a, R a (f a)) :
    ∀ l : List α, List.Forall₂ R l (l.map f)
  | [] => List.Forall₂.nil
  | a :: l => List.Forall₂.cons (h a) (forall₂_map_self R f h l)

/-- C18: service `GetOrders` runs the repository on an input with the same filter,
sort and pagination fields. When the repository succeeds it returns the total count
of the repository unchanged and one order per order of the repository, in order,
with the same ID, order number, order date, status, note, user ID and timestamps,
and one item per item of that order, in order, with the same field values. For an
empty result of the repository it returns an empty list, 0 and a nil error. -/
theorem C18_service_get_orders {σ : Type} (env : QueryEnv σ) (input : OrderService.OrdersInput)
    (s : σ) :
    ((OrderService.toRepoInput input).Filter.ID = input.Filter.ID ∧
      (OrderService.toRepoInput input).Filter.OrderNumber = input.Filter.OrderNumber ∧
      (OrderService.toRepoInput input).Filter.Status = input.Filter.Status ∧
      (OrderService.toRepoInput input).Filter.UserID = input.Filter.UserID ∧
      (OrderService.toRepoInput input).SortBy.OrderDate = input.SortBy.OrderDate ∧
      (OrderService.toRepoInput input).SortBy.CreatedAt = input.SortBy.CreatedAt ∧
      (OrderService.toRepoInput input).Pagination.Limit = input.Pagination.Limit ∧
      (OrderService.toRepoInput input).Pagination.Page = input.Pagination.Page) ∧
    (OrderService.GetOrders env input s).2
      = (OrderRepo.GetOrders env (OrderService.toRepoInput input) s).2 ∧
    (∀ orders totalCount,
      (OrderRepo.GetOrders env (OrderService.toRepoInput input) s).1
        = (orders, totalCount, none) →
      ∃ result, (OrderService.GetOrders env input s).1 = (result, totalCount, none) ∧
        List.Forall₂
          (fun (o : OrderRepo.Order) (r : OrderService.OrderResult) =>
            r.ID = o.ID ∧ r.OrderNumber = o.OrderNumber ∧ r.OrderDate = o.OrderDate ∧
            r.Status = o.Status ∧ r.Note = o.Note ∧ r.UserID = o.UserID ∧
            r.CreatedAt = o.CreatedAt ∧ r.UpdatedAt = o.UpdatedAt ∧
            List.Forall₂
              (fun (i : OrderRepo.OrderItem) (j : OrderService.OrderItemResult) =>
                j.ID = i.ID ∧ j.ProductID = i.ProductID ∧ j.ProductPrice = i.ProductPrice ∧
                j.ProductName = i.ProductName ∧ j.Quantity = i.Quantity ∧
                j.Discount = i.Discount ∧ j.Note = i.Note ∧ j.CreatedAt = i.CreatedAt ∧
                j.UpdatedAt = i.UpdatedAt)
              o.OrderItems r.OrderItems)
          orders result) ∧
    ((OrderRepo.GetOrders env (OrderService.toRepoInput input) s).1 = ([], 0, none) →
      (OrderService.GetOrders env input s).1 = ([], 0, none)) := by
  have hmap : ∀ orders totalCount,
      (OrderRepo.GetOrders env (OrderService.toRepoInput input) s).1
        = (orders, totalCount, none) →
      (OrderService.GetOrders env input s).1
        = (orders.map OrderService.toOrderResult, totalCount, none) := by
    intro orders totalCount hr
    unfold OrderService.GetOrders
    split
    · rename_i h
      rw [h] at hr
      simp at hr
    · rename_i h
      rw [h] at hr
      simp only [Prod.mk.injEq, and_true] at hr
      rw [hr.1, hr.2]
  refine ⟨⟨rfl, rfl, rfl, rfl, rfl, rfl, rfl, rfl⟩, OrderService.GetOrders_calls env input s,
    ?_, fun h => hmap [] 0 h⟩
  intro orders totalCount hr
  refine ⟨_, hmap orders totalCount hr, forall₂_map_self _ _ ?_ orders⟩
  intro o
  refine ⟨rfl, rfl, rfl, rfl, rfl, rfl, rfl, rfl, ?_⟩
  exact forall₂_map_self _ _ (fun i => ⟨rfl, rfl, rfl, rfl, rfl, rfl, rfl, rfl, rfl⟩) _

/-- C18 (witness): the first page of two of the three orders of user 10, listed by
the service: the repository is asked with the same filter, sort and pagination, the
total count 3 is returned unchanged, and the two orders and the item of the first
one come back field by field; the listing of an empty table gives an empty list, 0
and a nil error. -/
theorem C18_service_get_orders_witness :
    (OrderService.toRepoInput
        { Filter := { UserID := 10 }, SortBy := { CreatedAt := "desc" },
          Pagination := { Limit := 2, Page := 1 } } =
      { Filter := { UserID := 10 }, SortBy := { CreatedAt := "desc" },
        Pagination := { Limit := 2, Page := 1 } }) ∧
    ((OrderService.GetOrders (tableEnv threeOrders)
        { Filter := { UserID := 10 }, SortBy := { CreatedAt := "desc" },
          Pagination := { Limit := 2, Page := 1 } } ()).1 =
      ([ { ID := 1, OrderNumber := "ORDER_NUMBER_1", Status := "NEW", UserID := 10,
           OrderItems := [{ ID := 10, ProductID := 10, ProductName := "Product 10",
                            Quantity := 20 }] },
         { ID := 5, OrderNumber := "ORDER_NUMBER_5", Status := "NEW", UserID := 10 } ],
        3, none)) ∧
    (∃ result,
      (OrderService.GetOrders (tableEnv threeOrders)
        { Filter := { UserID := 10 }, SortBy := { CreatedAt := "desc" },
          Pagination := { Limit := 2, Page := 1 } } ()).1 = (result, 3, none) ∧
      List.Forall₂
        (fun (o : OrderRepo.Order) (r : OrderService.OrderResult) =>
          r.ID = o.ID ∧ r.OrderNumber = o.OrderNumber ∧ r.OrderDate = o.OrderDate ∧
          r.Status = o.Status ∧ r.Note = o.Note ∧ r.UserID = o.UserID ∧
          r.CreatedAt = o.CreatedAt ∧ r.UpdatedAt = o.UpdatedAt ∧
          List.Forall₂
            (fun (i : OrderRepo.OrderItem) (j : OrderService.OrderItemResult) =>
              j.ID = i.ID ∧ j.ProductID = i.ProductID ∧ j.ProductPrice = i.ProductPrice ∧
              j.ProductName = i.ProductName ∧ j.Quantity = i.Quantity ∧
              j.Discount = i.Discount ∧ j.Note = i.Note ∧ j.CreatedAt = i.CreatedAt ∧
              j.UpdatedAt = i.UpdatedAt)
            o.OrderItems r.OrderItems)
        [ { ID := 1, OrderNumber := "ORDER_NUMBER_1", Status := "NEW", UserID := 10,
            OrderItems := [{ ID := 10, ProductID := 10, ProductName := "Product 10",
                             Quantity := 20 }] },
          { ID := 5, OrderNumber := "ORDER_NUMBER_5", Status := "NEW", UserID := 10 } ]
        result) ∧
    (OrderService.GetOrders (tableEnv {}) {} ()).1 = ([], 0, none) :=
  ⟨by decide, by decide,
    (C18_service_get_orders (tableEnv threeOrders)
      { Filter := { UserID := 10 }, SortBy := { CreatedAt := "desc" },
        Pagination := { Limit := 2, Page := 1 } } ()).2.2.1
      [ { ID := 1, OrderNumber := "ORDER_NUMBER_1", Status := "NEW", UserID := 10,
          OrderItems := [{ ID := 10, ProductID := 10, ProductName := "Product 10",
                           Quantity := 20 }] },
        { ID := 5, OrderNumber := "ORDER_NUMBER_5", Status := "NEW", UserID := 10 } ]
      3 (by decide),
    (C18_service_get_orders (tableEnv {}) {} ()).2.2.2 (by decide)⟩

/-! ## Claims about the order handlers -/

namespace RestV1

theorem validOrderStatus_iff (status : String) :
    validOrderStatus status = true ↔
      (status = "NEW" ∨ status = "PENDING" ∨ status = "SUCCESS" ∨ status = "FAILED") := by
  unfold validOrderStatus OrderService.OrderStatusFailed OrderService.OrderStatusNew
    OrderService.OrderStatusPending OrderService.OrderStatusSuccess
  by_cases h1 : status = "FAILED" <;> by_cases h2 : status = "NEW" <;>
    by_cases h3 : status = "PENDING" <;> by_cases h4 : status = "SUCCESS" <;>
    simp [h1, h2, h3, h4]

/-- C21: `validGetOrdersReq` returns no error iff `Filter.ID ≥ 0`, `Filter.UserID ≥ 0`,
the trimmed status is empty or one of `NEW`, `PENDING`, `SUCCESS`, `FAILED`,
`validatePagination` accepts the pagination, and each trimmed sort direction
(`order_date`, `created_at`) is empty, `asc` or `desc`. On success the output has the
same `ID` and `UserID`, the trimmed order number, status and sort directions, and the
page and limit that `validatePagination` returned. -/
theorem C21_valid_get_orders_req (req : ordersRequest) :
    ((validGetOrdersReq req).2 = none ↔
      (0 ≤ req.Filter.ID ∧ 0 ≤ req.Filter.UserID ∧
        (strings.TrimSpace req.Filter.Status = "" ∨
          strings.TrimSpace req.Filter.Status = "NEW" ∨
          strings.TrimSpace req.Filter.Status = "PENDING" ∨
          strings.TrimSpace req.Filter.Status = "SUCCESS" ∨
          strings.TrimSpace req.Filter.Status = "FAILED") ∧
        (validatePagination req.Pagination).2 = none ∧
        (strings.TrimSpace req.SortBy.OrderDate = "" ∨
          strings.TrimSpace req.SortBy.OrderDate = "asc" ∨
          strings.TrimSpace req.SortBy.OrderDate = "desc") ∧
        (strings.TrimSpace req.SortBy.CreatedAt = "" ∨
          strings.TrimSpace req.SortBy.CreatedAt = "asc" ∨
          strings.TrimSpace req.SortBy.CreatedAt = "desc"))) ∧
    ((validGetOrdersReq req).2 = none →
      (validGetOrdersReq req).1 =
        { Filter :=
            { ID := req.Filter.ID
              OrderNumber := strings.TrimSpace req.Filter.OrderNumber
              Status := strings.TrimSpace req.Filter.Status
              UserID := req.Filter.UserID }
          SortBy :=
            { OrderDate := strings.TrimSpace req.SortBy.OrderDate
              CreatedAt := strings.TrimSpace req.SortBy.CreatedAt }
          Pagination :=
            { Limit := (validatePagination req.Pagination).1.Limit
              Page := (validatePagination req.Pagination).1.Page } }) := by
  have hs := validOrderStatus_iff (strings.TrimSpace req.Filter.Status)
  unfold validGetOrdersReq OrderTypeASC OrderTypeDESC
  by_cases h1 : req.Filter.ID < 0
  · rw [if_pos h1]
    refine ⟨⟨fun h => by simp at h, fun h => by omega⟩, fun h => by simp at h⟩
  · by_cases h2 : strings.TrimSpace req.Filter.Status ≠ ""
        ∧ (!validOrderStatus (strings.TrimSpace req.Filter.Status)) = true
    · rw [if_neg h1, if_pos h2]
      refine ⟨⟨fun h => by simp at h, fun h => ?_⟩, fun h => by simp at h⟩
      rcases h.2.2.1 with h3 | h3
      · exact absurd h3 h2.1
      · have := hs.2 h3
        rw [this] at h2
        simp at h2
    · have h2a : strings.TrimSpace req.Filter.Status = "" ∨
          strings.TrimSpace req.Filter.Status = "NEW" ∨
          strings.TrimSpace req.Filter.Status = "PENDING" ∨
          strings.TrimSpace req.Filter.Status = "SUCCESS" ∨
          strings.TrimSpace req.Filter.Status = "FAILED" := by
        by_cases h3 : strings.TrimSpace req.Filter.Status = ""
        · exact Or.inl h3
        · right
          apply hs.1
          by_contra h4
          exact h2 ⟨h3, by simp [h4]⟩
      by_cases h3 : req.Filter.UserID < 0
      · rw [if_neg h1, if_neg h2, if_pos h3]
        refine ⟨⟨fun h => by simp at h, fun h => by omega⟩, fun h => by simp at h⟩
      · rw [if_neg h1, if_neg h2, if_neg h3]
        rcases hv : validatePagination req.Pagination with ⟨pageArgs, _ | err⟩
        · simp only
          by_cases h4 : strings.TrimSpace req.SortBy.CreatedAt ≠ ""
              ∧ strings.TrimSpace req.SortBy.CreatedAt ≠ "asc"
              ∧ strings.TrimSpace req.SortBy.CreatedAt ≠ "desc"
          · rw [if_pos h4]
            refine ⟨⟨fun h => by simp at h, fun h => ?_⟩, fun h => by simp at h⟩
            rcases h.2.2.2.2.2 with h5 | h5 | h5
            · exact absurd h5 h4.1
            · exact absurd h5 h4.2.1
            · exact absurd h5 h4.2.2
          · by_cases h5 : strings.TrimSpace req.SortBy.OrderDate ≠ ""
                ∧ strings.TrimSpace req.SortBy.OrderDate ≠ "asc"
                ∧ strings.TrimSpace req.SortBy.OrderDate ≠ "desc"
            · rw [if_neg h4, if_pos h5]
              refine ⟨⟨fun h => by simp at h, fun h => ?_⟩, fun h => by simp at h⟩
              rcases h.2.2.2.2.1 with h6 | h6 | h6
              · exact absurd h6 h5.1
              · exact absurd h6 h5.2.1
              · exact absurd h6 h5.2.2
            · rw [if_neg h4, if_neg h5]
              simp only [true_iff, forall_const]
              refine ⟨⟨by omega, by omega, h2a, trivial, ?_, ?_⟩, trivial⟩
              · by_contra h6
                simp only [not_or] at h6
                exact h5 ⟨h6.1, h6.2.1, h6.2.2⟩
              · by_contra h6
                simp only [not_or] at h6
                exact h4 ⟨h6.1, h6.2.1, h6.2.2⟩
        · simp only
          refine ⟨⟨fun h => by simp at h, fun h => ?_⟩, fun h => by simp at h⟩
          have := h.2.2.2.1
          simp at this

/-- C21 (witness): a request with status ` NEW `, sort direction ` desc` and no
pagination is accepted and comes out trimmed, with page 1 and limit 20. -/
theorem C21_valid_get_orders_req_witness :
    (validGetOrdersReq
        { Filter := { ID := 0, OrderNumber := " A1 ", Status := " NEW ", UserID := 7 }
          SortBy := { OrderDate := " desc" } }).1 =
      { Filter := { ID := 0, OrderNumber := "A1", Status := "NEW", UserID := 7 }
        SortBy := { OrderDate := "desc", CreatedAt := "" }
        Pagination := { Limit := 20, Page := 1 } } :=
  ((C21_valid_get_orders_req
      { Filter := { ID := 0, OrderNumber := " A1 ", Status := " NEW ", UserID := 7 }
        SortBy := { OrderDate := " desc" } }).2 (by decide)).trans (by decide)

end RestV1

namespace RestV1

/-- C22: `handleOrderError` writes status 400 with the body `ErrUserNotExist` when the
error is `order.ErrUserNotExist`, status 400 with the body `ErrProductNotFound` when it
is `order.ErrProductNotExist`, and status 500 with the body `ErrInternalServerError`
for every other error. -/
theorem C22_handle_order_error (err : Option GoError) :
    (err = some OrderService.ErrUserNotExist →
      handleOrderError err =
        { statusCode := 400
          body := .json (.errorResponse 404 "user_not_exist" "user does not exist") }) ∧
    (err = some OrderService.ErrProductNotExist →
      handleOrderError err =
        { statusCode := 400
          body := .json (.errorResponse 404 "product_not_found" "product is not found") }) ∧
    (err ≠ some OrderService.ErrUserNotExist → err ≠ some OrderService.ErrProductNotExist →
      handleOrderError err =
        { statusCode := 500
          body := .json (.errorResponse 500 "internal_error" "internal server error") }) := by
  refine ⟨?_, ?_, ?_⟩
  · intro h
    rw [h]
    rfl
  · intro h
    rw [h]
    rfl
  · intro h1 h2
    unfold handleOrderError
    rw [if_neg h1, if_neg h2]
    rfl

/-- C22 (witness): an error that only wraps `order.ErrUserNotExist` gets status 500. -/
theorem C22_handle_order_error_witness :
    handleOrderError (some (.wrapError "create order: " OrderService.ErrUserNotExist)) =
      { statusCode := 500
        body := .json (.errorResponse 500 "internal_error" "internal server error") } :=
  (C22_handle_order_error
    (some (.wrapError "create order: " OrderService.ErrUserNotExist))).2.2
    (by decide) (by decide)

end RestV1

/-! ## Claims about the statistics service -/

namespace UserService

theorem reportedCount_append (status : String) (stats : List OrderRepo.Statistics)
    (stat : OrderRepo.Statistics) :
    reportedCount status (stats ++ [stat]) =
      if stat.Status = status then stat.Count else reportedCount status stats := by
  unfold reportedCount
  rw [List.filter_append]
  by_cases h : stat.Status = status
  · simp [h]
  · simp [h]

theorem addStat_fields (o : OrderSummary) (stat : OrderRepo.Statistics) :
    (addStat o stat).TotalNew = (if stat.Status = "NEW" then stat.Count else o.TotalNew) ∧
    (addStat o stat).TotalPending
      = (if stat.Status = "PENDING" then stat.Count else o.TotalPending) ∧
    (addStat o stat).TotalSuccess
      = (if stat.Status = "SUCCESS" then stat.Count else o.TotalSuccess) ∧
    (addStat o stat).TotalFailed
      = (if stat.Status = "FAILED" then stat.Count else o.TotalFailed) := by
  unfold addStat OrderService.OrderStatusNew OrderService.OrderStatusPending
    OrderService.OrderStatusSuccess OrderService.OrderStatusFailed
  by_cases h1 : stat.Status = "NEW"
  · simp [h1]
  · by_cases h2 : stat.Status = "PENDING"
    · simp [h2]
    · by_cases h3 : stat.Status = "SUCCESS"
      · simp [h3]
      · by_cases h4 : stat.Status = "FAILED"
        · simp [h4]
        · simp [h1, h2, h3, h4]

/-- The summary that the loop builds holds the reported counts of the four statuses. -/
theorem foldl_addStat (stats : List OrderRepo.Statistics) :
    stats.foldl addStat {} =
      { TotalNew := reportedCount "NEW" stats
        TotalPending := reportedCount "PENDING" stats
        TotalSuccess := reportedCount "SUCCESS" stats
        TotalFailed := reportedCount "FAILED" stats } := by
  induction stats using List.reverseRecOn with
  | nil => rfl
  | append_singleton l a ih =>
    rw [List.foldl_append, List.foldl_cons, List.foldl_nil, ih]
    have h := addStat_fields
      { TotalNew := reportedCount "NEW" l
        TotalPending := reportedCount "PENDING" l
        TotalSuccess := reportedCount "SUCCESS" l
        TotalFailed := reportedCount "FAILED" l } a
    rw [reportedCount_append, reportedCount_append, reportedCount_append, reportedCount_append]
    rcases hx : addStat
      { TotalNew := reportedCount "NEW" l
        TotalPending := reportedCount "PENDING" l
        TotalSuccess := reportedCount "SUCCESS" l
        TotalFailed := reportedCount "FAILED" l } a with ⟨n, p, sc, f⟩
    rw [hx] at h
    simp only at h
    rw [h.1, h.2.1, h.2.2.1, h.2.2.2]

/-- With one row per status, the reported count of a status is the count of its row. -/
theorem reportedCount_of_mem (stats : List OrderRepo.Statistics)
    (hnodup : (stats.map (fun stat => stat.Status)).Nodup) (stat : OrderRepo.Statistics)
    (hmem : stat ∈ stats) : reportedCount stat.Status stats = stat.Count := by
  induction stats using List.reverseRecOn with
  | nil => cases hmem
  | append_singleton l a ih =>
    rw [reportedCount_append]
    rw [List.map_append, List.nodup_append] at hnodup
    rcases List.mem_append.1 hmem with h | h
    · have hne : a.Status ≠ stat.Status := by
        intro heq
        exact hnodup.2.2 (List.mem_map.2 ⟨stat, h, rfl⟩)
          (by rw [← heq]; exact List.mem_singleton.2 rfl)
      rw [if_neg hne]
      exact ih hnodup.1 h
    · rw [List.mem_singleton.1 h, if_pos rfl]

/-- A status that no row reports has the reported count 0. -/
theorem reportedCount_of_not_mem (status : String) (stats : List OrderRepo.Statistics)
    (h : ∀ stat ∈ stats, stat.Status ≠ status) : reportedCount status stats = 0 := by
  unfold reportedCount
  have : stats.filter (fun stat => decide (stat.Status = status)) = [] := by
    rw [List.filter_eq_nil_iff]
    intro stat hs
    simpa using h stat hs
  rw [this]
  rfl

end UserService

namespace UserService

theorem reportedCount_filter (status : String) (p : OrderRepo.Statistics → Bool)
    (stats : List OrderRepo.Statistics) (hp : ∀ stat, stat.Status = status → p stat = true) :
    reportedCount status (stats.filter p) = reportedCount status stats := by
  unfold reportedCount
  rw [List.filter_filter]
  have : (fun a : OrderRepo.Statistics => decide (a.Status = status) && p a)
      = (fun a => decide (a.Status = status)) := by
    funext a
    by_cases h : a.Status = status
    · simp [h, hp a h]
    · simp [h]
  rw [this]

/-- C23: when the four repository calls succeed, `GetStatistics` returns the user and
product totals unchanged, the latest orders of the repository field by field and in
the same order, and an order summary whose `TotalNew`, `TotalPending`, `TotalSuccess`
and `TotalFailed` are the counts reported for `NEW`, `PENDING`, `SUCCESS` and
`FAILED`: the count of the row with that status when every status has one row at
most, 0 for a status without a row; rows of any other status change nothing. When a
repository call fails, `GetStatistics` returns the error of that call with the zero
value of the summary. -/
theorem C23_get_statistics {σ : Type} (repo : StatisticsRepo σ) (orderLimit : Int) (s : σ) :
    (∀ u s1 p s2 stats s3 orders s4,
      repo.userGetStatistics s = ((u, none), s1) →
      repo.productGetStatistics s1 = ((p, none), s2) →
      repo.orderGetStatistics s2 = ((stats, none), s3) →
      repo.orderGetLatestOrder orderLimit s3 = ((orders, none), s4) →
      GetStatistics repo orderLimit s =
          (({ Users := { Total := u.Total, TotalInactive := u.TotalInactive }
              Products := { Total := p.Total, TotalInactive := p.TotalInactive }
              Orders :=
                { TotalNew := reportedCount "NEW" stats
                  TotalPending := reportedCount "PENDING" stats
                  TotalSuccess := reportedCount "SUCCESS" stats
                  TotalFailed := reportedCount "FAILED" stats }
              LatestOrders := orders.map (fun order =>
                { OrderID := order.OrderID
                  OrderNumber := order.OrderNumber
                  OrderDate := order.OrderDate
                  Status := order.Status
                  UserID := order.UserID
                  Total := order.Total }) }, none), s4) ∧
        ((stats.map (fun stat => stat.Status)).Nodup →
          ∀ stat ∈ stats, reportedCount stat.Status stats = stat.Count) ∧
        (∀ status, (∀ stat ∈ stats, stat.Status ≠ status) → reportedCount status stats = 0) ∧
        (∀ status ∈ ["NEW", "PENDING", "SUCCESS", "FAILED"],
          reportedCount status
              (stats.filter (fun stat =>
                decide (stat.Status ∈ ["NEW", "PENDING", "SUCCESS", "FAILED"])))
            = reportedCount status stats)) ∧
    (∀ u err s1, repo.userGetStatistics s = ((u, some err), s1) →
      GetStatistics repo orderLimit s = (({}, some err), s1)) ∧
    (∀ u s1 p err s2,
      repo.userGetStatistics s = ((u, none), s1) →
      repo.productGetStatistics s1 = ((p, some err), s2) →
      GetStatistics repo orderLimit s = (({}, some err), s2)) ∧
    (∀ u s1 p s2 stats err s3,
      repo.userGetStatistics s = ((u, none), s1) →
      repo.productGetStatistics s1 = ((p, none), s2) →
      repo.orderGetStatistics s2 = ((stats, some err), s3) →
      GetStatistics repo orderLimit s = (({}, some err), s3)) ∧
    (∀ u s1 p s2 stats s3 orders err s4,
      repo.userGetStatistics s = ((u, none), s1) →
      repo.productGetStatistics s1 = ((p, none), s2) →
      repo.orderGetStatistics s2 = ((stats, none), s3) →
      repo.orderGetLatestOrder orderLimit s3 = ((orders, some err), s4) →
      GetStatistics repo orderLimit s = (({}, some err), s4)) := by
  refine ⟨?_, ?_, ?_, ?_, ?_⟩
  · intro u s1 p s2 stats s3 orders s4 hu hp ho hl
    refine ⟨?_, fun hn stat hs => reportedCount_of_mem stats hn stat hs,
      fun status h => reportedCount_of_not_mem status stats h, ?_⟩
    · unfold GetStatistics
      rw [hu]
      simp only
      rw [hp]
      simp only
      rw [ho]
      simp only
      rw [hl]
      simp only
      rw [foldl_addStat]
      rfl
    · intro status hst
      apply reportedCount_filter
      intro stat h
      rw [h]
      exact decide_eq_true hst
  · intro u err s1 hu
    unfold GetStatistics
    rw [hu]
  · intro u s1 p err s2 hu hp
    unfold GetStatistics
    rw [hu]
    simp only
    rw [hp]
  · intro u s1 p s2 stats err s3 hu hp ho
    unfold GetStatistics
    rw [hu]
    simp only
    rw [hp]
    simp only
    rw [ho]
  · intro u s1 p s2 stats s3 orders err s4 hu hp ho hl
    unfold GetStatistics
    rw [hu]
    simp only
    rw [hp]
    simp only
    rw [ho]
    simp only
    rw [hl]

/-- C23 (witness): a repository that reports 10 `NEW`, 3 `CANCELLED` and 7 `FAILED`
orders, and the same repository when the order statistics cannot be read. -/
theorem C23_get_statistics_witness :
    (GetStatistics testStatisticsRepo 5 ()).1 =
      ({ Users := { Total := 10, TotalInactive := 5 }
         Products := { Total := 20, TotalInactive := 4 }
         Orders := { TotalNew := 10, TotalPending := 0, TotalSuccess := 0, TotalFailed := 7 }
         LatestOrders :=
           [{ OrderID := 1, OrderNumber := "order-1", Status := "NEW", UserID := 1,
              Total := { bits := 0x4059000000000000 } }] }, none) ∧
      GetStatistics testStatisticsRepoFails 5 () =
        (({}, some (.errorString "connection refused")), ()) :=
  ⟨(congrArg Prod.fst
      ((C23_get_statistics testStatisticsRepo 5 ()).1
        { Total := 10, TotalInactive := 5 } () { Total := 20, TotalInactive := 4 } ()
        [{ Status := "NEW", Count := 10 }, { Status := "CANCELLED", Count := 3 },
          { Status := "FAILED", Count := 7 }] ()
        [{ OrderID := 1, OrderNumber := "order-1", Status := "NEW", UserID := 1,
           Total := { bits := 0x4059000000000000 } }] () rfl rfl rfl rfl).1).trans (by decide),
    (C23_get_statistics testStatisticsRepoFails 5 ()).2.2.2.1
      { Total := 10, TotalInactive := 5 } () { Total := 20, TotalInactive := 4 } () []
      (.errorString "connection refused") () rfl rfl rfl⟩

end UserService

/-! ## Claims about the order of the sort clauses -/

/-- C24 (counterexample): a request body whose `sort_by` object gives `created_at`
before `order_date` is accepted, and the page-fetch query of the order listing sorts
by `order_date` first. -/
theorem C24_counterexample :
    (RestV1.validGetOrdersReq
        { SortBy := RestV1.decodeOrderSortBy
            [(RestV1.orderSortKey.created_at, "asc"),
              (RestV1.orderSortKey.order_date, "desc")] }).2 = none ∧
      (OrderService.GetOrders (tableEnv threeOrders)
          (RestV1.validGetOrdersReq
            { SortBy := RestV1.decodeOrderSortBy
                [(RestV1.orderSortKey.created_at, "asc"),
                  (RestV1.orderSortKey.order_date, "desc")] }).1 ()).2.1.map
          (fun c => c.mods.filter QueryMod.isOrderBy) =
        [[], [QueryMod.OrderBy "order_date desc", QueryMod.OrderBy "created_at asc"]] := by
  decide

/-- C24 (amended): when the caller supplies sort fields, each listing operation, in
every run whose count query succeeds, runs the page-fetch query with exactly the
clauses of the non-empty sort fields as its sort clauses, none dropped and none
added, in a fixed order, whatever order the caller gave the fields in: for orders
`order_date` then `created_at`, for users `name`, `email`, `created_at`, for products
`title`, `created_at`, `price`, `quantity`. The decoded sort fields of an order
listing request are the same for both orders of the two members. -/
theorem C24_fixed_sort_order {σ : Type} (env : QueryEnv σ) (s : σ) :
    (∀ (input : OrderRepo.OrdersInput) (total : Int) (s1 : σ),
      env.ordersCount (OrderRepo.filterMods input) s = ((total, none), s1) →
      ¬ (input.SortBy.OrderDate = "" ∧ input.SortBy.CreatedAt = "") →
      ∃ mods,
        (OrderRepo.GetOrders env input s).2.1 =
          [QueryCall.Count "orders" (OrderRepo.filterMods input) total none,
            QueryCall.All "orders" mods (env.ordersAll mods s1).1.1.length
              (env.ordersAll mods s1).1.2] ∧
        mods.filter QueryMod.isOrderBy =
          ([("order_date", input.SortBy.OrderDate),
              ("created_at", input.SortBy.CreatedAt)].filter
            (fun p => decide (p.2 ≠ ""))).map
            (fun p => QueryMod.OrderBy (p.1 ++ " " ++ p.2))) ∧
    (∀ (input : UserRepo.Filter) (total : Int) (s1 : σ),
      env.usersCount (UserRepo.filterMods input) s = ((total, none), s1) →
      ¬ (input.Sort_.Name = "" ∧ input.Sort_.Email = "" ∧ input.Sort_.CreatedAt = "") →
      ∃ mods,
        (UserRepo.GetUsers env input s).2.1 =
          [QueryCall.Count "users" (UserRepo.filterMods input) total none,
            QueryCall.All "users" mods (env.usersAll mods s1).1.1.length
              (env.usersAll mods s1).1.2] ∧
        mods.filter QueryMod.isOrderBy =
          ([("name", input.Sort_.Name), ("email", input.Sort_.Email),
              ("created_at", input.Sort_.CreatedAt)].filter
            (fun p => decide (p.2 ≠ ""))).map
            (fun p => QueryMod.OrderBy (p.1 ++ " " ++ p.2))) ∧
    (∀ (filter : ProductRepo.Filter) (total : Int) (s1 : σ),
      env.productsCount (ProductRepo.filterMods filter) s = ((total, none), s1) →
      ¬ (filter.OrderBy.Title = "" ∧ filter.OrderBy.Price = "" ∧
          filter.OrderBy.Quantity = "" ∧ filter.OrderBy.CreatedAt = "") →
      ∃ mods,
        (ProductRepo.GetProducts env filter s).2.1 =
          [QueryCall.Count "products" (ProductRepo.filterMods filter) total none,
            QueryCall.All "products" mods (env.productsAll mods s1).1.1.length
              (env.productsAll mods s1).1.2] ∧
        mods.filter QueryMod.isOrderBy =
          ([("title", filter.OrderBy.Title), ("created_at", filter.OrderBy.CreatedAt),
              ("price", filter.OrderBy.Price), ("quantity", filter.OrderBy.Quantity)].filter
            (fun p => decide (p.2 ≠ ""))).map
            (fun p => QueryMod.OrderBy (p.1 ++ " " ++ p.2))) ∧
    (∀ orderDate createdAt : String,
      RestV1.decodeOrderSortBy
          [(RestV1.orderSortKey.created_at, createdAt),
            (RestV1.orderSortKey.order_date, orderDate)]
        = RestV1.decodeOrderSortBy
          [(RestV1.orderSortKey.order_date, orderDate),
            (RestV1.orderSortKey.created_at, createdAt)]) := by
  refine ⟨?_, ?_, ?_, fun _ _ => rfl⟩
  · intro input total s1 hcount hz
    refine ⟨OrderRepo.pagingMods input (OrderRepo.sortMods input (OrderRepo.filterMods input)),
      OrderRepo.GetOrders_calls_of_count env input s total s1 hcount, ?_⟩
    rw [OrderRepo.fetch_sorts_orders input (OrderRepo.filterMods input),
      filter_isOrderBy_nil _ (OrderRepo.filterMods_plain_orders input), List.nil_append,
      if_pos (fun h => hz ((OrderRepo.sortBy_eq_zero _).1 h))]
    simp only [Model.OrderColumns.OrderDate, Model.OrderColumns.CreatedAt]
    split_ifs <;> simp [*]
  · intro input total s1 hcount hz
    refine ⟨UserRepo.pagingMods input (UserRepo.sortMods input (UserRepo.filterMods input)),
      UserRepo.GetUsers_calls_of_count env input s total s1 hcount, ?_⟩
    rw [UserRepo.fetch_sorts_users input (UserRepo.filterMods input),
      filter_isOrderBy_nil _ (UserRepo.filterMods_plain_users input), List.nil_append,
      if_pos (fun h => hz ((UserRepo.sort_eq_zero _).1 h))]
    simp only [Model.UserColumns.Name, Model.UserColumns.Email, Model.UserColumns.CreatedAt]
    split_ifs <;> simp [*]
  · intro filter total s1 hcount hz
    refine ⟨ProductRepo.pagingMods filter
        (ProductRepo.sortMods filter (ProductRepo.filterMods filter)),
      ProductRepo.GetProducts_calls_of_count env filter s total s1 hcount, ?_⟩
    rw [ProductRepo.fetch_sorts_products filter (ProductRepo.filterMods filter),
      filter_isOrderBy_nil _ (ProductRepo.filterMods_plain_products filter), List.nil_append,
      if_pos (fun h => hz ((ProductRepo.orderBy_eq_zero _).1 h))]
    simp only [Model.ProductColumns.Title, Model.ProductColumns.CreatedAt,
      Model.ProductColumns.Price, Model.ProductColumns.Quantity]
    split_ifs <;> simp [*]

/-- C24 (witness): the order listing sorted by `created_at` and by `order_date` has
the `order_date` clause first, then the `created_at` clause; the product listing
sorted by quantity and by title has the title clause first, then the quantity
clause. -/
theorem C24_fixed_sort_order_witness :
    ((OrderRepo.GetOrders (tableEnv threeOrders)
          { SortBy := { CreatedAt := "asc", OrderDate := "desc" } } ()).2.1 =
        [QueryCall.Count "orders" [QueryMod.Load "OrderItems"] 3 none,
          QueryCall.All "orders"
            [QueryMod.Load "OrderItems", QueryMod.OrderBy "order_date desc",
              QueryMod.OrderBy "created_at asc"] 3 none] ∧
      (ProductRepo.GetProducts (tableEnv threeOrders)
          { OrderBy := { Quantity := "desc", Title := "asc" } } ()).2.1 =
        [QueryCall.Count "products" [] 3 none,
          QueryCall.All "products"
            [QueryMod.OrderBy "title asc", QueryMod.OrderBy "quantity desc",
              QueryMod.Load "User"] 3 none]) ∧
    (∃ mods,
      (OrderRepo.GetOrders (tableEnv threeOrders)
          { SortBy := { CreatedAt := "asc", OrderDate := "desc" } } ()).2.1 =
        [QueryCall.Count "orders"
            (OrderRepo.filterMods { SortBy := { CreatedAt := "asc", OrderDate := "desc" } })
            3 none,
          QueryCall.All "orders" mods ((tableEnv threeOrders).ordersAll mods ()).1.1.length
            ((tableEnv threeOrders).ordersAll mods ()).1.2] ∧
      mods.filter QueryMod.isOrderBy =
        [QueryMod.OrderBy "order_date desc", QueryMod.OrderBy "created_at asc"]) ∧
    (∃ mods,
      (ProductRepo.GetProducts (tableEnv threeOrders)
          { OrderBy := { Quantity := "desc", Title := "asc" } } ()).2.1 =
        [QueryCall.Count "products"
            (ProductRepo.filterMods { OrderBy := { Quantity := "desc", Title := "asc" } })
            3 none,
          QueryCall.All "products" mods
            ((tableEnv threeOrders).productsAll mods ()).1.1.length
            ((tableEnv threeOrders).productsAll mods ()).1.2] ∧
      mods.filter QueryMod.isOrderBy =
        [QueryMod.OrderBy "title asc", QueryMod.OrderBy "quantity desc"]) :=
  ⟨by decide,
    ((C24_fixed_sort_order (tableEnv threeOrders) ()).1
        { SortBy := { CreatedAt := "asc", OrderDate := "desc" } } 3 () (by decide)
        (by decide)).elim
      (fun mods h => ⟨mods, h.1, h.2.trans (by decide)⟩),
    ((C24_fixed_sort_order (tableEnv threeOrders) ()).2.2.1
        { OrderBy := { Quantity := "desc", Title := "asc" } } 3 () (by decide)
        (by decide)).elim
      (fun mods h => ⟨mods, h.1, h.2.trans (by decide)⟩)⟩

/-! ## Claims about the product service -/

namespace ProductService

/-- C25: `UpdateProduct` asks whether a product with the given id exists and never asks
for the user of the input: its result is the same whatever the existence query on
table `users` answers. When no product has the id it returns `ErrUserNotExist`; when
the product exists it updates it, and returns `ErrProductNotFound` only when the
update then affects no row. -/
theorem C25_update_product_checks_product {σ : Type} (env : Env σ) (id : Int)
    (product : ProductInput) (s : σ) :
    (∀ usersExists : Int → σ → (Bool × Option GoError) × σ,
      UpdateProduct { env with usersExists := usersExists } id product s
        = UpdateProduct env id product s) ∧
    (∀ s1, env.productsExists id s = ((false, none), s1) →
      UpdateProduct env id product s = (some ErrUserNotExist, s1)) ∧
    (∀ existed err s1, env.productsExists id s = ((existed, some err), s1) →
      UpdateProduct env id product s = (some err, s1)) ∧
    (∀ s1 affected s2, env.productsExists id s = ((true, none), s1) →
      env.productUpdate
          { ID := id
            Title := product.Title
            Description := product.Description
            Price := product.Price
            Quantity := product.Quantity
            IsActive := product.IsActive
            UserID := product.UserID } s1 = ((affected, none), s2) →
      UpdateProduct env id product s
        = (if affected = 0 then some ErrProductNotFound else none, s2)) := by
  refine ⟨fun _ => rfl, ?_, ?_, ?_⟩
  · intro s1 h
    unfold UpdateProduct ProductRepo.ExistsProductByID
    rw [h]
    rfl
  · intro existed err s1 h
    unfold UpdateProduct ProductRepo.ExistsProductByID
    rw [h]
  · intro s1 affected s2 h1 h2
    unfold UpdateProduct ProductRepo.ExistsProductByID ProductRepo.UpdateProduct
    rw [h1]
    simp only [Bool.not_true, Bool.false_eq_true, if_false]
    rw [h2]
    simp only
    split <;> rfl

/-- C25 (witness): with an existing user and no product of id 1 the update returns
`ErrUserNotExist`; with an existing product whose input names a user that does not
exist the update succeeds. -/
theorem C25_update_product_checks_product_witness :
    UpdateProduct (OrderService.scriptEnv OrderService.testProductMissing) 1
        testProductInput {} = (some ErrUserNotExist, {}) ∧
      UpdateProduct (OrderService.scriptEnv OrderService.testOwnerMissing) 1
        testProductInput {} = (none, {}) :=
  ⟨(C25_update_product_checks_product
      (OrderService.scriptEnv OrderService.testProductMissing) 1 testProductInput {}).2.1
      {} rfl,
    (C25_update_product_checks_product
      (OrderService.scriptEnv OrderService.testOwnerMissing) 1 testProductInput {}).2.2.2
      {} 1 {} rfl rfl⟩

end ProductService

/-! ## Claims about the invocations of the unit of work -/

namespace Repository

theorem Tx_shape {σ : Type} (env : Env σ)
    (fn : TxHandle → σ → Option GoError × List Call × σ) (s : σ) :
    (∀ tx e s1, env.beginTx s = ((tx, some e), s1) →
      Tx env fn s = (some e, [Call.BeginTx tx (some e)], s1)) ∧
    (∀ tx s1, env.beginTx s = ((tx, none), s1) →
      ∃ last, (Tx env fn s).2.1 = Call.BeginTx tx none :: (fn tx s1).2.1 ++ [last] ∧
        ((last = Call.Commit tx (Tx env fn s).1 ∧ (fn tx s1).1 = none) ∨
          (∃ rerr, last = Call.Rollback tx rerr ∧ (fn tx s1).1 ≠ none ∧
            (Tx env fn s).1 = (fn tx s1).1))) := by
  constructor
  · intro tx e s1 hb
    unfold Tx
    rw [hb]
  · intro tx s1 hb
    rcases hf : fn tx s1 with ⟨_ | e, calls, s2⟩
    · rw [OrderService.Tx_of_fn_nil env fn s s1 s2 tx calls hb hf]
      exact ⟨_, rfl, Or.inl ⟨rfl, rfl⟩⟩
    · rw [OrderService.Tx_of_fn_err env fn s s1 s2 tx e calls hb hf]
      exact ⟨_, rfl, Or.inr ⟨_, rfl, by simp, rfl⟩⟩

/-- Running `Tx` with the counter gives the run without it. -/
theorem Tx_withCounter {σ : Type} (env : Env σ)
    (fn : TxHandle → σ → Option GoError × List Call × σ) (s : σ) (n : Nat) :
    (Tx (withCounter env) (counted fn) (s, n)).1 = (Tx env fn s).1 ∧
      (Tx (withCounter env) (counted fn) (s, n)).2.1 = (Tx env fn s).2.1 ∧
      (Tx (withCounter env) (counted fn) (s, n)).2.2.1 = (Tx env fn s).2.2 ∧
      (Tx (withCounter env) (counted fn) (s, n)).2.2.2 =
        (if (env.beginTx s).1.2 = none then n + 1 else n) := by
  rcases hb : env.beginTx s with ⟨⟨tx, _ | e⟩, s1⟩
  · have hb2 : (withCounter env).beginTx (s, n) = ((tx, none), (s1, n)) := by
      simp only [withCounter, hb]
    rcases hf : fn tx s1 with ⟨_ | e, calls, s2⟩
    · have hf2 : counted fn tx (s1, n) = (none, calls, (s2, n + 1)) := by
        simp only [counted, hf]
      have hc2 : (withCounter env).commit tx (s2, n + 1)
          = ((env.commit tx s2).1, ((env.commit tx s2).2, n + 1)) := rfl
      rw [OrderService.Tx_of_fn_nil env fn s s1 s2 tx calls hb hf,
        OrderService.Tx_of_fn_nil (withCounter env) (counted fn) (s, n) (s1, n) (s2, n + 1) tx
          calls hb2 hf2, hc2]
      exact ⟨rfl, rfl, rfl, rfl⟩
    · have hf2 : counted fn tx (s1, n) = (some e, calls, (s2, n + 1)) := by
        simp only [counted, hf]
      have hc2 : (withCounter env).rollback tx (s2, n + 1)
          = ((env.rollback tx s2).1, ((env.rollback tx s2).2, n + 1)) := rfl
      rw [OrderService.Tx_of_fn_err env fn s s1 s2 tx e calls hb hf,
        OrderService.Tx_of_fn_err (withCounter env) (counted fn) (s, n) (s1, n) (s2, n + 1) tx
          e calls hb2 hf2, hc2]
      exact ⟨rfl, rfl, rfl, rfl⟩
  · have hb2 : (withCounter env).beginTx (s, n) = ((tx, some e), (s1, n)) := by
      simp only [withCounter, hb]
    rw [(Tx_shape env fn s).1 tx e s1 hb,
      (Tx_shape (withCounter env) (counted fn) (s, n)).1 tx e (s1, n) hb2]
    exact ⟨rfl, rfl, rfl, rfl⟩

/-- C26: count the invocations of the unit of work `fn` in a run of `Tx`. The count
rises by one at most. When opening the transaction fails, `Tx` returns that error,
`fn` is not invoked, and the only call is the failed `BeginTx`. When opening succeeds,
`fn` is invoked exactly once, and after its calls comes exactly one more call: `Commit`
when `fn` returned nil, `Rollback` when it returned an error. -/
theorem C26_tx_invocations {σ : Type} (env : Env σ)
    (fn : TxHandle → σ → Option GoError × List Call × σ) (s : σ) (n : Nat) :
    ((Tx (withCounter env) (counted fn) (s, n)).1 = (Tx env fn s).1 ∧
      (Tx (withCounter env) (counted fn) (s, n)).2.1 = (Tx env fn s).2.1 ∧
      (Tx (withCounter env) (counted fn) (s, n)).2.2.1 = (Tx env fn s).2.2) ∧
    (Tx (withCounter env) (counted fn) (s, n)).2.2.2 ≤ n + 1 ∧
    (∀ tx e s1, env.beginTx s = ((tx, some e), s1) →
      (Tx env fn s).1 = some e ∧
      (Tx (withCounter env) (counted fn) (s, n)).2.2.2 = n ∧
      (Tx env fn s).2.1 = [Call.BeginTx tx (some e)]) ∧
    (∀ tx s1, env.beginTx s = ((tx, none), s1) →
      (Tx (withCounter env) (counted fn) (s, n)).2.2.2 = n + 1 ∧
      ∃ last, (Tx env fn s).2.1 = Call.BeginTx tx none :: (fn tx s1).2.1 ++ [last] ∧
        ((last.isCommit = true ∧ last.isRollback = false ∧ (fn tx s1).1 = none) ∨
          (last.isRollback = true ∧ last.isCommit = false ∧ (fn tx s1).1 ≠ none))) := by
  have hc := Tx_withCounter env fn s n
  have hs := Tx_shape env fn s
  refine ⟨⟨hc.1, hc.2.1, hc.2.2.1⟩, ?_, ?_, ?_⟩
  · rw [hc.2.2.2]
    split <;> omega
  · intro tx e s1 hb
    have h := hs.1 tx e s1 hb
    refine ⟨by rw [h], ?_, by rw [h]⟩
    rw [hc.2.2.2, hb]
    simp
  · intro tx s1 hb
    refine ⟨?_, ?_⟩
    · rw [hc.2.2.2, hb]
      simp
    · rcases hs.2 tx s1 hb with ⟨last, h1, h2 | ⟨rerr, h2, h3, _⟩⟩
      · exact ⟨last, h1, Or.inl ⟨by rw [h2.1]; rfl, by rw [h2.1]; rfl, h2.2⟩⟩
      · exact ⟨last, h1, Or.inr ⟨by rw [h2]; rfl, by rw [h2]; rfl, h3⟩⟩

/-- C26 (witness): when the transaction cannot be opened the unit of work is not
invoked; when it can, it is invoked once. -/
theorem C26_tx_invocations_witness :
    (Tx (withCounter (OrderService.scriptEnv OrderService.testBeginFails))
        (counted (fun _ s => (none, [], s))) ({}, 0)).2.2.2 = 0 ∧
      (Tx (withCounter (OrderService.scriptEnv OrderService.testAllOK))
        (counted (fun _ s => (none, [], s))) ({}, 0)).2.2.2 = 0 + 1 :=
  ⟨((C26_tx_invocations (OrderService.scriptEnv OrderService.testBeginFails)
      (fun _ s => (none, [], s)) {} 0).2.2.1 1 (.errorString "too many connections") {}
      rfl).2.1,
    ((C26_tx_invocations (OrderService.scriptEnv OrderService.testAllOK)
      (fun _ s => (none, [], s)) {} 0).2.2.2 1 {} rfl).1⟩

end Repository

/-! ## Claims about the bulk insert of products -/

namespace ProductRepo

theorem insertAllGroup_eq (k : Nat) : insertAllGroup (6 * k) = placeholderGroup k ++ "," := by
  unfold insertAllGroup placeholderGroup
  rw [String.append_assoc _ ")" ","]
  rfl

theorem TrimSuffix_comma (x : String) : strings.TrimSuffix (x ++ ",") "," = x := by
  unfold strings.TrimSuffix
  have h1 : (x ++ ",").data = x.data ++ [','] := by
    rw [String.data_append]
  have h2 : (",".data).isSuffixOf (x ++ ",").data = true := by
    rw [List.isSuffixOf_iff_suffix, h1]
    exact List.suffix_append _ _
  rw [if_pos h2, h1]
  have h3 : (",".data).length = 1 := rfl
  rw [h3, List.length_append, List.length_singleton, Nat.add_sub_cancel, List.take_left']
  rfl

theorem insertAllLoop_values (products : List Product) :
    ∀ (queryStr : String) (values : List SQLValue) (idx : Nat),
      (insertAllLoop products (queryStr, values, idx)).2.1
        = values ++ (products.map insertAllValues).flatten := by
  induction products with
  | nil =>
    intro queryStr values idx
    simp [insertAllLoop]
  | cons p products ih =>
    intro queryStr values idx
    simp only [insertAllLoop, ih, List.map_cons, List.flatten_cons, List.append_assoc]

theorem insertAllLoop_statement (products : List Product) :
    ∀ (pre acc : String) (values : List SQLValue) (k : Nat),
      (insertAllLoop products (pre ++ acc ++ ",", values, 6 * k)).1
        = pre ++ String.intercalate.go acc ","
            ((List.range products.length).map (fun j => placeholderGroup (k + j))) ++ "," := by
  induction products with
  | nil =>
    intro pre acc values k
    simp [insertAllLoop, String.intercalate.go]
  | cons p products ih =>
    intro pre acc values k
    have h1 : pre ++ acc ++ "," ++ insertAllGroup (6 * k)
        = pre ++ (acc ++ "," ++ placeholderGroup k) ++ "," := by
      rw [insertAllGroup_eq]
      simp only [String.append_assoc]
    have h2 : 6 * k + 6 = 6 * (k + 1) := by omega
    have h3 : (List.range (p :: products).length).map (fun j => placeholderGroup (k + j))
        = placeholderGroup k ::
          (List.range products.length).map (fun j => placeholderGroup (k + 1 + j)) := by
      rw [List.length_cons, List.range_succ_eq_map, List.map_cons, List.map_map]
      refine congrArg₂ _ rfl (List.map_congr_left ?_)
      intro j _
      show placeholderGroup (k + (j + 1)) = placeholderGroup (k + 1 + j)
      rw [Nat.add_right_comm k 1 j, Nat.add_assoc]
    rw [h3]
    simp only [insertAllLoop, String.intercalate.go]
    rw [h1, h2, ih]

theorem insertAllValues_length (products : List Product) :
    (products.map insertAllValues).flatten.length = 6 * products.length := by
  induction products with
  | nil => rfl
  | cons p ps ih =>
    rw [List.map_cons, List.flatten_cons, List.length_append, ih, List.length_cons]
    show 6 + 6 * ps.length = 6 * (ps.length + 1)
    omega

/-- C27: for a list of `n ≥ 1` products the statement of `InsertAll` is the header
followed by the `n` placeholder groups joined by single commas, where the group of the
`k`-th product (counted from 0) is `($6k+1, ..., $6k+6)`; the bound values are, product
by product in list order, title, description, price, quantity, is_active and user_id,
`6n` values in all. For the empty list the statement is the header, which ends in
`VALUES `, and there are no values. `InsertAll` executes this statement with these
values and returns the error of the execution. -/
theorem C27_insert_all_statement (products : List Product) :
    (products ≠ [] →
      (insertAllQuery products).1 =
        "INSERT INTO products (title, description, price, quantity, is_active, user_id) VALUES "
          ++ String.intercalate "," ((List.range products.length).map placeholderGroup)) ∧
    (insertAllQuery products).2 =
      (products.map (fun p =>
        [SQLValue.string p.Title, SQLValue.string p.Description, SQLValue.float p.Price,
          SQLValue.int p.Quantity, SQLValue.bool p.IsActive, SQLValue.int p.UserID])).flatten ∧
    (insertAllQuery products).2.length = 6 * products.length ∧
    insertAllQuery [] =
      ("INSERT INTO products (title, description, price, quantity, is_active, user_id) VALUES ",
        []) ∧
    (∀ {σ : Type} (exec : TxHandle → String → List SQLValue → σ → Option GoError × σ)
        (tx : TxHandle) (s : σ),
      InsertAll exec tx products s
        = exec tx (insertAllQuery products).1 (insertAllQuery products).2 s) := by
  have hv : (insertAllQuery products).2 = (products.map insertAllValues).flatten := by
    unfold insertAllQuery
    rw [insertAllLoop_values]
    rfl
  refine ⟨?_, hv, ?_, by decide, ?_⟩
  · intro hne
    cases products with
    | nil => exact absurd rfl hne
    | cons p products =>
      have h1 : insertAllHeader ++ insertAllGroup 0
          = insertAllHeader ++ placeholderGroup 0 ++ "," := by
        rw [show insertAllGroup 0 = insertAllGroup (6 * 0) from rfl, insertAllGroup_eq,
          String.append_assoc]
      have h2 : (List.range (p :: products).length).map placeholderGroup
          = placeholderGroup 0 ::
            (List.range products.length).map (fun j => placeholderGroup (0 + 1 + j)) := by
        rw [List.length_cons, List.range_succ_eq_map, List.map_cons, List.map_map]
        refine congrArg₂ _ rfl (List.map_congr_left ?_)
        intro j _
        show placeholderGroup (j + 1) = placeholderGroup (0 + 1 + j)
        rw [Nat.zero_add, Nat.add_comm]
      have h3 := insertAllLoop_statement products insertAllHeader (placeholderGroup 0)
        (insertAllValues p) 1
      rw [h2]
      unfold insertAllQuery
      simp only [insertAllLoop, List.nil_append, String.intercalate]
      rw [h1, show 0 + 6 = 6 * 1 from rfl, h3, TrimSuffix_comma]
      have h4 : ∀ j, placeholderGroup (1 + j) = placeholderGroup (0 + 1 + j) := by
        intro j
        rw [Nat.zero_add]
      simp only [h4]
      rfl
  · rw [hv]
    exact insertAllValues_length products
  · intro σ exec tx s
    unfold InsertAll
    split
    · rename_i h
      rw [h]
    · rename_i h
      rw [h]

set_option maxRecDepth 20000 in
/-- C27 (witness): the statement for two products. -/
theorem C27_insert_all_statement_witness :
    (insertAllQuery [{ Title := "a", UserID := 1 }, { Title := "b", UserID := 2 }]).1 =
      "INSERT INTO products (title, description, price, quantity, is_active, user_id) VALUES ($1, $2, $3, $4, $5, $6),($7, $8, $9, $10, $11, $12)" :=
  ((C27_insert_all_statement
      [{ Title := "a", UserID := 1 }, { Title := "b", UserID := 2 }]).1 (by decide)).trans
    (by decide)

end ProductRepo

/-! ## Claims about the price range of a product listing -/

namespace Float64

theorem eq_zero_iff (x : Float64) :
    eq x zero = true ↔ (x.isNaN = false ∧ x.key = 0) := by
  have h0 : zero.isNaN = false := by decide
  have h1 : zero.key = 0 := by decide
  simp [eq, h0, h1]

theorem zero_lt_iff (x : Float64) :
    lt zero x = true ↔ (x.isNaN = false ∧ 0 < x.key) := by
  have h0 : zero.isNaN = false := by decide
  have h1 : zero.key = 0 := by decide
  simp [lt, h0, h1]

end Float64

namespace ProductRepo

theorem filterMods_price (filter : Filter) :
    (filterMods filter).filter isPriceCondition =
      if (Float64.lt Float64.zero filter.PriceRange.MinPrice
          || Float64.lt Float64.zero filter.PriceRange.MaxPrice) = true then
        [QueryMod.WhereOp Model.ProductWhere.Price Operator.GTE
            (SQLValue.float filter.PriceRange.MinPrice),
          QueryMod.WhereOp Model.ProductWhere.Price Operator.LTE
            (SQLValue.float filter.PriceRange.MaxPrice)]
      else [] := by
  unfold filterMods
  simp only [List.filter_append]
  have h1 : ∀ (c : Prop) [Decidable c] (m : QueryMod), isPriceCondition m = false →
      (if c then [m] else []).filter isPriceCondition = [] := by
    intro c _ m hm
    split
    · simp [hm]
    · rfl
  rw [h1 _ (whereHelperint_EQ Model.ProductWhere.ID filter.ID) rfl,
    h1 _ (QueryMod.Where "title LIKE ?" [SQLValue.string ("%" ++ filter.Title ++ "%")]) rfl,
    h1 _ (whereHelperint_EQ Model.ProductWhere.UserID filter.UserID) rfl,
    h1 _ (whereHelperbool_EQ Model.ProductWhere.IsActive filter.IsActive.Bool_) rfl]
  split
  · rfl
  · rfl

theorem fetch_price (filter : Filter) (qms : List QueryMod) :
    (pagingMods filter (sortMods filter qms)).filter isPriceCondition
      = qms.filter isPriceCondition := by
  unfold pagingMods sortMods
  split_ifs <;> simp [List.filter_append, isPriceCondition]

/-- The price conditions of every query that `GetProducts` runs. -/
theorem GetProducts_price {σ : Type} (env : QueryEnv σ) (filter : Filter) (s : σ) :
    ∀ c ∈ (GetProducts env filter s).2.1,
      c.mods.filter isPriceCondition = (filterMods filter).filter isPriceCondition := by
  intro c hc
  rcases ProductRepo.GetProducts_shape env filter s with
    ⟨total, e, s1, h1, h⟩ | ⟨total, s1, rows, e, s2, h1, h2, h⟩ | ⟨total, s1, rows, s2, h1, h2, h⟩
  · rw [h] at hc
    rw [List.mem_singleton.1 hc]
    rfl
  all_goals
    rw [h] at hc
    rcases List.mem_cons.1 hc with rfl | hc
    · rfl
    · rw [List.mem_singleton.1 hc]
      exact fetch_price filter _

/-- C28: repository `GetProducts` always runs the count query, and when that succeeds
the page-fetch query and nothing else. In both queries the conditions on the price
are `price >= MinPrice` and `price <= MaxPrice`, both together, when `MinPrice > 0` or
`MaxPrice > 0`, and none otherwise. So with `MinPrice > 0` and `MaxPrice = 0` a product
whose price is positive fails the condition `price <= MaxPrice` of the count query
and of the page-fetch query, and with `MinPrice = 0` and `MaxPrice = 0` neither query
has a price condition. -/
theorem C28_price_range {σ : Type} (env : QueryEnv σ) (filter : Filter) (s : σ) :
    ∃ (countMods : List QueryMod) (total : Int) (cerr : Option GoError)
      (rest : List QueryCall),
      (env.productsCount countMods s).1 = (total, cerr) ∧
      (GetProducts env filter s).2.1 = QueryCall.Count "products" countMods total cerr :: rest ∧
      (countMods.filter isPriceCondition =
        if (Float64.lt Float64.zero filter.PriceRange.MinPrice
            || Float64.lt Float64.zero filter.PriceRange.MaxPrice) = true then
          [QueryMod.WhereOp "\"products\".\"price\"" Operator.GTE
              (SQLValue.float filter.PriceRange.MinPrice),
            QueryMod.WhereOp "\"products\".\"price\"" Operator.LTE
              (SQLValue.float filter.PriceRange.MaxPrice)]
        else []) ∧
      (cerr ≠ none → rest = []) ∧
      (cerr = none → ∃ fetchMods rows ferr,
        rest = [QueryCall.All "products" fetchMods rows ferr] ∧
        fetchMods.filter isPriceCondition = countMods.filter isPriceCondition) ∧
      (Float64.lt Float64.zero filter.PriceRange.MinPrice = true →
        Float64.eq filter.PriceRange.MaxPrice Float64.zero = true →
        ∀ price, Float64.lt Float64.zero price = true →
          ∀ c ∈ QueryCall.Count "products" countMods total cerr :: rest,
            QueryMod.WhereOp "\"products\".\"price\"" Operator.LTE
                (SQLValue.float filter.PriceRange.MaxPrice) ∈ c.mods ∧
              priceSatisfies price (QueryMod.WhereOp "\"products\".\"price\"" Operator.LTE
                (SQLValue.float filter.PriceRange.MaxPrice)) = false) ∧
      (Float64.eq filter.PriceRange.MinPrice Float64.zero = true →
        Float64.eq filter.PriceRange.MaxPrice Float64.zero = true →
        ∀ c ∈ QueryCall.Count "products" countMods total cerr :: rest,
          ∀ m ∈ c.mods, isPriceCondition m = false) := by
  have key : ∀ c ∈ (GetProducts env filter s).2.1,
      c.mods.filter isPriceCondition =
        if (Float64.lt Float64.zero filter.PriceRange.MinPrice
            || Float64.lt Float64.zero filter.PriceRange.MaxPrice) = true then
          [QueryMod.WhereOp Model.ProductWhere.Price Operator.GTE
              (SQLValue.float filter.PriceRange.MinPrice),
            QueryMod.WhereOp Model.ProductWhere.Price Operator.LTE
              (SQLValue.float filter.PriceRange.MaxPrice)]
        else [] := by
    intro c hc
    rw [GetProducts_price env filter s c hc, filterMods_price]
  have hshape : ∃ (total : Int) (cerr : Option GoError) (rest : List QueryCall),
      (env.productsCount (filterMods filter) s).1 = (total, cerr) ∧
      (GetProducts env filter s).2.1 =
        QueryCall.Count "products" (filterMods filter) total cerr :: rest ∧
      (cerr ≠ none → rest = []) ∧
      (cerr = none → ∃ fetchMods rows ferr,
        rest = [QueryCall.All "products" fetchMods rows ferr] ∧
        fetchMods.filter isPriceCondition = (filterMods filter).filter isPriceCondition) := by
    rcases ProductRepo.GetProducts_shape env filter s with
      ⟨total, e, s1, h1, h⟩ | ⟨total, s1, rows, e, s2, h1, h2, h⟩ | ⟨total, s1, rows, s2, h1, h2, h⟩
    · exact ⟨total, some e, [], by rw [h1], by rw [h], fun _ => rfl, fun h0 => by cases h0⟩
    · exact ⟨total, none, _, by rw [h1], by rw [h], fun h0 => absurd rfl h0,
        fun _ => ⟨_, _, _, rfl, fetch_price filter _⟩⟩
    · exact ⟨total, none, _, by rw [h1], by rw [h], fun h0 => absurd rfl h0,
        fun _ => ⟨_, _, _, rfl, fetch_price filter _⟩⟩
  rcases hshape with ⟨total, cerr, rest, hcount, hcalls, hfail, hok⟩
  rw [hcalls] at key
  refine ⟨filterMods filter, total, cerr, rest, hcount, hcalls, filterMods_price filter,
    hfail, hok, ?_, ?_⟩
  · intro hmin hmax price hprice c hc
    have h := key c hc
    rw [hmin, Bool.true_or, if_pos rfl] at h
    have hm : QueryMod.WhereOp Model.ProductWhere.Price Operator.LTE
        (SQLValue.float filter.PriceRange.MaxPrice) ∈ c.mods.filter isPriceCondition := by
      rw [h]
      exact List.mem_cons_of_mem _ (List.mem_singleton.2 rfl)
    refine ⟨(List.mem_filter.1 hm).1, ?_⟩
    have h1 := (Float64.eq_zero_iff _).1 hmax
    have h2 := (Float64.zero_lt_iff _).1 hprice
    have h3 : Float64.le price filter.PriceRange.MaxPrice = false := by
      unfold Float64.le
      rw [h1.2]
      have : ¬ price.key ≤ 0 := by omega
      simp [this]
    show (Model.ProductWhere.Price != Model.ProductWhere.Price
      || Float64.le price filter.PriceRange.MaxPrice) = false
    rw [h3]
    rfl
  · intro hmin hmax c hc m hm
    have h := key c hc
    have h1 := (Float64.eq_zero_iff _).1 hmin
    have h2 := (Float64.eq_zero_iff _).1 hmax
    have h3 : Float64.lt Float64.zero filter.PriceRange.MinPrice = false := by
      cases hlt : Float64.lt Float64.zero filter.PriceRange.MinPrice with
      | false => rfl
      | true =>
        have := ((Float64.zero_lt_iff _).1 hlt).2
        omega
    have h4 : Float64.lt Float64.zero filter.PriceRange.MaxPrice = false := by
      cases hlt : Float64.lt Float64.zero filter.PriceRange.MaxPrice with
      | false => rfl
      | true =>
        have := ((Float64.zero_lt_iff _).1 hlt).2
        omega
    rw [h3, h4] at h
    simp only [Bool.or_self, Bool.false_eq_true, if_false] at h
    cases hp : isPriceCondition m with
    | false => rfl
    | true =>
      have : m ∈ c.mods.filter isPriceCondition := List.mem_filter.2 ⟨hm, hp⟩
      rw [h] at this
      cases this

/-- C28 (witness): with a minimum price of 100 and no maximum price, the count query
and the page-fetch query both carry `price >= 100` and `price <= 0`, and a product of
price 200 fails `price <= 0`; with a maximum price of 100 alone both conditions are
there as well; without a price range the queries have no condition. -/
theorem C28_price_range_witness :
    ((GetProducts (tableEnv threeOrders)
          { PriceRange := { MinPrice := { bits := 0x4059000000000000 } } } ()).2.1 =
        [QueryCall.Count "products"
            [QueryMod.WhereOp "\"products\".\"price\"" Operator.GTE
                (SQLValue.float { bits := 0x4059000000000000 }),
              QueryMod.WhereOp "\"products\".\"price\"" Operator.LTE
                (SQLValue.float { bits := 0 })] 3 none,
          QueryCall.All "products"
            [QueryMod.WhereOp "\"products\".\"price\"" Operator.GTE
                (SQLValue.float { bits := 0x4059000000000000 }),
              QueryMod.WhereOp "\"products\".\"price\"" Operator.LTE
                (SQLValue.float { bits := 0 }),
              QueryMod.OrderBy "updated_at desc", QueryMod.Load "User"] 3 none] ∧
      priceSatisfies { bits := 0x4069000000000000 }
        (QueryMod.WhereOp "\"products\".\"price\"" Operator.LTE
          (SQLValue.float { bits := 0 })) = false ∧
      (GetProducts (tableEnv threeOrders)
          { PriceRange := { MaxPrice := { bits := 0x4059000000000000 } } } ()).2.1 =
        [QueryCall.Count "products"
            [QueryMod.WhereOp "\"products\".\"price\"" Operator.GTE
                (SQLValue.float { bits := 0 }),
              QueryMod.WhereOp "\"products\".\"price\"" Operator.LTE
                (SQLValue.float { bits := 0x4059000000000000 })] 3 none,
          QueryCall.All "products"
            [QueryMod.WhereOp "\"products\".\"price\"" Operator.GTE
                (SQLValue.float { bits := 0 }),
              QueryMod.WhereOp "\"products\".\"price\"" Operator.LTE
                (SQLValue.float { bits := 0x4059000000000000 }),
              QueryMod.OrderBy "updated_at desc", QueryMod.Load "User"] 3 none] ∧
      (GetProducts (tableEnv threeOrders) {} ()).2.1 =
        [QueryCall.Count "products" [] 3 none,
          QueryCall.All "products"
            [QueryMod.OrderBy "updated_at desc", QueryMod.Load "User"] 3 none]) ∧
    (∃ (countMods : List QueryMod) (total : Int) (cerr : Option GoError)
      (rest : List QueryCall),
      (GetProducts (tableEnv threeOrders)
          { PriceRange := { MinPrice := { bits := 0x4059000000000000 } } } ()).2.1 =
        QueryCall.Count "products" countMods total cerr :: rest ∧
      ∀ c ∈ QueryCall.Count "products" countMods total cerr :: rest,
        QueryMod.WhereOp "\"products\".\"price\"" Operator.LTE
            (SQLValue.float { bits := 0 }) ∈ c.mods ∧
          priceSatisfies { bits := 0x4069000000000000 }
            (QueryMod.WhereOp "\"products\".\"price\"" Operator.LTE
              (SQLValue.float { bits := 0 })) = false) :=
  ⟨by decide,
    (C28_price_range (tableEnv threeOrders)
      { PriceRange := { MinPrice := { bits := 0x4059000000000000 } } } ()).elim
      (fun countMods h1 => h1.elim (fun total h2 => h2.elim (fun cerr h3 => h3.elim
        (fun rest h => ⟨countMods, total, cerr, rest, h.2.1,
          h.2.2.2.2.2.1 (by decide) (by decide) { bits := 0x4069000000000000 }
            (by decide)⟩))))⟩

end ProductRepo

/-! ## Claims about the pagination of a product listing request -/

/-- The product service runs the queries of the repository on the converted input. -/
theorem ProductService.GetProducts_calls {σ : Type} (env : QueryEnv σ)
    (input : ProductService.GetProductsInput) (s : σ) :
    (ProductService.GetProducts env input s).2
      = (ProductRepo.GetProducts env
          (ProductService.toFilter (ProductService.withDefaultPagination input)) s).2 := by
  unfold ProductService.GetProducts
  split
  · rename_i h
    rw [h]
  · rename_i h
    rw [h]

namespace RestV1

theorem validGetProductsInput_ok (req : getProductsRequest)
    (h : (validGetProductsInput req).2 = none) :
    (validGetProductsInput req).1 =
      { ID := req.ID
        Title := strings.TrimSpace req.Title
        IsActive := req.IsActive
        PriceRange :=
          { MinPrice := req.PriceRange.MinPrice
            MaxPrice := req.PriceRange.MaxPrice }
        UserID := req.UserID
        OrderBy :=
          { CreatedAt := strings.TrimSpace req.OrderBy.CreatedAt
            Title := strings.TrimSpace req.OrderBy.Title
            Price := strings.TrimSpace req.OrderBy.Price
            Quantity := strings.TrimSpace req.OrderBy.Quantity }
        Pagination :=
          { Limit := req.Pagination.Limit
            Page := req.Pagination.Page } } := by
  unfold validGetProductsInput at h ⊢
  split_ifs at h ⊢
  rfl

/-- C29: the REST validator `validGetProductsInput` does not look at the pagination:
whether it accepts a request does not depend on the pagination, and an accepted
request carries its page and limit unchanged. When they are not both zero the service
hands them on to the repository as they are, whose page-fetch query then ends with the
offset `Limit × (Page − 1)` (in `int` arithmetic) and the limit `Limit`. -/
theorem C29_pagination_not_validated (req : getProductsRequest) :
    (∀ pagination : paginationInput,
      (validGetProductsInput { req with Pagination := pagination }).2
        = (validGetProductsInput req).2) ∧
    ((validGetProductsInput req).2 = none →
      (validGetProductsInput req).1.Pagination
        = { Page := req.Pagination.Page, Limit := req.Pagination.Limit }) ∧
    ((validGetProductsInput req).2 = none → req.Pagination ≠ {} →
      ∀ {σ : Type} (env : QueryEnv σ) (s : σ) (table : String) (mods : List QueryMod)
        (rows : Nat) (err : Option GoError),
        QueryCall.All table mods rows err ∈
          (ProductService.GetProducts env (validGetProductsInput req).1 s).2.1 →
        ∃ pre, mods = pre ++
          [QueryMod.Offset (intMul req.Pagination.Limit (intSub req.Pagination.Page 1)),
            QueryMod.Limit req.Pagination.Limit]) := by
  refine ⟨?_, ?_, ?_⟩
  · intro pagination
    unfold validGetProductsInput
    split_ifs <;> rfl
  · intro h
    rw [validGetProductsInput_ok req h]
  · intro h hne σ env s table mods rows err hc
    have hz : ¬ (req.Pagination.Page = 0 ∧ req.Pagination.Limit = 0) := by
      intro hz
      apply hne
      rcases hreq : req.Pagination with ⟨page, limit⟩
      rw [hreq] at hz
      have h1 : page = 0 := hz.1
      have h2 : limit = 0 := hz.2
      rw [h1, h2]
    have hp : (validGetProductsInput req).1.Pagination ≠ {} := by
      rw [validGetProductsInput_ok req h]
      intro heq
      simp only [ProductService.Pagination.mk.injEq] at heq
      exact hz heq
    have hd : ProductService.withDefaultPagination (validGetProductsInput req).1
        = (validGetProductsInput req).1 := by
      unfold ProductService.withDefaultPagination
      rw [if_neg hp]
    rw [ProductService.GetProducts_calls, hd] at hc
    have h1 := ProductRepo.GetProducts_fetch env _ s table mods rows err hc
    have hF : (ProductService.toFilter (validGetProductsInput req).1).Pagination
        = { Page := req.Pagination.Page, Limit := req.Pagination.Limit } := by
      rw [validGetProductsInput_ok req h]
      rfl
    have hF2 : (ProductService.toFilter (validGetProductsInput req).1).Pagination ≠ {} := by
      rw [hF]
      intro heq
      simp only [ProductRepo.Pagination.mk.injEq] at heq
      exact hz heq
    refine ⟨ProductRepo.sortMods (ProductService.toFilter (validGetProductsInput req).1)
      (ProductRepo.filterMods (ProductService.toFilter (validGetProductsInput req).1)), ?_⟩
    rw [h1]
    unfold ProductRepo.pagingMods
    rw [if_pos hF2, hF]

/-- C29 (witness): a request for page 0 with limit 5 is accepted, and the page-fetch
query of the repository has the offset -5. -/
theorem C29_pagination_not_validated_witness :
    (validGetProductsInput { Pagination := { Page := 0, Limit := 5 } }).2 = none ∧
      (validGetProductsInput { Pagination := { Page := -3, Limit := 5000 } }).1.Pagination
        = { Page := -3, Limit := 5000 } ∧
      (ProductService.GetProducts (tableEnv threeOrders)
          (validGetProductsInput { Pagination := { Page := 0, Limit := 5 } }).1 ()).2.1 =
        [QueryCall.Count "products" [] 3 none,
          QueryCall.All "products"
            [QueryMod.OrderBy "updated_at desc", QueryMod.Load "User", QueryMod.Offset (-5),
              QueryMod.Limit 5] 3 none] :=
  ⟨by decide,
    (C29_pagination_not_validated { Pagination := { Page := -3, Limit := 5000 } }).2.1
      (by decide),
    by decide⟩

end RestV1

/-! ## Claims about the GraphQL product listing input -/

namespace Graph

/-- C30: `validGetProductsInput` returns the error of a failed check before the
pagination. When those checks pass: without a pagination it returns page 1 and limit
20; with a pagination whose page and limit are both present it returns
`errInvalidPage` for a page below 1, `errInvalidLimit` for a limit outside 0..1000, and
the page and limit otherwise; with a pagination whose page is absent, or whose page is
at least 1 and whose limit is absent, it panics on a nil pointer dereference. -/
theorem C30_gql_pagination (input : Mod.GetProductsInput) :
    (∀ err, validGetProductsFilter input = .error err →
      validGetProductsInput input = .ok ({}, some err)) ∧
    (∀ servInput, validGetProductsFilter input = .ok servInput →
      (input.Pagination = none →
        validGetProductsInput input =
          .ok ({ servInput with Pagination := { Page := 1, Limit := 20 } }, none)) ∧
      (∀ page limit, input.Pagination = some { Page := some page, Limit := some limit } →
        validGetProductsInput input =
          .ok (if page < 1 then ({}, some errInvalidPage)
            else if limit < 0 ∨ limit > 1000 then ({}, some errInvalidLimit)
            else ({ servInput with Pagination := { Page := page, Limit := limit } }, none))) ∧
      (∀ limit, input.Pagination = some { Page := none, Limit := limit } →
        validGetProductsInput input = .error .nilPointerDereference) ∧
      (∀ page, 1 ≤ page → input.Pagination = some { Page := some page, Limit := none } →
        validGetProductsInput input = .error .nilPointerDereference) ∧
      (∀ page, page < 1 → input.Pagination = some { Page := some page, Limit := none } →
        validGetProductsInput input = .ok ({}, some errInvalidPage))) := by
  constructor
  · intro err h
    unfold validGetProductsInput
    rw [h]
  · intro servInput h
    refine ⟨?_, ?_, ?_, ?_, ?_⟩
    · intro hp
      unfold validGetProductsInput
      rw [h, hp]
      rfl
    · intro page limit hp
      unfold validGetProductsInput
      rw [h, hp]
      simp only [validateProductPagination, deref, MaxLimit]
      by_cases h1 : page < 1
      · simp only [h1, if_true]
      · by_cases h2 : limit < 0 ∨ limit > 1000
        · simp only [h1, h2, if_true, if_false]
        · simp only [h1, h2, if_false]
    · intro limit hp
      unfold validGetProductsInput
      rw [h, hp]
      rfl
    · intro page h1 hp
      unfold validGetProductsInput
      rw [h, hp]
      have h2 : ¬ page < 1 := by omega
      simp only [validateProductPagination, deref, h2, if_false]
    · intro page h1 hp
      unfold validGetProductsInput
      rw [h, hp]
      simp only [validateProductPagination, deref, h1, if_true]

/-- C30 (witness): an input whose pagination gives a limit and no page. -/
theorem C30_gql_pagination_witness :
    validGetProductsInput { Pagination := some { Limit := some 20 } }
      = .error .nilPointerDereference :=
  ((C30_gql_pagination { Pagination := some { Limit := some 20 } }).2 {} rfl).2.2.1
    (some 20) rfl

end Graph

end S3Corp
